import Mathlib

/-!
# W25Q QSPI flash driver (`Library/w25q_mem.c`, `Library/w25q_mem.h`)

A shallow embedding of the driver.  Machine integers are natural numbers reduced
modulo `2^32` where the C code computes in `u32_t`.  The QSPI peripheral (the HAL
functions `HAL_QSPI_Command`, `HAL_QSPI_Receive`, `HAL_QSPI_Transmit`) is an arbitrary
state machine `Transport σ`; the driver threads its state and records every HAL call
in a chronological trace.  `while (W25Q_IsBusy() == W25Q_BUSY)` loops take a bound on
the number of polls; a run that is still polling when the bound is reached yields
`none` as its return value together with the state reached so far.
-/

namespace W25Q

/-! ## Chip parameters (`w25q_mem.h`, lines 37-51) -/

/-- Mem size in MB-bit. -/
def MEM_FLASH_SIZE : Nat := 256
/-- Mem big block size in KB. -/
def MEM_BLOCK_SIZE : Nat := 64
/-- Mem small block size in KB. -/
def MEM_SBLOCK_SIZE : Nat := 32
/-- Mem sector size in KB. -/
def MEM_SECTOR_SIZE : Nat := 4
/-- Mem page size in bytes. -/
def MEM_PAGE_SIZE : Nat := 256
/-- Blocks count. -/
def BLOCK_COUNT : Nat := MEM_FLASH_SIZE * 2
/-- Sector count. -/
def SECTOR_COUNT : Nat := BLOCK_COUNT * 16
/-- Pages count. -/
def PAGE_COUNT : Nat := SECTOR_COUNT * 16

/-- Modulus of `u32_t` arithmetic. -/
def U32_MOD : Nat := 4294967296

/-! ## Return states and status structure (`w25q_mem.h`, lines 61-87) -/

/-- The enum `W25Q_STATE`. -/
inductive W25Q_STATE where
  | W25Q_OK
  | W25Q_BUSY
  | W25Q_PARAM_ERR
  | W25Q_CHIP_ERR
  | W25Q_SPI_ERR
  | W25Q_CHIP_IGNORE
  deriving DecidableEq, Repr

/-- The struct `W25Q_STATUS_REG`. -/
structure W25Q_STATUS_REG where
  BUSY : Bool
  WEL : Bool
  QE : Bool
  SUS : Bool
  ADS : Bool
  ADP : Bool
  SLEEP : Bool
  deriving DecidableEq, Repr

/-! ## Commands (`w25q_mem.h`, lines 152-209) -/

def W25Q_WRITE_ENABLE : Nat := 0x06
def W25Q_WRITE_DISABLE : Nat := 0x04
def W25Q_READ_SR1 : Nat := 0x05
def W25Q_READ_SR2 : Nat := 0x35
def W25Q_READ_SR3 : Nat := 0x15
def W25Q_FAST_READ_QUAD_IO : Nat := 0xEB
def W25Q_FAST_READ_QUAD_IO_4B : Nat := 0xEC
def W25Q_PAGE_PROGRAM_QUAD_INP : Nat := 0x32
def W25Q_PAGE_PROGRAM_QUAD_INP_4B : Nat := 0x34
def W25Q_SECTOR_ERASE : Nat := 0x20
def W25Q_SECTOR_ERASE_4B : Nat := 0x21
def W25Q_32KB_BLOCK_ERASE : Nat := 0x52
def W25Q_64KB_BLOCK_ERASE : Nat := 0xD8
def W25Q_64KB_BLOCK_ERASE_4B : Nat := 0xDC
def W25Q_CHIP_ERASE : Nat := 0xC7
def W25Q_PAGE_PROGRAM : Nat := 0x02
def W25Q_PAGE_PROGRAM_4B : Nat := 0x12
def W25Q_WRITE_SR1 : Nat := 0x01
def W25Q_WRITE_SR2 : Nat := 0x31
def W25Q_WRITE_SR3 : Nat := 0x11
def W25Q_READ_DATA : Nat := 0x03
def W25Q_READ_DATA_4B : Nat := 0x13
def W25Q_ERASEPROG_SUSPEND : Nat := 0x75
def W25Q_ERASEPROG_RESUME : Nat := 0x7A
def W25Q_ENABLE_4B_MODE : Nat := 0xB7
def W25Q_DISABLE_4B_MODE : Nat := 0xE9
def W25Q_POWERDOWN : Nat := 0xB9
def W25Q_POWERUP : Nat := 0xAB
def W25Q_DEVID : Nat := 0xAB
def W25Q_ENABLE_RST : Nat := 0x66
def W25Q_RESET : Nat := 0x99

/-! ## The HAL interface

The STM32 HAL is an external library; its constants are kept symbolic and its three
entry points are the fields of `Transport`. -/

/-- The HAL return type `HAL_StatusTypeDef`. -/
inductive HAL_StatusTypeDef where
  | HAL_OK
  | HAL_ERROR
  | HAL_BUSY
  | HAL_TIMEOUT
  deriving DecidableEq, Repr

/-- The HAL constants that the driver stores in the fields of a command. -/
inductive HalConst where
  | QSPI_INSTRUCTION_1_LINE
  | QSPI_ADDRESS_NONE
  | QSPI_ADDRESS_1_LINE
  | QSPI_ADDRESS_4_LINES
  | QSPI_ADDRESS_24_BITS
  | QSPI_ADDRESS_32_BITS
  | QSPI_ALTERNATE_BYTES_NONE
  | QSPI_DATA_NONE
  | QSPI_DATA_1_LINE
  | QSPI_DATA_4_LINES
  | QSPI_DDR_MODE_DISABLE
  | QSPI_DDR_HHC_ANALOG_DELAY
  | QSPI_SIOO_INST_EVERY_CMD
  | UNINITIALIZED
  deriving DecidableEq, Repr

/-- The HAL struct `QSPI_CommandTypeDef`, with the fields the driver assigns. -/
structure QSPI_CommandTypeDef where
  InstructionMode : HalConst
  Instruction : Nat
  AddressMode : HalConst
  AddressSize : HalConst
  Address : Nat
  AlternateByteMode : HalConst
  AlternateBytes : HalConst
  AlternateBytesSize : HalConst
  DummyCycles : Nat
  DataMode : HalConst
  NbData : Nat
  DdrMode : HalConst
  DdrHoldHalfCycle : HalConst
  SIOOMode : HalConst
  deriving DecidableEq, Repr

/-- The QSPI peripheral behind `hqspi`: a state machine with the three HAL calls the
driver makes.  `HAL_QSPI_Receive` returns the bytes it deposited in the caller's
buffer. -/
structure Transport (σ : Type) where
  HAL_QSPI_Command : σ → QSPI_CommandTypeDef → HAL_StatusTypeDef × σ
  HAL_QSPI_Receive : σ → HAL_StatusTypeDef × List Nat × σ
  HAL_QSPI_Transmit : σ → List Nat → HAL_StatusTypeDef × σ

/-- One HAL call as seen on the bus, with the status the HAL returned. -/
inductive Event where
  | command (com : QSPI_CommandTypeDef) (st : HAL_StatusTypeDef)
  | receive (data : List Nat) (st : HAL_StatusTypeDef)
  | transmit (data : List Nat) (st : HAL_StatusTypeDef)
  deriving DecidableEq, Repr

/-- The global state of the driver: `w25q_status`, the peripheral `hqspi`, and the
HAL calls made so far (oldest first). -/
structure Driver (σ : Type) where
  w25q_status : W25Q_STATUS_REG
  hqspi : σ
  trace : List Event

/-- The call `HAL_QSPI_Command(&hqspi, &com, ...)`. -/
def halCommand {σ : Type} (T : Transport σ) (d : Driver σ) (com : QSPI_CommandTypeDef) :
    HAL_StatusTypeDef × Driver σ :=
  let r := T.HAL_QSPI_Command d.hqspi com
  (r.1, { d with hqspi := r.2, trace := d.trace ++ [Event.command com r.1] })

/-- The call `HAL_QSPI_Receive(&hqspi, buf, ...)`; the second component is the list of
bytes written to `buf`. -/
def halReceive {σ : Type} (T : Transport σ) (d : Driver σ) :
    HAL_StatusTypeDef × List Nat × Driver σ :=
  let r := T.HAL_QSPI_Receive d.hqspi
  (r.1, r.2.1, { d with hqspi := r.2.2, trace := d.trace ++ [Event.receive r.2.1 r.1] })

/-- The call `HAL_QSPI_Transmit(&hqspi, buf, ...)`. -/
def halTransmit {σ : Type} (T : Transport σ) (d : Driver σ) (buf : List Nat) :
    HAL_StatusTypeDef × Driver σ :=
  let r := T.HAL_QSPI_Transmit d.hqspi buf
  (r.1, { d with hqspi := r.2, trace := d.trace ++ [Event.transmit buf r.1] })

/-- Contents of a `u8_t` buffer after the HAL has written `recv` to its start. -/
def storeBytes (recv old : List Nat) : List Nat :=
  recv.map (fun b => b % 256) ++ old.drop recv.length

/-! ## Address translation (`w25q_mem.c`, lines 1517-1519) -/

/-- The function `page_to_addr`: `pageNum * MEM_PAGE_SIZE + pageShift` in `u32_t`. -/
def page_to_addr (pageNum pageShift : Nat) : Nat :=
  ((pageNum * MEM_PAGE_SIZE) % U32_MOD + pageShift) % U32_MOD

/-! ## Building a command

Every function of the driver assigns the same values to `InstructionMode`, the three
alternate-byte fields, `DdrMode`, `DdrHoldHalfCycle` and `SIOOMode`; `mkCom` fills
them in and takes the fields that vary. -/

/-- A command with the assignments common to all functions of the driver. -/
def mkCom (Instruction : Nat) (AddressMode AddressSize : HalConst) (Address DummyCycles : Nat)
    (DataMode : HalConst) (NbData : Nat) : QSPI_CommandTypeDef :=
  { InstructionMode := HalConst.QSPI_INSTRUCTION_1_LINE
    Instruction := Instruction
    AddressMode := AddressMode
    AddressSize := AddressSize
    Address := Address
    AlternateByteMode := HalConst.QSPI_ALTERNATE_BYTES_NONE
    AlternateBytes := HalConst.QSPI_ALTERNATE_BYTES_NONE
    AlternateBytesSize := HalConst.QSPI_ALTERNATE_BYTES_NONE
    DummyCycles := DummyCycles
    DataMode := DataMode
    NbData := NbData
    DdrMode := HalConst.QSPI_DDR_MODE_DISABLE
    DdrHoldHalfCycle := HalConst.QSPI_DDR_HHC_ANALOG_DELAY
    SIOOMode := HalConst.QSPI_SIOO_INST_EVERY_CMD }

/-- The address size chosen by `#if MEM_FLASH_SIZE > 128U`. -/
def addrSize : HalConst :=
  if MEM_FLASH_SIZE > 128 then HalConst.QSPI_ADDRESS_32_BITS else HalConst.QSPI_ADDRESS_24_BITS

/-! ## Register functions (`w25q_mem.c`, lines 156-196 and 303-314) -/

/-- The command built by `W25Q_ReadStatusReg` for the instruction `i`. -/
def readStatusRegCom (i : Nat) : QSPI_CommandTypeDef :=
  mkCom i HalConst.QSPI_ADDRESS_NONE HalConst.QSPI_ADDRESS_NONE 0 0 HalConst.QSPI_DATA_1_LINE 1

/-- The function `W25Q_ReadStatusReg`; the second component is `*reg_data` after the
call. -/
def W25Q_ReadStatusReg {σ : Type} (T : Transport σ) (d : Driver σ) (reg_data reg_num : Nat) :
    W25Q_STATE × Nat × Driver σ :=
  let instr : Option Nat :=
    if reg_num = 1 then some W25Q_READ_SR1
    else if reg_num = 2 then some W25Q_READ_SR2
    else if reg_num = 3 then some W25Q_READ_SR3
    else none
  match instr with
  | none => (W25Q_STATE.W25Q_PARAM_ERR, reg_data, d)
  | some i =>
    let c := halCommand T d (readStatusRegCom i)
    if c.1 ≠ HAL_StatusTypeDef.HAL_OK then (W25Q_STATE.W25Q_SPI_ERR, reg_data, c.2)
    else
      let r := halReceive T c.2
      let reg_data1 := (storeBytes r.2.1 [reg_data]).headD reg_data
      if r.1 ≠ HAL_StatusTypeDef.HAL_OK then (W25Q_STATE.W25Q_SPI_ERR, reg_data1, r.2.2)
      else (W25Q_STATE.W25Q_OK, reg_data1, r.2.2)

/-- The function `W25Q_IsBusy`. -/
def W25Q_IsBusy {σ : Type} (T : Transport σ) (d : Driver σ) : W25Q_STATE × Driver σ :=
  let r := W25Q_ReadStatusReg T d 0 1
  if r.1 ≠ W25Q_STATE.W25Q_OK then (r.1, r.2.2)
  else
    let busy : Bool := decide (r.2.1 &&& 1 ≠ 0)
    let d1 : Driver σ := { r.2.2 with w25q_status := { r.2.2.w25q_status with BUSY := busy } }
    (if busy then W25Q_STATE.W25Q_BUSY else W25Q_STATE.W25Q_OK, d1)

/-- The loop `while (W25Q_IsBusy() == W25Q_BUSY) w25q_delay(1);` run for at most `fuel`
polls.  The flag is `true` when the loop was left, `false` when the last permitted
poll still answered `W25Q_BUSY`. -/
def busyWait {σ : Type} (T : Transport σ) : Nat → Driver σ → Bool × Driver σ
  | 0, d => (false, d)
  | fuel + 1, d =>
    let r := W25Q_IsBusy T d
    if r.1 = W25Q_STATE.W25Q_BUSY then busyWait T fuel r.2 else (true, r.2)

/-- The command built by `W25Q_WriteEnable`. -/
def writeEnableCom (enable : Bool) : QSPI_CommandTypeDef :=
  mkCom (if enable then W25Q_WRITE_ENABLE else W25Q_WRITE_DISABLE)
    HalConst.QSPI_ADDRESS_NONE HalConst.QSPI_ADDRESS_NONE 0 0 HalConst.QSPI_DATA_NONE 0

/-- The function `W25Q_WriteEnable` (`w25q_mem.c`, lines 1409-1440). -/
def W25Q_WriteEnable {σ : Type} (T : Transport σ) (d : Driver σ) (enable : Bool) :
    W25Q_STATE × Driver σ :=
  let c := halCommand T d (writeEnableCom enable)
  if c.1 ≠ HAL_StatusTypeDef.HAL_OK then (W25Q_STATE.W25Q_SPI_ERR, c.2)
  else (W25Q_STATE.W25Q_OK, { c.2 with w25q_status := { c.2.w25q_status with WEL := true } })

/-! ## Raw read and program (`w25q_mem.c`, lines 478-519 and 724-773) -/

/-- The command built by `W25Q_ReadRaw`. -/
def readRawCom (data_len rawAddr : Nat) : QSPI_CommandTypeDef :=
  mkCom (if MEM_FLASH_SIZE > 128 then W25Q_FAST_READ_QUAD_IO_4B else W25Q_FAST_READ_QUAD_IO)
    HalConst.QSPI_ADDRESS_4_LINES addrSize rawAddr 6 HalConst.QSPI_DATA_4_LINES data_len

/-- The function `W25Q_ReadRaw`; the second component is the buffer `buf` after the
call. -/
def W25Q_ReadRaw {σ : Type} (T : Transport σ) (fuel : Nat) (d : Driver σ) (buf : List Nat)
    (data_len rawAddr : Nat) : Option W25Q_STATE × List Nat × Driver σ :=
  if data_len > 256 ∨ data_len = 0 then (some W25Q_STATE.W25Q_PARAM_ERR, buf, d)
  else
    let w := busyWait T fuel d
    if w.1 = false then (none, buf, w.2)
    else
      let c := halCommand T w.2 (readRawCom data_len rawAddr)
      if c.1 ≠ HAL_StatusTypeDef.HAL_OK then (some W25Q_STATE.W25Q_SPI_ERR, buf, c.2)
      else
        let r := halReceive T c.2
        if r.1 ≠ HAL_StatusTypeDef.HAL_OK then
          (some W25Q_STATE.W25Q_SPI_ERR, storeBytes r.2.1 buf, r.2.2)
        else (some W25Q_STATE.W25Q_OK, storeBytes r.2.1 buf, r.2.2)

/-- The command built by `W25Q_ProgramRaw`. -/
def programRawCom (data_len rawAddr : Nat) : QSPI_CommandTypeDef :=
  mkCom (if MEM_FLASH_SIZE > 128 then W25Q_PAGE_PROGRAM_QUAD_INP_4B
      else W25Q_PAGE_PROGRAM_QUAD_INP)
    HalConst.QSPI_ADDRESS_1_LINE addrSize rawAddr 0 HalConst.QSPI_DATA_4_LINES data_len

/-- The function `W25Q_ProgramRaw`. -/
def W25Q_ProgramRaw {σ : Type} (T : Transport σ) (fuel : Nat) (d : Driver σ) (buf : List Nat)
    (data_len rawAddr : Nat) : Option W25Q_STATE × Driver σ :=
  if data_len > 256 ∨ data_len = 0 then (some W25Q_STATE.W25Q_PARAM_ERR, d)
  else
    let w := busyWait T fuel d
    if w.1 = false then (none, w.2)
    else
      let e := W25Q_WriteEnable T w.2 true
      if e.1 ≠ W25Q_STATE.W25Q_OK then (some e.1, e.2)
      else
        let c := halCommand T e.2 (programRawCom data_len rawAddr)
        if c.1 ≠ HAL_StatusTypeDef.HAL_OK then (some W25Q_STATE.W25Q_SPI_ERR, c.2)
        else
          let t := halTransmit T c.2 buf
          if t.1 ≠ HAL_StatusTypeDef.HAL_OK then (some W25Q_STATE.W25Q_SPI_ERR, t.2)
          else
            let w2 := busyWait T fuel t.2
            if w2.1 = false then (none, w2.2) else (some W25Q_STATE.W25Q_OK, w2.2)

/-! ## Typed values and their bytes

`memcpy` between a variable and a `u8_t` array: the target is a little-endian
Cortex-M, signed values are two's complement. -/

/-- The `n` bytes of the unsigned value `v`, least significant first. -/
def bytesLE (n v : Nat) : List Nat :=
  (List.range n).map (fun i => v / 256 ^ i % 256)

/-- The unsigned value of a little-endian byte list. -/
def valueLE : List Nat → Nat
  | [] => 0
  | b :: bs => b % 256 + 256 * valueLE bs

/-- The bit pattern of a signed value of `n` bytes. -/
def toUnsigned (n : Nat) (v : Int) : Nat :=
  (v % (256 ^ n : Nat)).toNat

/-- The signed value of an `n`-byte bit pattern. -/
def toSigned (n u : Nat) : Int :=
  if 2 * u ≥ 256 ^ n then (u : Int) - (256 ^ n : Nat) else u

/-- A local array `u8_t data[n]` after `W25Q_ReadRaw` has filled `buf`. -/
def localData (n : Nat) (buf : List Nat) : List Nat :=
  (buf ++ List.replicate n 0).take n

/-! ## Typed reads (`w25q_mem.c`, lines 332-465) -/

/-- The function `W25Q_ReadSByte`; the second component is `*buf` after the call. -/
def W25Q_ReadSByte {σ : Type} (T : Transport σ) (fuel : Nat) (d : Driver σ) (buf : Int)
    (pageShift pageNum : Nat) : Option W25Q_STATE × Int × Driver σ :=
  if pageNum ≥ PAGE_COUNT then (some W25Q_STATE.W25Q_PARAM_ERR, buf, d)
  else
    let rawAddr := page_to_addr pageNum pageShift
    let r := W25Q_ReadRaw T fuel d (List.replicate 1 0) 1 rawAddr
    if r.1 ≠ some W25Q_STATE.W25Q_OK then (r.1, buf, r.2.2)
    else (some W25Q_STATE.W25Q_OK, toSigned 1 (valueLE (localData 1 r.2.1)), r.2.2)

/-- The function `W25Q_ReadByte`. -/
def W25Q_ReadByte {σ : Type} (T : Transport σ) (fuel : Nat) (d : Driver σ) (buf : Nat)
    (pageShift pageNum : Nat) : Option W25Q_STATE × Nat × Driver σ :=
  if pageNum ≥ PAGE_COUNT then (some W25Q_STATE.W25Q_PARAM_ERR, buf, d)
  else
    let rawAddr := page_to_addr pageNum pageShift
    let r := W25Q_ReadRaw T fuel d (List.replicate 1 0) 1 rawAddr
    if r.1 ≠ some W25Q_STATE.W25Q_OK then (r.1, buf, r.2.2)
    else (some W25Q_STATE.W25Q_OK, valueLE (localData 1 r.2.1), r.2.2)

/-- The function `W25Q_ReadSWord`. -/
def W25Q_ReadSWord {σ : Type} (T : Transport σ) (fuel : Nat) (d : Driver σ) (buf : Int)
    (pageShift pageNum : Nat) : Option W25Q_STATE × Int × Driver σ :=
  if pageNum ≥ PAGE_COUNT ∨ pageShift > 256 - 2 then (some W25Q_STATE.W25Q_PARAM_ERR, buf, d)
  else
    let rawAddr := page_to_addr pageNum pageShift
    let r := W25Q_ReadRaw T fuel d (List.replicate 2 0) 2 rawAddr
    if r.1 ≠ some W25Q_STATE.W25Q_OK then (r.1, buf, r.2.2)
    else (some W25Q_STATE.W25Q_OK, toSigned 2 (valueLE (localData 2 r.2.1)), r.2.2)

/-- The function `W25Q_ReadWord`. -/
def W25Q_ReadWord {σ : Type} (T : Transport σ) (fuel : Nat) (d : Driver σ) (buf : Nat)
    (pageShift pageNum : Nat) : Option W25Q_STATE × Nat × Driver σ :=
  if pageNum ≥ PAGE_COUNT ∨ pageShift > 256 - 2 then (some W25Q_STATE.W25Q_PARAM_ERR, buf, d)
  else
    let rawAddr := page_to_addr pageNum pageShift
    let r := W25Q_ReadRaw T fuel d (List.replicate 2 0) 2 rawAddr
    if r.1 ≠ some W25Q_STATE.W25Q_OK then (r.1, buf, r.2.2)
    else (some W25Q_STATE.W25Q_OK, valueLE (localData 2 r.2.1), r.2.2)

/-- The function `W25Q_ReadSLong`. -/
def W25Q_ReadSLong {σ : Type} (T : Transport σ) (fuel : Nat) (d : Driver σ) (buf : Int)
    (pageShift pageNum : Nat) : Option W25Q_STATE × Int × Driver σ :=
  if pageNum ≥ PAGE_COUNT ∨ pageShift > 256 - 4 then (some W25Q_STATE.W25Q_PARAM_ERR, buf, d)
  else
    let rawAddr := page_to_addr pageNum pageShift
    let r := W25Q_ReadRaw T fuel d (List.replicate 4 0) 4 rawAddr
    if r.1 ≠ some W25Q_STATE.W25Q_OK then (r.1, buf, r.2.2)
    else (some W25Q_STATE.W25Q_OK, toSigned 4 (valueLE (localData 4 r.2.1)), r.2.2)

/-- The function `W25Q_ReadLong`. -/
def W25Q_ReadLong {σ : Type} (T : Transport σ) (fuel : Nat) (d : Driver σ) (buf : Nat)
    (pageShift pageNum : Nat) : Option W25Q_STATE × Nat × Driver σ :=
  if pageNum ≥ PAGE_COUNT ∨ pageShift > 256 - 4 then (some W25Q_STATE.W25Q_PARAM_ERR, buf, d)
  else
    let rawAddr := page_to_addr pageNum pageShift
    let r := W25Q_ReadRaw T fuel d (List.replicate 4 0) 4 rawAddr
    if r.1 ≠ some W25Q_STATE.W25Q_OK then (r.1, buf, r.2.2)
    else (some W25Q_STATE.W25Q_OK, valueLE (localData 4 r.2.1), r.2.2)

/-- The function `W25Q_ReadData`; the comparison `pageShift > 256 - len` is made in
`int`. -/
def W25Q_ReadData {σ : Type} (T : Transport σ) (fuel : Nat) (d : Driver σ) (buf : List Nat)
    (len pageShift pageNum : Nat) : Option W25Q_STATE × List Nat × Driver σ :=
  if pageNum ≥ PAGE_COUNT ∨ len = 0 ∨ len > 256 ∨ (pageShift : Int) > 256 - (len : Int) then
    (some W25Q_STATE.W25Q_PARAM_ERR, buf, d)
  else
    let rawAddr := page_to_addr pageNum pageShift
    W25Q_ReadRaw T fuel d buf len rawAddr

/-! ## Typed programs (`w25q_mem.c`, lines 596-711) -/

/-- The function `W25Q_ProgramSByte`. -/
def W25Q_ProgramSByte {σ : Type} (T : Transport σ) (fuel : Nat) (d : Driver σ) (buf : Int)
    (pageShift pageNum : Nat) : Option W25Q_STATE × Driver σ :=
  if pageNum ≥ PAGE_COUNT then (some W25Q_STATE.W25Q_PARAM_ERR, d)
  else
    let rawAddr := page_to_addr pageNum pageShift
    let data := bytesLE 1 (toUnsigned 1 buf)
    W25Q_ProgramRaw T fuel d data 1 rawAddr

/-- The function `W25Q_ProgramByte`. -/
def W25Q_ProgramByte {σ : Type} (T : Transport σ) (fuel : Nat) (d : Driver σ) (buf : Nat)
    (pageShift pageNum : Nat) : Option W25Q_STATE × Driver σ :=
  if pageNum ≥ PAGE_COUNT then (some W25Q_STATE.W25Q_PARAM_ERR, d)
  else
    let rawAddr := page_to_addr pageNum pageShift
    let data := bytesLE 1 buf
    W25Q_ProgramRaw T fuel d data 1 rawAddr

/-- The function `W25Q_ProgramSWord`. -/
def W25Q_ProgramSWord {σ : Type} (T : Transport σ) (fuel : Nat) (d : Driver σ) (buf : Int)
    (pageShift pageNum : Nat) : Option W25Q_STATE × Driver σ :=
  if pageNum ≥ PAGE_COUNT ∨ pageShift > 256 - 2 then (some W25Q_STATE.W25Q_PARAM_ERR, d)
  else
    let rawAddr := page_to_addr pageNum pageShift
    let data := bytesLE 2 (toUnsigned 2 buf)
    W25Q_ProgramRaw T fuel d data 2 rawAddr

/-- The function `W25Q_ProgramWord`. -/
def W25Q_ProgramWord {σ : Type} (T : Transport σ) (fuel : Nat) (d : Driver σ) (buf : Nat)
    (pageShift pageNum : Nat) : Option W25Q_STATE × Driver σ :=
  if pageNum ≥ PAGE_COUNT ∨ pageShift > 256 - 2 then (some W25Q_STATE.W25Q_PARAM_ERR, d)
  else
    let rawAddr := page_to_addr pageNum pageShift
    let data := bytesLE 2 buf
    W25Q_ProgramRaw T fuel d data 2 rawAddr

/-- The function `W25Q_ProgramSLong`. -/
def W25Q_ProgramSLong {σ : Type} (T : Transport σ) (fuel : Nat) (d : Driver σ) (buf : Int)
    (pageShift pageNum : Nat) : Option W25Q_STATE × Driver σ :=
  if pageNum ≥ PAGE_COUNT ∨ pageShift > 256 - 4 then (some W25Q_STATE.W25Q_PARAM_ERR, d)
  else
    let rawAddr := page_to_addr pageNum pageShift
    let data := bytesLE 4 (toUnsigned 4 buf)
    W25Q_ProgramRaw T fuel d data 4 rawAddr

/-- The function `W25Q_ProgramLong`. -/
def W25Q_ProgramLong {σ : Type} (T : Transport σ) (fuel : Nat) (d : Driver σ) (buf : Nat)
    (pageShift pageNum : Nat) : Option W25Q_STATE × Driver σ :=
  if pageNum ≥ PAGE_COUNT ∨ pageShift > 256 - 4 then (some W25Q_STATE.W25Q_PARAM_ERR, d)
  else
    let rawAddr := page_to_addr pageNum pageShift
    let data := bytesLE 4 buf
    W25Q_ProgramRaw T fuel d data 4 rawAddr

/-- The function `W25Q_ProgramData`. -/
def W25Q_ProgramData {σ : Type} (T : Transport σ) (fuel : Nat) (d : Driver σ) (buf : List Nat)
    (len pageShift pageNum : Nat) : Option W25Q_STATE × Driver σ :=
  if pageNum ≥ PAGE_COUNT ∨ len = 0 ∨ len > 256 ∨ (pageShift : Int) > 256 - (len : Int) then
    (some W25Q_STATE.W25Q_PARAM_ERR, d)
  else
    let rawAddr := page_to_addr pageNum pageShift
    W25Q_ProgramRaw T fuel d buf len rawAddr

/-! ## Erase functions (`w25q_mem.c`, lines 790-958) -/

/-- The value of `rawAddr` in `W25Q_EraseSector`:
`SectAddr * MEM_SECTOR_SIZE * 1024U` in `u32_t`. -/
def sectorRawAddr (SectAddr : Nat) : Nat :=
  (SectAddr * MEM_SECTOR_SIZE % U32_MOD * 1024) % U32_MOD

/-- The command built by `W25Q_EraseSector`. -/
def eraseSectorCom (rawAddr : Nat) : QSPI_CommandTypeDef :=
  mkCom (if MEM_FLASH_SIZE > 128 then W25Q_SECTOR_ERASE_4B else W25Q_SECTOR_ERASE)
    HalConst.QSPI_ADDRESS_1_LINE addrSize rawAddr 0 HalConst.QSPI_DATA_NONE 0

/-- The function `W25Q_EraseSector`. -/
def W25Q_EraseSector {σ : Type} (T : Transport σ) (fuel : Nat) (d : Driver σ) (SectAddr : Nat) :
    Option W25Q_STATE × Driver σ :=
  if SectAddr ≥ SECTOR_COUNT then (some W25Q_STATE.W25Q_PARAM_ERR, d)
  else
    let w := busyWait T fuel d
    if w.1 = false then (none, w.2)
    else
      let rawAddr := sectorRawAddr SectAddr
      let e := W25Q_WriteEnable T w.2 true
      if e.1 ≠ W25Q_STATE.W25Q_OK then (some e.1, e.2)
      else
        let c := halCommand T e.2 (eraseSectorCom rawAddr)
        if c.1 ≠ HAL_StatusTypeDef.HAL_OK then (some W25Q_STATE.W25Q_SPI_ERR, c.2)
        else
          let w2 := busyWait T fuel c.2
          if w2.1 = false then (none, w2.2) else (some W25Q_STATE.W25Q_OK, w2.2)

/-- The product `BlockAddr * MEM_SECTOR_SIZE * 1024U * 16` of `W25Q_EraseBlock`, in
`u32_t`. -/
def blockProduct (BlockAddr : Nat) : Nat :=
  ((BlockAddr * MEM_SECTOR_SIZE % U32_MOD * 1024) % U32_MOD * 16) % U32_MOD

/-- The value of `rawAddr` in `W25Q_EraseBlock`: the product, halved when `size == 32`. -/
def blockRawAddr (BlockAddr size : Nat) : Nat :=
  if size = 32 then blockProduct BlockAddr / 2 else blockProduct BlockAddr

/-- The command built by `W25Q_EraseBlock`.  When `size` is neither 32 nor 64 the source
leaves `Instruction` and `AddressSize` unassigned. -/
def eraseBlockCom (size rawAddr : Nat) : QSPI_CommandTypeDef :=
  let sel : Nat × HalConst :=
    if size = 32 then (W25Q_32KB_BLOCK_ERASE, addrSize)
    else if size = 64 then
      (if MEM_FLASH_SIZE > 128 then W25Q_64KB_BLOCK_ERASE_4B else W25Q_64KB_BLOCK_ERASE, addrSize)
    else (0, HalConst.UNINITIALIZED)
  mkCom sel.1 HalConst.QSPI_ADDRESS_1_LINE sel.2 rawAddr 0 HalConst.QSPI_DATA_NONE 0

/-- The function `W25Q_EraseBlock`. -/
def W25Q_EraseBlock {σ : Type} (T : Transport σ) (fuel : Nat) (d : Driver σ)
    (BlockAddr size : Nat) : Option W25Q_STATE × Driver σ :=
  if size ≠ 32 ∧ size ≠ 64 then (some W25Q_STATE.W25Q_PARAM_ERR, d)
  else if (size = 64 ∧ BlockAddr ≥ BLOCK_COUNT) ∨ (size = 32 ∧ BlockAddr ≥ BLOCK_COUNT * 2) then
    (some W25Q_STATE.W25Q_PARAM_ERR, d)
  else
    let w := busyWait T fuel d
    if w.1 = false then (none, w.2)
    else
      let rawAddr := blockRawAddr BlockAddr size
      let e := W25Q_WriteEnable T w.2 true
      if e.1 ≠ W25Q_STATE.W25Q_OK then (some e.1, e.2)
      else
        let c := halCommand T e.2 (eraseBlockCom size rawAddr)
        if c.1 ≠ HAL_StatusTypeDef.HAL_OK then (some W25Q_STATE.W25Q_SPI_ERR, c.2)
        else
          let w2 := busyWait T fuel c.2
          if w2.1 = false then (none, w2.2) else (some W25Q_STATE.W25Q_OK, w2.2)

/-- The command built by `W25Q_EraseChip`. -/
def eraseChipCom : QSPI_CommandTypeDef :=
  mkCom W25Q_CHIP_ERASE HalConst.QSPI_ADDRESS_NONE HalConst.QSPI_ADDRESS_NONE 0 0
    HalConst.QSPI_DATA_NONE 0

/-- The function `W25Q_EraseChip`. -/
def W25Q_EraseChip {σ : Type} (T : Transport σ) (fuel : Nat) (d : Driver σ) :
    Option W25Q_STATE × Driver σ :=
  let w := busyWait T fuel d
  if w.1 = false then (none, w.2)
  else
    let e := W25Q_WriteEnable T w.2 true
    if e.1 ≠ W25Q_STATE.W25Q_OK then (some e.1, e.2)
    else
      let c := halCommand T e.2 eraseChipCom
      if c.1 ≠ HAL_StatusTypeDef.HAL_OK then (some W25Q_STATE.W25Q_SPI_ERR, c.2)
      else
        let w2 := busyWait T fuel c.2
        if w2.1 = false then (none, w2.2) else (some W25Q_STATE.W25Q_OK, w2.2)

/-! ## The typed page-relative accessors as one family -/

/-- The twelve typed accessors. -/
inductive TypedAccessor where
  | ReadSByte | ReadByte | ReadSWord | ReadWord | ReadSLong | ReadLong
  | ProgramSByte | ProgramByte | ProgramSWord | ProgramWord | ProgramSLong | ProgramLong
  deriving DecidableEq, Repr

/-- Size in bytes of the accessor's type. -/
def TypedAccessor.size : TypedAccessor → Nat
  | ReadSByte | ReadByte | ProgramSByte | ProgramByte => 1
  | ReadSWord | ReadWord | ProgramSWord | ProgramWord => 2
  | ReadSLong | ReadLong | ProgramSLong | ProgramLong => 4

/-- Return value and driver state of a call of the accessor `a`.  For a read `buf` is the
value of `*buf` before the call, for a program the value to be written. -/
def TypedAccessor.call {σ : Type} (T : Transport σ) (fuel : Nat) (d : Driver σ)
    (a : TypedAccessor) (buf : Int) (pageShift pageNum : Nat) : Option W25Q_STATE × Driver σ :=
  match a with
  | ReadSByte => let r := W25Q_ReadSByte T fuel d buf pageShift pageNum; (r.1, r.2.2)
  | ReadByte => let r := W25Q_ReadByte T fuel d buf.toNat pageShift pageNum; (r.1, r.2.2)
  | ReadSWord => let r := W25Q_ReadSWord T fuel d buf pageShift pageNum; (r.1, r.2.2)
  | ReadWord => let r := W25Q_ReadWord T fuel d buf.toNat pageShift pageNum; (r.1, r.2.2)
  | ReadSLong => let r := W25Q_ReadSLong T fuel d buf pageShift pageNum; (r.1, r.2.2)
  | ReadLong => let r := W25Q_ReadLong T fuel d buf.toNat pageShift pageNum; (r.1, r.2.2)
  | ProgramSByte => W25Q_ProgramSByte T fuel d buf pageShift pageNum
  | ProgramByte => W25Q_ProgramByte T fuel d buf.toNat pageShift pageNum
  | ProgramSWord => W25Q_ProgramSWord T fuel d buf pageShift pageNum
  | ProgramWord => W25Q_ProgramWord T fuel d buf.toNat pageShift pageNum
  | ProgramSLong => W25Q_ProgramSLong T fuel d buf pageShift pageNum
  | ProgramLong => W25Q_ProgramLong T fuel d buf.toNat pageShift pageNum

/-! ## An in-memory flash for the round-trip property

The transport of the round-trip test: a byte array in which an erase command sets the
bytes of its sector or block to `0xFF`, a program command followed by a transmit stores
the transmitted bytes at the command's address, a read command followed by a receive
returns the bytes at the command's address, and a status-register read returns `0`
(never busy).  Every HAL call succeeds. -/

/-- State of the in-memory flash: the byte array and the command whose data phase is
outstanding. -/
structure FlashSim where
  mem : Nat → Nat
  pending : Option QSPI_CommandTypeDef

/-- Erase of the aligned region of `size` bytes that contains `addr`. -/
def FlashSim.erase (mem : Nat → Nat) (addr size : Nat) : Nat → Nat :=
  fun a => if a / size = addr / size then 0xFF else mem a

/-- Command phase of the in-memory flash. -/
def FlashSim.command (s : FlashSim) (com : QSPI_CommandTypeDef) : HAL_StatusTypeDef × FlashSim :=
  if com.Instruction = W25Q_SECTOR_ERASE_4B then
    (HAL_StatusTypeDef.HAL_OK, { mem := FlashSim.erase s.mem com.Address 4096, pending := none })
  else if com.Instruction = W25Q_32KB_BLOCK_ERASE then
    (HAL_StatusTypeDef.HAL_OK, { mem := FlashSim.erase s.mem com.Address 32768, pending := none })
  else if com.Instruction = W25Q_64KB_BLOCK_ERASE_4B then
    (HAL_StatusTypeDef.HAL_OK, { mem := FlashSim.erase s.mem com.Address 65536, pending := none })
  else if com.Instruction = W25Q_CHIP_ERASE then
    (HAL_StatusTypeDef.HAL_OK, { mem := fun _ => 0xFF, pending := none })
  else (HAL_StatusTypeDef.HAL_OK, { s with pending := some com })

/-- Receive phase of the in-memory flash. -/
def FlashSim.receive (s : FlashSim) : HAL_StatusTypeDef × List Nat × FlashSim :=
  match s.pending with
  | none => (HAL_StatusTypeDef.HAL_OK, [], s)
  | some com =>
    if com.Instruction = W25Q_FAST_READ_QUAD_IO_4B then
      (HAL_StatusTypeDef.HAL_OK, (List.range com.NbData).map (fun i => s.mem (com.Address + i)),
        { s with pending := none })
    else (HAL_StatusTypeDef.HAL_OK, List.replicate com.NbData 0, { s with pending := none })

/-- Transmit phase of the in-memory flash. -/
def FlashSim.transmit (s : FlashSim) (buf : List Nat) : HAL_StatusTypeDef × FlashSim :=
  match s.pending with
  | none => (HAL_StatusTypeDef.HAL_OK, s)
  | some com =>
    if com.Instruction = W25Q_PAGE_PROGRAM_QUAD_INP_4B then
      (HAL_StatusTypeDef.HAL_OK,
        { mem := fun a =>
            if com.Address ≤ a ∧ a < com.Address + com.NbData then
              buf.getD (a - com.Address) 0 % 256
            else s.mem a
          pending := none })
    else (HAL_StatusTypeDef.HAL_OK, { s with pending := none })

/-- The in-memory flash as a transport. -/
def flashSim : Transport FlashSim :=
  { HAL_QSPI_Command := FlashSim.command
    HAL_QSPI_Receive := FlashSim.receive
    HAL_QSPI_Transmit := FlashSim.transmit }

/-- A driver in front of an in-memory flash filled with `fill`, status flags cleared,
nothing sent yet. -/
def simDriver (fill : Nat) : Driver FlashSim :=
  { w25q_status :=
      { BUSY := false, WEL := false, QE := false, SUS := false, ADS := false, ADP := false,
        SLEEP := false }
    hqspi := { mem := fun _ => fill, pending := none }
    trace := [] }

/-! ## Status registers as a structure, status write, single-line read
(`w25q_mem.c`, lines 206-294 and 531-566) -/

/-- The command built by `W25Q_WriteStatusReg` for the instruction `i`. -/
def writeStatusRegCom (i : Nat) : QSPI_CommandTypeDef :=
  mkCom i HalConst.QSPI_ADDRESS_NONE HalConst.QSPI_ADDRESS_NONE 0 0 HalConst.QSPI_DATA_1_LINE 1

/-- The function `W25Q_WriteStatusReg`. -/
def W25Q_WriteStatusReg {σ : Type} (T : Transport σ) (fuel : Nat) (d : Driver σ)
    (reg_data reg_num : Nat) : Option W25Q_STATE × Driver σ :=
  let w := busyWait T fuel d
  if w.1 = false then (none, w.2)
  else
    let e := W25Q_WriteEnable T w.2 true
    if e.1 ≠ W25Q_STATE.W25Q_OK then (some e.1, e.2)
    else
      let instr : Option Nat :=
        if reg_num = 1 then some W25Q_WRITE_SR1
        else if reg_num = 2 then some W25Q_WRITE_SR2
        else if reg_num = 3 then some W25Q_WRITE_SR3
        else none
      match instr with
      | none => (some W25Q_STATE.W25Q_PARAM_ERR, e.2)
      | some i =>
        let c := halCommand T e.2 (writeStatusRegCom i)
        if c.1 ≠ HAL_StatusTypeDef.HAL_OK then (some W25Q_STATE.W25Q_SPI_ERR, c.2)
        else
          let t := halTransmit T c.2 [reg_data]
          if t.1 ≠ HAL_StatusTypeDef.HAL_OK then (some W25Q_STATE.W25Q_SPI_ERR, t.2)
          else (some W25Q_STATE.W25Q_OK, t.2)

/-- The function `W25Q_ReadStatusStruct`.  The argument `status` is `none` for a `NULL`
pointer and otherwise the structure the pointer refers to; the second component is that
structure after the call.  The buffer `SRs` starts as `{0, 0, 0}`. -/
def W25Q_ReadStatusStruct {σ : Type} (T : Transport σ) (d : Driver σ)
    (status : Option W25Q_STATUS_REG) : W25Q_STATE × Option W25Q_STATUS_REG × Driver σ :=
  let r1 := W25Q_ReadStatusReg T d 0 1
  if r1.1 ≠ W25Q_STATE.W25Q_OK then (r1.1, status, r1.2.2)
  else
    let r2 := W25Q_ReadStatusReg T r1.2.2 0 2
    if r2.1 ≠ W25Q_STATE.W25Q_OK then (r2.1, status, r2.2.2)
    else
      let r3 := W25Q_ReadStatusReg T r2.2.2 0 3
      if r3.1 ≠ W25Q_STATE.W25Q_OK then (r3.1, status, r3.2.2)
      else
        match status with
        | none => (r3.1, none, r3.2.2)
        | some _ =>
          let s : W25Q_STATUS_REG :=
            { BUSY := decide (r1.2.1 &&& 1 ≠ 0)
              WEL := decide ((r1.2.1 >>> 1) &&& 1 ≠ 0)
              QE := decide ((r2.2.1 >>> 1) &&& 1 ≠ 0)
              SUS := decide ((r2.2.1 >>> 7) &&& 1 ≠ 0)
              ADS := decide (r3.2.1 &&& 1 ≠ 0)
              ADP := decide ((r3.2.1 >>> 1) &&& 1 ≠ 0)
              SLEEP := r3.2.2.w25q_status.SLEEP }
          (r3.1, some s, { r3.2.2 with w25q_status := s })

/-- The command built by `W25Q_SingleRead`. -/
def singleReadCom (len Addr : Nat) : QSPI_CommandTypeDef :=
  mkCom (if MEM_FLASH_SIZE > 128 then W25Q_READ_DATA_4B else W25Q_READ_DATA)
    HalConst.QSPI_ADDRESS_1_LINE addrSize Addr 0 HalConst.QSPI_DATA_1_LINE len

/-- The function `W25Q_SingleRead`; the second component is the buffer `buf` after the
call. -/
def W25Q_SingleRead {σ : Type} (T : Transport σ) (d : Driver σ) (buf : List Nat)
    (len Addr : Nat) : W25Q_STATE × List Nat × Driver σ :=
  let c := halCommand T d (singleReadCom len Addr)
  if c.1 ≠ HAL_StatusTypeDef.HAL_OK then (W25Q_STATE.W25Q_SPI_ERR, buf, c.2)
  else
    let r := halReceive T c.2
    if r.1 ≠ HAL_StatusTypeDef.HAL_OK then
      (W25Q_STATE.W25Q_SPI_ERR, storeBytes r.2.1 buf, r.2.2)
    else (W25Q_STATE.W25Q_OK, storeBytes r.2.1 buf, r.2.2)

/-! ## Suspend and resume (`w25q_mem.c`, lines 976-1051) -/

/-- The command built by `W25Q_ProgSuspend`. -/
def progSuspendCom : QSPI_CommandTypeDef :=
  mkCom W25Q_ERASEPROG_SUSPEND HalConst.QSPI_ADDRESS_NONE HalConst.QSPI_ADDRESS_NONE 0 0
    HalConst.QSPI_DATA_NONE 0

/-- The function `W25Q_ProgSuspend`. -/
def W25Q_ProgSuspend {σ : Type} (T : Transport σ) (d : Driver σ) : W25Q_STATE × Driver σ :=
  let b := W25Q_IsBusy T d
  if W25Q_STATE.W25Q_BUSY ≠ b.1 then (W25Q_STATE.W25Q_CHIP_IGNORE, b.2)
  else
    let c := halCommand T b.2 progSuspendCom
    if c.1 ≠ HAL_StatusTypeDef.HAL_OK then (W25Q_STATE.W25Q_SPI_ERR, c.2)
    else (W25Q_STATE.W25Q_OK, c.2)

/-- The command built by `W25Q_ProgResume`. -/
def progResumeCom : QSPI_CommandTypeDef :=
  mkCom W25Q_ERASEPROG_RESUME HalConst.QSPI_ADDRESS_NONE HalConst.QSPI_ADDRESS_NONE 0 0
    HalConst.QSPI_DATA_NONE 0

/-- The function `W25Q_ProgResume`; `w25q_status.SUS != 1` on a `bool` is `SUS` being
false. -/
def W25Q_ProgResume {σ : Type} (T : Transport σ) (d : Driver σ) : W25Q_STATE × Driver σ :=
  let s := W25Q_ReadStatusStruct T d none
  if s.1 ≠ W25Q_STATE.W25Q_OK then (s.1, s.2.2)
  else if s.2.2.w25q_status.SUS ≠ true then (W25Q_STATE.W25Q_CHIP_IGNORE, s.2.2)
  else
    let c := halCommand T s.2.2 progResumeCom
    if c.1 ≠ HAL_StatusTypeDef.HAL_OK then (W25Q_STATE.W25Q_SPI_ERR, c.2)
    else (W25Q_STATE.W25Q_OK, c.2)

/-! ## A chip that only has status registers

A transport for statements about the status model: the three status registers hold
fixed bytes, the command whose opcode is `failOp` is answered with `HAL_ERROR`, every
other HAL call succeeds, and a receive after a status-register read command returns the
byte of that register. -/

/-- State of the status-register chip. -/
structure StatusSim where
  sr1 : Nat
  sr2 : Nat
  sr3 : Nat
  failOp : Option Nat
  pending : Option Nat

/-- Command phase of the status-register chip. -/
def StatusSim.command (s : StatusSim) (com : QSPI_CommandTypeDef) :
    HAL_StatusTypeDef × StatusSim :=
  if s.failOp = some com.Instruction then (HAL_StatusTypeDef.HAL_ERROR, s)
  else (HAL_StatusTypeDef.HAL_OK, { s with pending := some com.Instruction })

/-- Receive phase of the status-register chip. -/
def StatusSim.receive (s : StatusSim) : HAL_StatusTypeDef × List Nat × StatusSim :=
  match s.pending with
  | none => (HAL_StatusTypeDef.HAL_OK, [], s)
  | some i =>
    if i = W25Q_READ_SR1 then (HAL_StatusTypeDef.HAL_OK, [s.sr1], { s with pending := none })
    else if i = W25Q_READ_SR2 then
      (HAL_StatusTypeDef.HAL_OK, [s.sr2], { s with pending := none })
    else if i = W25Q_READ_SR3 then
      (HAL_StatusTypeDef.HAL_OK, [s.sr3], { s with pending := none })
    else (HAL_StatusTypeDef.HAL_OK, [], { s with pending := none })

/-- The status-register chip as a transport. -/
def statusSim : Transport StatusSim :=
  { HAL_QSPI_Command := StatusSim.command
    HAL_QSPI_Receive := StatusSim.receive
    HAL_QSPI_Transmit := fun s _ => (HAL_StatusTypeDef.HAL_OK, { s with pending := none }) }

/-- The status structure with every flag cleared, as the zero-initialised global. -/
def clearedStatus : W25Q_STATUS_REG :=
  { BUSY := false, WEL := false, QE := false, SUS := false, ADS := false, ADP := false,
    SLEEP := false }

/-- A driver with the stored snapshot `st` in front of a status-register chip with the
register bytes `sr1`, `sr2`, `sr3`; nothing sent yet. -/
def statusDriver (st : W25Q_STATUS_REG) (sr1 sr2 sr3 : Nat) (failOp : Option Nat) :
    Driver StatusSim :=
  { w25q_status := st
    hqspi := { sr1 := sr1, sr2 := sr2, sr3 := sr3, failOp := failOp, pending := none }
    trace := [] }

/-- State of a status-register chip behind a bus that accepts `budget` more commands
and answers every later command with `HAL_ERROR`. -/
structure BudgetSim where
  chip : StatusSim
  budget : Nat

/-- The status-register chip behind the bus with a command budget, as a transport. -/
def budgetSim : Transport BudgetSim :=
  { HAL_QSPI_Command := fun s com =>
      if s.budget = 0 then (HAL_StatusTypeDef.HAL_ERROR, s)
      else ((StatusSim.command s.chip com).1,
        { chip := (StatusSim.command s.chip com).2, budget := s.budget - 1 })
    HAL_QSPI_Receive := fun s =>
      ((StatusSim.receive s.chip).1, (StatusSim.receive s.chip).2.1,
        { s with chip := (StatusSim.receive s.chip).2.2 })
    HAL_QSPI_Transmit := fun s _ =>
      (HAL_StatusTypeDef.HAL_OK, { s with chip := { s.chip with pending := none } }) }

/-- A driver with the stored snapshot `st` in front of a status-register chip with the
register bytes `sr1`, `sr2`, `sr3` on a bus that accepts `budget` commands; nothing sent
yet. -/
def budgetDriver (st : W25Q_STATUS_REG) (sr1 sr2 sr3 budget : Nat) : Driver BudgetSim :=
  { w25q_status := st
    hqspi := { chip := { sr1 := sr1, sr2 := sr2, sr3 := sr3, failOp := none, pending := none }
               budget := budget }
    trace := [] }

/-- The flags of the three status bytes as the status model describes them: bit0 of
register 1 is busy, bit1 of register 1 the write-enable latch, bit1 of register 2 quad
enable, bit7 of register 2 suspended, bit0 of register 3 the current address mode, bit1
of register 3 the power-up address mode; `sleep` is carried over. -/
def decodeStatus (r1 r2 r3 : Nat) (sleep : Bool) : W25Q_STATUS_REG :=
  { BUSY := r1.testBit 0
    WEL := r1.testBit 1
    QE := r2.testBit 1
    SUS := r2.testBit 7
    ADS := r3.testBit 0
    ADP := r3.testBit 1
    SLEEP := sleep }

/-- The byte in a `u8_t` variable that held `old` after the HAL has received `recv`
into it. -/
def receivedByte (recv : List Nat) (old : Nat) : Nat :=
  (storeBytes recv [old]).headD old

/-- The address-bearing commands (those whose `AddressMode` is not
`QSPI_ADDRESS_NONE`) among the HAL calls made between the states `d` and `d1` all have
a 32-bit address field and the opcode `op`. -/
def AddressCommandsAre {σ : Type} (d d1 : Driver σ) (op : Nat) : Prop :=
  ∃ new : List Event, d1.trace = d.trace ++ new ∧
    ∀ (c : QSPI_CommandTypeDef) (st : HAL_StatusTypeDef), Event.command c st ∈ new →
      c.AddressMode ≠ HalConst.QSPI_ADDRESS_NONE →
      c.AddressSize = HalConst.QSPI_ADDRESS_32_BITS ∧ c.Instruction = op

/-! ## Sleep, wake-up, ID (`w25q_mem.c`, lines 1068-1184) -/

/-- The command built by `W25Q_Sleep`. -/
def sleepCom : QSPI_CommandTypeDef :=
  mkCom W25Q_POWERDOWN HalConst.QSPI_ADDRESS_NONE HalConst.QSPI_ADDRESS_NONE 0 0
    HalConst.QSPI_DATA_NONE 0

/-- The function `W25Q_Sleep`. -/
def W25Q_Sleep {σ : Type} (T : Transport σ) (d : Driver σ) : W25Q_STATE × Driver σ :=
  let c := halCommand T d sleepCom
  if c.1 ≠ HAL_StatusTypeDef.HAL_OK then (W25Q_STATE.W25Q_SPI_ERR, c.2)
  else (W25Q_STATE.W25Q_OK, { c.2 with w25q_status := { c.2.w25q_status with SLEEP := true } })

/-- The command built by `W25Q_WakeUP`. -/
def wakeUpCom : QSPI_CommandTypeDef :=
  mkCom W25Q_POWERUP HalConst.QSPI_ADDRESS_NONE HalConst.QSPI_ADDRESS_NONE 0 0
    HalConst.QSPI_DATA_NONE 0

/-- The function `W25Q_WakeUP`. -/
def W25Q_WakeUP {σ : Type} (T : Transport σ) (d : Driver σ) : W25Q_STATE × Driver σ :=
  let c := halCommand T d wakeUpCom
  if c.1 ≠ HAL_StatusTypeDef.HAL_OK then (W25Q_STATE.W25Q_SPI_ERR, c.2)
  else (W25Q_STATE.W25Q_OK, c.2)

/-- The command built by `W25Q_ReadID`. -/
def readIDCom : QSPI_CommandTypeDef :=
  mkCom W25Q_DEVID HalConst.QSPI_ADDRESS_1_LINE HalConst.QSPI_ADDRESS_24_BITS 0 0
    HalConst.QSPI_DATA_1_LINE 1

/-- The function `W25Q_ReadID`; the second component is `*buf` after the call. -/
def W25Q_ReadID {σ : Type} (T : Transport σ) (d : Driver σ) (buf : Nat) :
    W25Q_STATE × Nat × Driver σ :=
  let c := halCommand T d readIDCom
  if c.1 ≠ HAL_StatusTypeDef.HAL_OK then (W25Q_STATE.W25Q_SPI_ERR, buf, c.2)
  else
    let r := halReceive T c.2
    let buf1 := (storeBytes r.2.1 [buf]).headD buf
    if r.1 ≠ HAL_StatusTypeDef.HAL_OK then (W25Q_STATE.W25Q_SPI_ERR, buf1, r.2.2)
    else (W25Q_STATE.W25Q_OK, buf1, r.2.2)

/-! ## 4-byte mode, initialisation, software reset
(`w25q_mem.c`, lines 72-127, 1340-1396 and 1449-1483) -/

/-- The command built by `W25Q_Enter4ByteMode`. -/
def enter4ByteModeCom (enable : Bool) : QSPI_CommandTypeDef :=
  mkCom (if enable then W25Q_ENABLE_4B_MODE else W25Q_DISABLE_4B_MODE)
    HalConst.QSPI_ADDRESS_NONE HalConst.QSPI_ADDRESS_NONE 0 0 HalConst.QSPI_DATA_NONE 0

/-- The function `W25Q_Enter4ByteMode`. -/
def W25Q_Enter4ByteMode {σ : Type} (T : Transport σ) (fuel : Nat) (d : Driver σ)
    (enable : Bool) : Option W25Q_STATE × Driver σ :=
  let w := busyWait T fuel d
  if w.1 = false then (none, w.2)
  else
    let c := halCommand T w.2 (enter4ByteModeCom enable)
    if c.1 ≠ HAL_StatusTypeDef.HAL_OK then (some W25Q_STATE.W25Q_SPI_ERR, c.2)
    else
      let s := W25Q_ReadStatusStruct T c.2 none
      (some s.1, s.2.2)

/-- The block that `W25Q_Init` runs for status register 3 (lines 92-99) and for status
register 2 (lines 113-120): `u8_t buf_reg = 0; state = W25Q_ReadStatusReg(&buf_reg, k);
if (state != W25Q_OK) return state; buf_reg |= 0b10;
state = W25Q_WriteStatusReg(buf_reg, k);`.  The result is the value of `state` after the
block. -/
def initSetBit1 {σ : Type} (T : Transport σ) (fuel : Nat) (d : Driver σ) (k : Nat) :
    Option W25Q_STATE × Driver σ :=
  let r := W25Q_ReadStatusReg T d 0 k
  if r.1 ≠ W25Q_STATE.W25Q_OK then (some r.1, r.2.2)
  else
    let buf_reg := (r.2.1 ||| 0b10) % 256
    W25Q_WriteStatusReg T fuel r.2.2 buf_reg k

/-- The function `W25Q_Init`.  A step that is skipped leaves `state` at `W25Q_OK`; the
part under `#if MEM_FLASH_SIZE > 128` is the value `a`. -/
def W25Q_Init {σ : Type} (T : Transport σ) (fuel : Nat) (d : Driver σ) :
    Option W25Q_STATE × Driver σ :=
  let i := W25Q_ReadID T d 0
  if i.1 ≠ W25Q_STATE.W25Q_OK then (some i.1, i.2.2)
  else
    let s := W25Q_ReadStatusStruct T i.2.2 none
    if s.1 ≠ W25Q_STATE.W25Q_OK then (some s.1, s.2.2)
    else
      let a : Option W25Q_STATE × Driver σ :=
        if MEM_FLASH_SIZE > 128 then
          let a1 : Option W25Q_STATE × Driver σ :=
            if s.2.2.w25q_status.ADP = false then initSetBit1 T fuel s.2.2 3
            else (some W25Q_STATE.W25Q_OK, s.2.2)
          if a1.1 ≠ some W25Q_STATE.W25Q_OK then a1
          else if a1.2.w25q_status.ADS = false then W25Q_Enter4ByteMode T fuel a1.2 true
          else (some W25Q_STATE.W25Q_OK, a1.2)
        else (some W25Q_STATE.W25Q_OK, s.2.2)
      if a.1 ≠ some W25Q_STATE.W25Q_OK then a
      else
        let q : Option W25Q_STATE × Driver σ :=
          if a.2.w25q_status.QE = false then initSetBit1 T fuel a.2 2
          else (some W25Q_STATE.W25Q_OK, a.2)
        if q.1 ≠ some W25Q_STATE.W25Q_OK then q
        else
          let f := W25Q_ReadStatusStruct T q.2 none
          (some f.1, f.2.2)

/-- The command built by `W25Q_SwReset`, first with `W25Q_ENABLE_RST`, then with
`W25Q_RESET` as its instruction. -/
def swResetCom (Instruction : Nat) : QSPI_CommandTypeDef :=
  mkCom Instruction HalConst.QSPI_ADDRESS_NONE HalConst.QSPI_ADDRESS_NONE 0 0
    HalConst.QSPI_DATA_NONE 0

/-- The function `W25Q_SwReset`.  The value `w` is the block `if (force) { ... }`: its
flag is false when the wait loop is still polling; the result of `W25Q_ProgResume` is
discarded as in the source. -/
def W25Q_SwReset {σ : Type} (T : Transport σ) (fuel : Nat) (d : Driver σ) (force : Bool) :
    Option W25Q_STATE × Driver σ :=
  let s := W25Q_ReadStatusStruct T d none
  if s.1 ≠ W25Q_STATE.W25Q_OK then (some s.1, s.2.2)
  else if force = false ∨ s.2.2.w25q_status.BUSY = true ∨ s.2.2.w25q_status.SUS = true then
    (some W25Q_STATE.W25Q_CHIP_ERR, s.2.2)
  else
    let w : Bool × Driver σ :=
      if force = true then
        let b := busyWait T fuel s.2.2
        if b.1 = false then (false, b.2)
        else if b.2.w25q_status.SUS = true then (true, (W25Q_ProgResume T b.2).2)
        else (true, b.2)
      else (true, s.2.2)
    if w.1 = false then (none, w.2)
    else
      let c1 := halCommand T w.2 (swResetCom W25Q_ENABLE_RST)
      if c1.1 ≠ HAL_StatusTypeDef.HAL_OK then (some W25Q_STATE.W25Q_SPI_ERR, c1.2)
      else
        let c2 := halCommand T c1.2 (swResetCom W25Q_RESET)
        if c2.1 ≠ HAL_StatusTypeDef.HAL_OK then (some W25Q_STATE.W25Q_SPI_ERR, c2.2)
        else W25Q_Init T fuel c2.2

/-- The address-bearing commands (those whose `AddressMode` is not `QSPI_ADDRESS_NONE`)
among the HAL calls made between the states `d` and `d1` each name a transfer of `len`
bytes, `len` at least 1, that starts and ends in page `pageNum` and ends at or before
the last byte of the memory. -/
def TransferWithinPage {σ : Type} (d d1 : Driver σ) (pageNum len : Nat) : Prop :=
  ∃ new : List Event, d1.trace = d.trace ++ new ∧
    ∀ (c : QSPI_CommandTypeDef) (st : HAL_StatusTypeDef), Event.command c st ∈ new →
      c.AddressMode ≠ HalConst.QSPI_ADDRESS_NONE →
      c.NbData = len ∧ 1 ≤ len ∧ c.Address / 256 = pageNum ∧
      (c.Address + len - 1) / 256 = pageNum ∧ c.Address + len ≤ 33554432

/-- Every HAL call made between the states `d` and `d1` satisfies `Q`. -/
def CallsSatisfy {σ : Type} (Q : Event → Prop) (d d1 : Driver σ) : Prop :=
  ∃ new : List Event, d1.trace = d.trace ++ new ∧ ∀ e ∈ new, Q e

/-- An event that is not a call of `HAL_QSPI_Transmit`. -/
def noTransmit : Event → Prop
  | Event.transmit _ _ => False
  | _ => True

/-! ## Vocabulary for statements about the trace -/

/-- The opcodes of the header that program or erase the array. -/
def isProgramOrErase (op : Nat) : Prop :=
  op ∈ [W25Q_PAGE_PROGRAM, W25Q_PAGE_PROGRAM_4B, W25Q_PAGE_PROGRAM_QUAD_INP,
    W25Q_PAGE_PROGRAM_QUAD_INP_4B, W25Q_SECTOR_ERASE, W25Q_SECTOR_ERASE_4B,
    W25Q_32KB_BLOCK_ERASE, W25Q_64KB_BLOCK_ERASE, W25Q_64KB_BLOCK_ERASE_4B, W25Q_CHIP_ERASE]

instance : DecidablePred isProgramOrErase := fun op => by
  unfold isProgramOrErase
  infer_instance

/-- The HAL calls a busy poll can make: the status-register-1 command and a receive. -/
def pollEvent : Event → Prop
  | Event.command com _ => com = readStatusRegCom W25Q_READ_SR1
  | Event.receive _ _ => True
  | Event.transmit _ _ => False

/-- The statements after the parameter checks that `W25Q_ProgramRaw`, `W25Q_EraseSector`,
`W25Q_EraseBlock` and `W25Q_EraseChip` have in common: wait while busy, write enable,
the command `com`, the transmit of `tx` when there is a data phase, wait while busy. -/
def writeSequence {σ : Type} (T : Transport σ) (fuel : Nat) (d : Driver σ)
    (com : QSPI_CommandTypeDef) (tx : Option (List Nat)) : Option W25Q_STATE × Driver σ :=
  let w := busyWait T fuel d
  if w.1 = false then (none, w.2)
  else
    let e := W25Q_WriteEnable T w.2 true
    if e.1 ≠ W25Q_STATE.W25Q_OK then (some e.1, e.2)
    else
      let c := halCommand T e.2 com
      if c.1 ≠ HAL_StatusTypeDef.HAL_OK then (some W25Q_STATE.W25Q_SPI_ERR, c.2)
      else
        match tx with
        | none =>
          let w2 := busyWait T fuel c.2
          if w2.1 = false then (none, w2.2) else (some W25Q_STATE.W25Q_OK, w2.2)
        | some buf =>
          let t := halTransmit T c.2 buf
          if t.1 ≠ HAL_StatusTypeDef.HAL_OK then (some W25Q_STATE.W25Q_SPI_ERR, t.2)
          else
            let w2 := busyWait T fuel t.2
            if w2.1 = false then (none, w2.2) else (some W25Q_STATE.W25Q_OK, w2.2)

/-- The write-enable discipline of one call that started in state `d` and ended with the
result `r`: the HAL calls of the call are `new`; every program or erase command among
them comes directly after a write-enable command (opcode `0x06`) that the HAL accepted;
and if a write-enable command among them was not accepted, the call returned
`W25Q_SPI_ERR` and issued no program or erase command. -/
def WriteEnableGuarded {σ : Type} (d : Driver σ) (r : Option W25Q_STATE × Driver σ) : Prop :=
  ∃ new : List Event, r.2.trace = d.trace ++ new ∧
    (∀ (pre post : List Event) (com : QSPI_CommandTypeDef) (st : HAL_StatusTypeDef),
      new = pre ++ Event.command com st :: post → isProgramOrErase com.Instruction →
      ∃ (pre0 : List Event) (we : QSPI_CommandTypeDef),
        pre = pre0 ++ [Event.command we HAL_StatusTypeDef.HAL_OK] ∧
        we.Instruction = W25Q_WRITE_ENABLE) ∧
    (∀ (we : QSPI_CommandTypeDef) (st : HAL_StatusTypeDef),
      Event.command we st ∈ new → we.Instruction = W25Q_WRITE_ENABLE →
      st ≠ HAL_StatusTypeDef.HAL_OK →
      r.1 = some W25Q_STATE.W25Q_SPI_ERR ∧
      ∀ (com : QSPI_CommandTypeDef) (st2 : HAL_StatusTypeDef),
        Event.command com st2 ∈ new → ¬ isProgramOrErase com.Instruction)

/-- The in-memory flash behind a bus on which the status-register-1 read command
(opcode `0x05`) is answered with `HAL_ERROR`; every other HAL call is as in `flashSim`. -/
def pollFailSim : Transport FlashSim :=
  { HAL_QSPI_Command := fun s com =>
      if com.Instruction = W25Q_READ_SR1 then (HAL_StatusTypeDef.HAL_ERROR, s)
      else FlashSim.command s com
    HAL_QSPI_Receive := FlashSim.receive
    HAL_QSPI_Transmit := FlashSim.transmit }

/-- The HAL calls of one read-modify-write of status register `k` in `W25Q_Init`: the
successful read of the register, which received `x`, and then only busy polls, the
write enable, the write command of the same register and transmits of the single byte
`r ||| 2`, where `r` is the byte the read stored. -/
def SetBitBlock (s : List Event) : Prop :=
  ∃ (k rop wop : Nat) (x : List Nat) (rest : List Event),
    ((k = 2 ∧ rop = W25Q_READ_SR2 ∧ wop = W25Q_WRITE_SR2) ∨
      (k = 3 ∧ rop = W25Q_READ_SR3 ∧ wop = W25Q_WRITE_SR3)) ∧
    s = [Event.command (readStatusRegCom rop) HAL_StatusTypeDef.HAL_OK,
      Event.receive x HAL_StatusTypeDef.HAL_OK] ++ rest ∧
    ∀ e ∈ rest, pollEvent e ∨ (∃ st, e = Event.command (writeEnableCom true) st) ∨
      (∃ st, e = Event.command (writeStatusRegCom wop) st) ∨
      (∃ st, e = Event.transmit [receivedByte x 0 ||| 2] st)

/-- The HAL calls made between the states `d` and `d1` split into consecutive
segments, each of which either contains no transmit or is a `SetBitBlock`. -/
def SetBitTrace {σ : Type} (d d1 : Driver σ) : Prop :=
  ∃ segs : List (List Event), d1.trace = d.trace ++ segs.flatten ∧
    ∀ s ∈ segs, (∀ e ∈ s, noTransmit e) ∨ SetBitBlock s

/-! ## Auxiliary facts about the return values -/

lemma writeEnable_state {σ : Type} (T : Transport σ) (d : Driver σ) (enable : Bool) :
    (W25Q_WriteEnable T d enable).1 = W25Q_STATE.W25Q_OK ∨
      (W25Q_WriteEnable T d enable).1 = W25Q_STATE.W25Q_SPI_ERR := by
  unfold W25Q_WriteEnable
  dsimp only
  split_ifs <;> simp

lemma readRaw_param_err_iff {σ : Type} (T : Transport σ) (fuel : Nat) (d : Driver σ)
    (buf : List Nat) (data_len rawAddr : Nat) :
    (W25Q_ReadRaw T fuel d buf data_len rawAddr).1 = some W25Q_STATE.W25Q_PARAM_ERR ↔
      (data_len > 256 ∨ data_len = 0) := by
  unfold W25Q_ReadRaw
  dsimp only
  split_ifs <;> simp_all

lemma readRaw_param_err_unchanged {σ : Type} (T : Transport σ) (fuel : Nat) (d : Driver σ)
    (buf : List Nat) (data_len rawAddr : Nat) (h : data_len > 256 ∨ data_len = 0) :
    W25Q_ReadRaw T fuel d buf data_len rawAddr = (some W25Q_STATE.W25Q_PARAM_ERR, buf, d) := by
  unfold W25Q_ReadRaw
  rw [if_pos h]

lemma programRaw_param_err_iff {σ : Type} (T : Transport σ) (fuel : Nat) (d : Driver σ)
    (buf : List Nat) (data_len rawAddr : Nat) :
    (W25Q_ProgramRaw T fuel d buf data_len rawAddr).1 = some W25Q_STATE.W25Q_PARAM_ERR ↔
      (data_len > 256 ∨ data_len = 0) := by
  unfold W25Q_ProgramRaw
  dsimp only
  have hw := writeEnable_state T (busyWait T fuel d).2 true
  split_ifs <;> simp_all

lemma programRaw_param_err_unchanged {σ : Type} (T : Transport σ) (fuel : Nat) (d : Driver σ)
    (buf : List Nat) (data_len rawAddr : Nat) (h : data_len > 256 ∨ data_len = 0) :
    W25Q_ProgramRaw T fuel d buf data_len rawAddr = (some W25Q_STATE.W25Q_PARAM_ERR, d) := by
  unfold W25Q_ProgramRaw
  rw [if_pos h]

/-! ## Address translation -/

/-- C1: for every `pageNum < PAGE_COUNT` and every `pageShift` in `0..255`,
`page_to_addr` is `pageNum * 256 + pageShift` with no wrap-around in `u32_t` (neither the
product nor the sum reaches `2^32`), dividing the address by 256 gives back `pageNum`
and the remainder gives back `pageShift`, and two valid inputs with the same address are
equal. -/
theorem page_to_addr_exact_and_invertible (pageNum pageShift : Nat)
    (hp : pageNum < PAGE_COUNT) (hs : pageShift < 256) :
    page_to_addr pageNum pageShift = pageNum * 256 + pageShift ∧
    pageNum * MEM_PAGE_SIZE < U32_MOD ∧
    pageNum * MEM_PAGE_SIZE + pageShift < U32_MOD ∧
    page_to_addr pageNum pageShift / 256 = pageNum ∧
    page_to_addr pageNum pageShift % 256 = pageShift ∧
    (∀ p2 s2 : Nat, p2 < PAGE_COUNT → s2 < 256 →
      page_to_addr p2 s2 = page_to_addr pageNum pageShift → p2 = pageNum ∧ s2 = pageShift) := by
  simp only [page_to_addr, MEM_PAGE_SIZE, U32_MOD, PAGE_COUNT, SECTOR_COUNT, BLOCK_COUNT,
    MEM_FLASH_SIZE] at *
  refine ⟨by omega, by omega, by omega, by omega, by omega, ?_⟩
  intro p2 s2 h2 hs2 h
  omega

/-- The last byte of the last page: address `33554431`, decomposed back into
`(131071, 255)`. -/
theorem page_to_addr_exact_and_invertible_witness :
    131071 < PAGE_COUNT ∧ 255 < 256 ∧
    page_to_addr 131071 255 = 131071 * 256 + 255 ∧
    page_to_addr 131071 255 / 256 = 131071 ∧
    page_to_addr 131071 255 % 256 = 255 :=
  have h := page_to_addr_exact_and_invertible 131071 255 (by decide) (by decide)
  ⟨by decide, by decide, h.1, h.2.2.2.1, h.2.2.2.2.1⟩

/-! ## Parameter validation of the page-relative accessors -/

/-- C2: for each of the twelve typed accessors, of type size `s`, every `pageShift` in
`0..255` and every `pageNum`: the call returns `W25Q_PARAM_ERR` if and only if
`pageNum >= PAGE_COUNT` or `pageShift + s > 256`; and in that case the whole driver
state is the one before the call: no HAL call was recorded, the peripheral was not
touched and `w25q_status` is unchanged. -/
theorem typed_accessor_param_err {σ : Type} (T : Transport σ) (fuel : Nat) (d : Driver σ)
    (a : TypedAccessor) (buf : Int) (pageShift pageNum : Nat) (hs : pageShift < 256) :
    ((a.call T fuel d buf pageShift pageNum).1 = some W25Q_STATE.W25Q_PARAM_ERR ↔
      (pageNum ≥ PAGE_COUNT ∨ pageShift + a.size > 256)) ∧
    ((a.call T fuel d buf pageShift pageNum).1 = some W25Q_STATE.W25Q_PARAM_ERR →
      (a.call T fuel d buf pageShift pageNum).2 = d) := by
  have hr := fun (n : Nat) (b : List Nat) =>
    readRaw_param_err_iff T fuel d b n (page_to_addr pageNum pageShift)
  have hw := fun (n : Nat) (b : List Nat) =>
    programRaw_param_err_iff T fuel d b n (page_to_addr pageNum pageShift)
  cases a <;>
    simp only [TypedAccessor.call, TypedAccessor.size, W25Q_ReadSByte, W25Q_ReadByte,
      W25Q_ReadSWord, W25Q_ReadWord, W25Q_ReadSLong, W25Q_ReadLong, W25Q_ProgramSByte,
      W25Q_ProgramByte, W25Q_ProgramSWord, W25Q_ProgramWord, W25Q_ProgramSLong,
      W25Q_ProgramLong] <;>
    split_ifs <;>
    simp_all <;>
    omega

/-- A word read at shift 255 of page 0 is refused and leaves the driver as it was. -/
theorem typed_accessor_param_err_witness :
    255 < 256 ∧
    (TypedAccessor.ReadWord.call flashSim 1 (simDriver 0) 0 255 0).1
      = some W25Q_STATE.W25Q_PARAM_ERR ∧
    (TypedAccessor.ReadWord.call flashSim 1 (simDriver 0) 0 255 0).2 = simDriver 0 :=
  have h := typed_accessor_param_err flashSim 1 (simDriver 0) TypedAccessor.ReadWord 0 255 0
    (by decide)
  ⟨by decide, h.1.2 (Or.inr (by decide)), h.2 (h.1.2 (Or.inr (by decide)))⟩

/-- C3: for `W25Q_ReadData` and `W25Q_ProgramData`, for every `len`, `pageShift` and
`pageNum`: the call returns `W25Q_PARAM_ERR` if and only if `pageNum >= PAGE_COUNT` or
`len = 0` or `len > 256` or `pageShift + len > 256`; when that condition holds the call
returns `W25Q_PARAM_ERR` with the caller's buffer and the whole driver state (trace of
HAL calls, peripheral, `w25q_status`) unchanged; in particular `len = 0` and `len = 257`
are refused for any page and shift. -/
theorem data_accessor_param_err {σ : Type} (T : Transport σ) (fuel : Nat) (d : Driver σ)
    (buf : List Nat) (len pageShift pageNum : Nat) :
    ((W25Q_ReadData T fuel d buf len pageShift pageNum).1 = some W25Q_STATE.W25Q_PARAM_ERR ↔
      (pageNum ≥ PAGE_COUNT ∨ len = 0 ∨ len > 256 ∨ pageShift + len > 256)) ∧
    ((W25Q_ProgramData T fuel d buf len pageShift pageNum).1 = some W25Q_STATE.W25Q_PARAM_ERR ↔
      (pageNum ≥ PAGE_COUNT ∨ len = 0 ∨ len > 256 ∨ pageShift + len > 256)) ∧
    ((pageNum ≥ PAGE_COUNT ∨ len = 0 ∨ len > 256 ∨ pageShift + len > 256) →
      W25Q_ReadData T fuel d buf len pageShift pageNum
          = (some W25Q_STATE.W25Q_PARAM_ERR, buf, d) ∧
      W25Q_ProgramData T fuel d buf len pageShift pageNum
          = (some W25Q_STATE.W25Q_PARAM_ERR, d)) ∧
    W25Q_ReadData T fuel d buf 0 pageShift pageNum = (some W25Q_STATE.W25Q_PARAM_ERR, buf, d) ∧
    W25Q_ReadData T fuel d buf 257 pageShift pageNum = (some W25Q_STATE.W25Q_PARAM_ERR, buf, d) ∧
    W25Q_ProgramData T fuel d buf 0 pageShift pageNum = (some W25Q_STATE.W25Q_PARAM_ERR, d) ∧
    W25Q_ProgramData T fuel d buf 257 pageShift pageNum = (some W25Q_STATE.W25Q_PARAM_ERR, d) := by
  have hc : ∀ l : Nat, (pageNum ≥ PAGE_COUNT ∨ l = 0 ∨ l > 256 ∨ pageShift + l > 256) ↔
      (pageNum ≥ PAGE_COUNT ∨ l = 0 ∨ l > 256 ∨ (pageShift : Int) > 256 - (l : Int)) := by
    intro l
    constructor <;> intro h <;> omega
  have hr := readRaw_param_err_iff T fuel d buf len (page_to_addr pageNum pageShift)
  have hw := programRaw_param_err_iff T fuel d buf len (page_to_addr pageNum pageShift)
  refine ⟨?_, ?_, ?_, ?_, ?_, ?_, ?_⟩
  · rw [hc len]
    unfold W25Q_ReadData
    split_ifs with h
    · simp [h]
    · simp only [h, iff_false]
      rw [hr]
      omega
  · rw [hc len]
    unfold W25Q_ProgramData
    split_ifs with h
    · simp [h]
    · simp only [h, iff_false]
      rw [hw]
      omega
  · intro h
    rw [hc len] at h
    unfold W25Q_ReadData W25Q_ProgramData
    rw [if_pos h, if_pos h]
    exact ⟨rfl, rfl⟩
  · unfold W25Q_ReadData
    rw [if_pos (Or.inr (Or.inl rfl))]
  · unfold W25Q_ReadData
    rw [if_pos (Or.inr (Or.inr (Or.inl (by decide))))]
  · unfold W25Q_ProgramData
    rw [if_pos (Or.inr (Or.inl rfl))]
  · unfold W25Q_ProgramData
    rw [if_pos (Or.inr (Or.inr (Or.inl (by decide))))]

/-! ## Shape of the trace of a program or erase call -/

@[simp] lemma halCommand_trace {σ : Type} (T : Transport σ) (d : Driver σ)
    (com : QSPI_CommandTypeDef) :
    (halCommand T d com).2.trace = d.trace ++ [Event.command com (halCommand T d com).1] := rfl

@[simp] lemma halCommand_status {σ : Type} (T : Transport σ) (d : Driver σ)
    (com : QSPI_CommandTypeDef) :
    (halCommand T d com).2.w25q_status = d.w25q_status := rfl

@[simp] lemma halReceive_trace {σ : Type} (T : Transport σ) (d : Driver σ) :
    (halReceive T d).2.2.trace
      = d.trace ++ [Event.receive (halReceive T d).2.1 (halReceive T d).1] := rfl

@[simp] lemma halReceive_status {σ : Type} (T : Transport σ) (d : Driver σ) :
    (halReceive T d).2.2.w25q_status = d.w25q_status := rfl

@[simp] lemma halTransmit_trace {σ : Type} (T : Transport σ) (d : Driver σ) (buf : List Nat) :
    (halTransmit T d buf).2.trace
      = d.trace ++ [Event.transmit buf (halTransmit T d buf).1] := rfl

@[simp] lemma halTransmit_status {σ : Type} (T : Transport σ) (d : Driver σ) (buf : List Nat) :
    (halTransmit T d buf).2.w25q_status = d.w25q_status := rfl

lemma pollEvent_not_programOrErase (e : Event) (h : pollEvent e) (com : QSPI_CommandTypeDef)
    (st : HAL_StatusTypeDef) (he : e = Event.command com st) :
    ¬ isProgramOrErase com.Instruction ∧ com.Instruction ≠ W25Q_WRITE_ENABLE := by
  subst he
  simp only [pollEvent] at h
  subst h
  constructor <;> decide

/-- The three ways a call of `W25Q_IsBusy` can go. -/
lemma isBusy_cases {σ : Type} (T : Transport σ) (d : Driver σ) :
    ((halCommand T d (readStatusRegCom W25Q_READ_SR1)).1 ≠ HAL_StatusTypeDef.HAL_OK ∧
      W25Q_IsBusy T d
        = (W25Q_STATE.W25Q_SPI_ERR, (halCommand T d (readStatusRegCom W25Q_READ_SR1)).2)) ∨
    ((halCommand T d (readStatusRegCom W25Q_READ_SR1)).1 = HAL_StatusTypeDef.HAL_OK ∧
      (halReceive T (halCommand T d (readStatusRegCom W25Q_READ_SR1)).2).1
        ≠ HAL_StatusTypeDef.HAL_OK ∧
      W25Q_IsBusy T d = (W25Q_STATE.W25Q_SPI_ERR,
        (halReceive T (halCommand T d (readStatusRegCom W25Q_READ_SR1)).2).2.2)) ∨
    ((halCommand T d (readStatusRegCom W25Q_READ_SR1)).1 = HAL_StatusTypeDef.HAL_OK ∧
      (halReceive T (halCommand T d (readStatusRegCom W25Q_READ_SR1)).2).1
        = HAL_StatusTypeDef.HAL_OK ∧
      ∃ busy : Bool, W25Q_IsBusy T d
        = (if busy then W25Q_STATE.W25Q_BUSY else W25Q_STATE.W25Q_OK,
          { (halReceive T (halCommand T d (readStatusRegCom W25Q_READ_SR1)).2).2.2 with
            w25q_status :=
              { (halReceive T (halCommand T d (readStatusRegCom W25Q_READ_SR1)).2).2.2.w25q_status
                with BUSY := busy } })) := by
  by_cases hc : (halCommand T d (readStatusRegCom W25Q_READ_SR1)).1 = HAL_StatusTypeDef.HAL_OK
  · by_cases hr : (halReceive T (halCommand T d (readStatusRegCom W25Q_READ_SR1)).2).1
        = HAL_StatusTypeDef.HAL_OK
    · refine Or.inr (Or.inr ⟨hc, hr, ?_⟩)
      refine ⟨decide ((storeBytes
        (halReceive T (halCommand T d (readStatusRegCom W25Q_READ_SR1)).2).2.1 [0]).headD 0
          &&& 1 ≠ 0), ?_⟩
      simp only [W25Q_IsBusy, W25Q_ReadStatusReg, if_true, hc, hr, ne_eq, not_true_eq_false,
        if_false]
    · refine Or.inr (Or.inl ⟨hc, hr, ?_⟩)
      simp [W25Q_IsBusy, W25Q_ReadStatusReg, hc, hr]
  · refine Or.inl ⟨hc, ?_⟩
    simp [W25Q_IsBusy, W25Q_ReadStatusReg, hc]

lemma isBusy_trace {σ : Type} (T : Transport σ) (d : Driver σ) :
    ∃ l : List Event, (W25Q_IsBusy T d).2.trace = d.trace ++ l ∧ ∀ e ∈ l, pollEvent e := by
  rcases isBusy_cases T d with ⟨_, h⟩ | ⟨_, _, h⟩ | ⟨_, _, busy, h⟩
  · refine ⟨[Event.command (readStatusRegCom W25Q_READ_SR1)
      (halCommand T d (readStatusRegCom W25Q_READ_SR1)).1], ?_, ?_⟩
    · rw [h]
      exact halCommand_trace T d _
    · intro e he
      simp only [List.mem_singleton] at he
      subst he
      simp [pollEvent]
  all_goals
    refine ⟨[Event.command (readStatusRegCom W25Q_READ_SR1)
        (halCommand T d (readStatusRegCom W25Q_READ_SR1)).1,
      Event.receive (halReceive T (halCommand T d (readStatusRegCom W25Q_READ_SR1)).2).2.1
        (halReceive T (halCommand T d (readStatusRegCom W25Q_READ_SR1)).2).1], ?_, ?_⟩
    · rw [h]
      simp
    · intro e he
      simp only [List.mem_cons, List.mem_singleton, List.not_mem_nil, or_false] at he
      rcases he with rfl | rfl <;> simp [pollEvent]

lemma busyWait_trace {σ : Type} (T : Transport σ) (fuel : Nat) :
    ∀ d : Driver σ, ∃ l : List Event,
      (busyWait T fuel d).2.trace = d.trace ++ l ∧ ∀ e ∈ l, pollEvent e := by
  induction fuel with
  | zero =>
    intro d
    exact ⟨[], by simp [busyWait], by simp⟩
  | succ n ih =>
    intro d
    obtain ⟨l1, h1, hp1⟩ := isBusy_trace T d
    unfold busyWait
    dsimp only
    split_ifs with hb
    · obtain ⟨l2, h2, hp2⟩ := ih (W25Q_IsBusy T d).2
      refine ⟨l1 ++ l2, ?_, ?_⟩
      · rw [h2, h1, List.append_assoc]
      · intro e he
        rcases List.mem_append.mp he with h | h
        · exact hp1 e h
        · exact hp2 e h
    · exact ⟨l1, h1, hp1⟩

/-- The two ways a call of `W25Q_WriteEnable` can go. -/
lemma writeEnable_cases {σ : Type} (T : Transport σ) (d : Driver σ) (enable : Bool) :
    ((halCommand T d (writeEnableCom enable)).1 ≠ HAL_StatusTypeDef.HAL_OK ∧
      W25Q_WriteEnable T d enable
        = (W25Q_STATE.W25Q_SPI_ERR, (halCommand T d (writeEnableCom enable)).2)) ∨
    ((halCommand T d (writeEnableCom enable)).1 = HAL_StatusTypeDef.HAL_OK ∧
      W25Q_WriteEnable T d enable
        = (W25Q_STATE.W25Q_OK,
          { (halCommand T d (writeEnableCom enable)).2 with
            w25q_status :=
              { (halCommand T d (writeEnableCom enable)).2.w25q_status with WEL := true } })) := by
  by_cases hc : (halCommand T d (writeEnableCom enable)).1 = HAL_StatusTypeDef.HAL_OK
  · exact Or.inr ⟨hc, by simp [W25Q_WriteEnable, hc]⟩
  · exact Or.inl ⟨hc, by simp [W25Q_WriteEnable, hc]⟩

/-- The HAL calls of the common program/erase sequence: polls; or polls and a refused
write enable; or polls, an accepted write enable, the command, and then only a transmit
and polls. -/
lemma writeSequence_shape {σ : Type} (T : Transport σ) (fuel : Nat) (d : Driver σ)
    (com : QSPI_CommandTypeDef) (tx : Option (List Nat)) :
    ∃ p1 : List Event, (∀ e ∈ p1, pollEvent e) ∧
      (((writeSequence T fuel d com tx).1 = none ∧
          (writeSequence T fuel d com tx).2.trace = d.trace ++ p1) ∨
       (∃ st : HAL_StatusTypeDef, st ≠ HAL_StatusTypeDef.HAL_OK ∧
          (writeSequence T fuel d com tx).1 = some W25Q_STATE.W25Q_SPI_ERR ∧
          (writeSequence T fuel d com tx).2.trace
            = d.trace ++ (p1 ++ [Event.command (writeEnableCom true) st])) ∨
       (∃ (st : HAL_StatusTypeDef) (rest : List Event),
          (writeSequence T fuel d com tx).2.trace
            = d.trace ++ (p1 ++ Event.command (writeEnableCom true) HAL_StatusTypeDef.HAL_OK ::
                Event.command com st :: rest) ∧
          (∀ e ∈ rest, pollEvent e ∨ ∃ b s, e = Event.transmit b s) ∧
          ((writeSequence T fuel d com tx).1 = none ∨
            (writeSequence T fuel d com tx).1 = some W25Q_STATE.W25Q_OK ∨
            (writeSequence T fuel d com tx).1 = some W25Q_STATE.W25Q_SPI_ERR))) := by
  obtain ⟨p1, hp1, hpoll1⟩ := busyWait_trace T fuel d
  refine ⟨p1, hpoll1, ?_⟩
  unfold writeSequence
  dsimp only
  by_cases hw : (busyWait T fuel d).1 = false
  · left
    simp [hw, hp1]
  · right
    simp only [hw, if_false]
    rcases writeEnable_cases T (busyWait T fuel d).2 true with ⟨hst, he⟩ | ⟨hst, he⟩
    · left
      refine ⟨_, hst, ?_⟩
      rw [he]
      simp [hp1]
    · right
      rw [he]
      simp only [ne_eq, not_true_eq_false, if_false]
      generalize hd2 : ({ (halCommand T (busyWait T fuel d).2 (writeEnableCom true)).2 with
            w25q_status :=
              { (halCommand T (busyWait T fuel d).2 (writeEnableCom true)).2.w25q_status with
                WEL := true } } : Driver σ) = d2
      have ht2 : d2.trace
          = d.trace ++ (p1 ++ [Event.command (writeEnableCom true) HAL_StatusTypeDef.HAL_OK]) := by
        rw [← hd2]
        simp [hp1, hst]
      by_cases hc : (halCommand T d2 com).1 = HAL_StatusTypeDef.HAL_OK
      · simp only [hc, not_true_eq_false, if_false]
        cases tx with
        | none =>
          dsimp only
          obtain ⟨p2, hp2, hpoll2⟩ := busyWait_trace T fuel (halCommand T d2 com).2
          refine ⟨HAL_StatusTypeDef.HAL_OK, p2, ?_, ?_, ?_⟩
          · by_cases hw2 : (busyWait T fuel (halCommand T d2 com).2).1 = false <;>
              simp [hw2, hp2, ht2, hc]
          · intro e he2
            exact Or.inl (hpoll2 e he2)
          · by_cases hw2 : (busyWait T fuel (halCommand T d2 com).2).1 = false <;> simp [hw2]
        | some buf =>
          dsimp only
          by_cases htx : (halTransmit T (halCommand T d2 com).2 buf).1 = HAL_StatusTypeDef.HAL_OK
          · obtain ⟨p2, hp2, hpoll2⟩ :=
              busyWait_trace T fuel (halTransmit T (halCommand T d2 com).2 buf).2
            refine ⟨HAL_StatusTypeDef.HAL_OK,
              Event.transmit buf HAL_StatusTypeDef.HAL_OK :: p2, ?_, ?_, ?_⟩
            · simp only [htx, not_true_eq_false, if_false]
              by_cases hw2 : (busyWait T fuel
                  (halTransmit T (halCommand T d2 com).2 buf).2).1 = false <;>
                simp [hw2, hp2, ht2, hc, htx]
            · intro e he2
              rcases List.mem_cons.mp he2 with h | h
              · exact Or.inr ⟨_, _, h⟩
              · exact Or.inl (hpoll2 e h)
            · simp only [htx, not_true_eq_false, if_false]
              by_cases hw2 : (busyWait T fuel
                  (halTransmit T (halCommand T d2 com).2 buf).2).1 = false <;>
                simp [hw2]
          · refine ⟨HAL_StatusTypeDef.HAL_OK,
              [Event.transmit buf (halTransmit T (halCommand T d2 com).2 buf).1], ?_, ?_, ?_⟩
            · simp [htx, ht2, hc]
            · intro e he2
              exact Or.inr ⟨_, _, List.mem_singleton.mp he2⟩
            · simp [htx]
      · refine ⟨(halCommand T d2 com).1, [], ?_, ?_, ?_⟩
        · simp [hc, ht2]
        · simp
        · simp [hc]

lemma programRaw_eq_writeSequence {σ : Type} (T : Transport σ) (fuel : Nat) (d : Driver σ)
    (buf : List Nat) (data_len rawAddr : Nat) (h : ¬ (data_len > 256 ∨ data_len = 0)) :
    W25Q_ProgramRaw T fuel d buf data_len rawAddr
      = writeSequence T fuel d (programRawCom data_len rawAddr) (some buf) := by
  unfold W25Q_ProgramRaw writeSequence
  rw [if_neg h]

lemma eraseSector_eq_writeSequence {σ : Type} (T : Transport σ) (fuel : Nat) (d : Driver σ)
    (SectAddr : Nat) (h : ¬ SectAddr ≥ SECTOR_COUNT) :
    W25Q_EraseSector T fuel d SectAddr
      = writeSequence T fuel d (eraseSectorCom (sectorRawAddr SectAddr)) none := by
  unfold W25Q_EraseSector writeSequence
  rw [if_neg h]

lemma eraseBlock_eq_writeSequence {σ : Type} (T : Transport σ) (fuel : Nat) (d : Driver σ)
    (BlockAddr size : Nat) (h1 : ¬ (size ≠ 32 ∧ size ≠ 64))
    (h2 : ¬ ((size = 64 ∧ BlockAddr ≥ BLOCK_COUNT) ∨ (size = 32 ∧ BlockAddr ≥ BLOCK_COUNT * 2))) :
    W25Q_EraseBlock T fuel d BlockAddr size
      = writeSequence T fuel d (eraseBlockCom size (blockRawAddr BlockAddr size)) none := by
  unfold W25Q_EraseBlock writeSequence
  rw [if_neg h1, if_neg h2]

lemma eraseChip_eq_writeSequence {σ : Type} (T : Transport σ) (fuel : Nat) (d : Driver σ) :
    W25Q_EraseChip T fuel d = writeSequence T fuel d eraseChipCom none := by
  unfold W25Q_EraseChip writeSequence
  rfl

/-- In a list `p1 ++ a :: b :: rest` where only `b` may satisfy `D`, an element that
satisfies `D` is preceded exactly by `p1 ++ [a]`. -/
lemma split_at_marked {α : Type} (D : α → Prop) (a b : α) (rest : List α) (ha : ¬ D a)
    (hr : ∀ e ∈ rest, ¬ D e) :
    ∀ (p1 : List α), (∀ e ∈ p1, ¬ D e) → ∀ (pre post : List α) (e : α),
      p1 ++ a :: b :: rest = pre ++ e :: post → D e → pre = p1 ++ [a] := by
  intro p1
  induction p1 with
  | nil =>
    intro _ pre post e heq hD
    cases pre with
    | nil =>
      simp only [List.nil_append, List.cons.injEq] at heq
      exact absurd (heq.1 ▸ hD) ha
    | cons x pre1 =>
      cases pre1 with
      | nil =>
        simp only [List.nil_append, List.cons_append, List.cons.injEq] at heq
        simp [heq.1]
      | cons y pre2 =>
        simp only [List.nil_append, List.cons_append, List.cons.injEq] at heq
        have hmem : e ∈ rest := by
          rw [heq.2.2]
          simp
        exact absurd hD (hr e hmem)
  | cons x p1 ih =>
    intro hp pre post e heq hD
    cases pre with
    | nil =>
      simp only [List.nil_append, List.cons_append, List.cons.injEq] at heq
      exact absurd (heq.1 ▸ hD) (hp x (List.mem_cons_self _ _))
    | cons y pre1 =>
      simp only [List.cons_append, List.cons.injEq] at heq
      have := ih (fun e he => hp e (List.mem_cons_of_mem _ he)) pre1 post e heq.2 hD
      simp [heq.1, this]

lemma writeSequence_guarded {σ : Type} (T : Transport σ) (fuel : Nat) (d : Driver σ)
    (com : QSPI_CommandTypeDef) (tx : Option (List Nat))
    (hcom : com.Instruction ≠ W25Q_WRITE_ENABLE) :
    WriteEnableGuarded d (writeSequence T fuel d com tx) := by
  have hpollD : ∀ e : Event, pollEvent e →
      ¬ (∃ c s, e = Event.command c s ∧ isProgramOrErase c.Instruction) := by
    rintro e he ⟨c, s, rfl, hc⟩
    exact (pollEvent_not_programOrErase _ he c s rfl).1 hc
  have hpollW : ∀ (c : QSPI_CommandTypeDef) (s : HAL_StatusTypeDef),
      pollEvent (Event.command c s) → c.Instruction ≠ W25Q_WRITE_ENABLE :=
    fun c s he => (pollEvent_not_programOrErase _ he c s rfl).2
  have hweD : ∀ s : HAL_StatusTypeDef,
      ¬ (∃ c s2, Event.command (writeEnableCom true) s = Event.command c s2 ∧
        isProgramOrErase c.Instruction) := by
    rintro s ⟨c, s2, heq, hc⟩
    simp only [Event.command.injEq] at heq
    rw [← heq.1] at hc
    revert hc
    decide
  obtain ⟨p1, hpoll1, h | ⟨st, hst, hret, htr⟩ | ⟨st, rest, htr, hrest, _⟩⟩ :=
    writeSequence_shape T fuel d com tx
  · refine ⟨p1, h.2, ?_, ?_⟩
    · intro pre post c s heq hc
      have hmem : Event.command c s ∈ p1 := by
        rw [heq]
        simp
      exact absurd ⟨c, s, rfl, hc⟩ (hpollD _ (hpoll1 _ hmem))
    · intro we s hmem hwe
      exact absurd hwe (hpollW we s (hpoll1 _ hmem))
  · refine ⟨p1 ++ [Event.command (writeEnableCom true) st], htr, ?_, ?_⟩
    · intro pre post c s heq hc
      have hmem : Event.command c s ∈ p1 ++ [Event.command (writeEnableCom true) st] := by
        rw [heq]
        simp
      rcases List.mem_append.mp hmem with h | h
      · exact absurd ⟨c, s, rfl, hc⟩ (hpollD _ (hpoll1 _ h))
      · exact absurd ⟨c, s, (List.mem_singleton.mp h).symm, hc⟩ (hweD st)
    · intro we s _ _ _
      refine ⟨hret, ?_⟩
      intro c s2 hmem hc
      rcases List.mem_append.mp hmem with h | h
      · exact hpollD _ (hpoll1 _ h) ⟨c, s2, rfl, hc⟩
      · exact hweD st ⟨c, s2, (List.mem_singleton.mp h).symm, hc⟩
  · refine ⟨p1 ++ Event.command (writeEnableCom true) HAL_StatusTypeDef.HAL_OK ::
        Event.command com st :: rest, htr, ?_, ?_⟩
    · intro pre post c s heq hc
      have hrestD : ∀ e ∈ rest,
          ¬ (∃ c s, e = Event.command c s ∧ isProgramOrErase c.Instruction) := by
        intro e he
        rcases hrest e he with h | ⟨b, s3, rfl⟩
        · exact hpollD e h
        · rintro ⟨c2, s2, h2, _⟩
          cases h2
      have := split_at_marked
        (fun e => ∃ c s, e = Event.command c s ∧ isProgramOrErase c.Instruction)
        (Event.command (writeEnableCom true) HAL_StatusTypeDef.HAL_OK) (Event.command com st)
        rest (hweD _) hrestD p1 (fun e he => hpollD e (hpoll1 e he)) pre post
        (Event.command c s) heq ⟨c, s, rfl, hc⟩
      exact ⟨p1, writeEnableCom true, this, rfl⟩
    · intro we s hmem hwe hs
      exfalso
      rcases List.mem_append.mp hmem with h | h
      · exact hpollW we s (hpoll1 _ h) hwe
      · rcases List.mem_cons.mp h with h | h
        · simp only [Event.command.injEq] at h
          exact hs h.2
        · rcases List.mem_cons.mp h with h | h
          · simp only [Event.command.injEq] at h
            exact hcom (h.1 ▸ hwe)
          · rcases hrest _ h with h2 | ⟨b, s3, h2⟩
            · exact hpollW we s h2 hwe
            · cases h2

lemma programRawCom_instruction (data_len rawAddr : Nat) :
    (programRawCom data_len rawAddr).Instruction = W25Q_PAGE_PROGRAM_QUAD_INP_4B := rfl

lemma readRawCom_instruction (data_len rawAddr : Nat) :
    (readRawCom data_len rawAddr).Instruction = W25Q_FAST_READ_QUAD_IO_4B := rfl

lemma eraseSectorCom_instruction (rawAddr : Nat) :
    (eraseSectorCom rawAddr).Instruction = W25Q_SECTOR_ERASE_4B := rfl

lemma eraseBlockCom_instruction_32 (rawAddr : Nat) :
    (eraseBlockCom 32 rawAddr).Instruction = W25Q_32KB_BLOCK_ERASE := rfl

lemma eraseBlockCom_instruction_64 (rawAddr : Nat) :
    (eraseBlockCom 64 rawAddr).Instruction = W25Q_64KB_BLOCK_ERASE_4B := rfl

lemma guarded_of_unchanged {σ : Type} (d : Driver σ) (st : Option W25Q_STATE) :
    WriteEnableGuarded d (st, d) := by
  refine ⟨[], by simp, ?_, ?_⟩
  · intro pre post c s heq
    simp at heq
  · intro we s hmem
    simp at hmem

/-! ## Write enable before program and erase -/

/-- C4: in every run of `W25Q_ProgramRaw`, `W25Q_EraseSector`, `W25Q_EraseBlock` and
`W25Q_EraseChip` (any transport, any arguments, any bound on the polls, runs that are
still polling included): every program or erase command among the HAL calls of the run
comes directly after a write-enable command (opcode `0x06`) that the HAL accepted; and
if the write-enable command is refused, the call returns `W25Q_SPI_ERR` and no program
or erase command is issued. -/
theorem write_enable_precedes_program_erase {σ : Type} (T : Transport σ) (fuel : Nat)
    (d : Driver σ) (buf : List Nat) (data_len rawAddr SectAddr BlockAddr size : Nat) :
    WriteEnableGuarded d (W25Q_ProgramRaw T fuel d buf data_len rawAddr) ∧
    WriteEnableGuarded d (W25Q_EraseSector T fuel d SectAddr) ∧
    WriteEnableGuarded d (W25Q_EraseBlock T fuel d BlockAddr size) ∧
    WriteEnableGuarded d (W25Q_EraseChip T fuel d) := by
  refine ⟨?_, ?_, ?_, ?_⟩
  · by_cases h : data_len > 256 ∨ data_len = 0
    · rw [programRaw_param_err_unchanged T fuel d buf data_len rawAddr h]
      exact guarded_of_unchanged d _
    · rw [programRaw_eq_writeSequence T fuel d buf data_len rawAddr h]
      refine writeSequence_guarded T fuel d _ _ ?_
      rw [programRawCom_instruction]
      decide
  · by_cases h : SectAddr ≥ SECTOR_COUNT
    · unfold W25Q_EraseSector
      rw [if_pos h]
      exact guarded_of_unchanged d _
    · rw [eraseSector_eq_writeSequence T fuel d SectAddr h]
      refine writeSequence_guarded T fuel d _ _ ?_
      rw [eraseSectorCom_instruction]
      decide
  · by_cases h1 : size ≠ 32 ∧ size ≠ 64
    · unfold W25Q_EraseBlock
      rw [if_pos h1]
      exact guarded_of_unchanged d _
    · by_cases h2 : (size = 64 ∧ BlockAddr ≥ BLOCK_COUNT) ∨
          (size = 32 ∧ BlockAddr ≥ BLOCK_COUNT * 2)
      · unfold W25Q_EraseBlock
        rw [if_neg h1, if_pos h2]
        exact guarded_of_unchanged d _
      · rw [eraseBlock_eq_writeSequence T fuel d BlockAddr size h1 h2]
        refine writeSequence_guarded T fuel d _ _ ?_
        have hsz : size = 32 ∨ size = 64 := by omega
        rcases hsz with rfl | rfl
        · rw [eraseBlockCom_instruction_32]
          decide
        · rw [eraseBlockCom_instruction_64]
          decide
  · rw [eraseChip_eq_writeSequence T fuel d]
    exact writeSequence_guarded T fuel d _ _ (by decide)

/-! ## A busy poll that fails at the transport -/

/-- C5 (the code at the failing input): on a bus where the status-register-1 read
command fails, `W25Q_ProgramRaw` does not return the transport error of the poll: after
the failed poll it issues the write enable and the program command and transmits the
data, and after the failed completion poll it returns `W25Q_OK`; likewise
`W25Q_ReadRaw` issues its read command after the failed poll and returns `W25Q_OK`. -/
theorem failed_busy_poll_is_not_returned :
    (W25Q_ProgramRaw pollFailSim 1 (simDriver 0xFF) [0x65] 1 0).1 = some W25Q_STATE.W25Q_OK ∧
    (W25Q_ProgramRaw pollFailSim 1 (simDriver 0xFF) [0x65] 1 0).2.trace =
      [Event.command (readStatusRegCom W25Q_READ_SR1) HAL_StatusTypeDef.HAL_ERROR,
       Event.command (writeEnableCom true) HAL_StatusTypeDef.HAL_OK,
       Event.command (programRawCom 1 0) HAL_StatusTypeDef.HAL_OK,
       Event.transmit [0x65] HAL_StatusTypeDef.HAL_OK,
       Event.command (readStatusRegCom W25Q_READ_SR1) HAL_StatusTypeDef.HAL_ERROR] ∧
    (W25Q_ReadRaw pollFailSim 1 (simDriver 0xFF) [0] 1 0).1 = some W25Q_STATE.W25Q_OK ∧
    (W25Q_ReadRaw pollFailSim 1 (simDriver 0xFF) [0] 1 0).2.2.trace =
      [Event.command (readStatusRegCom W25Q_READ_SR1) HAL_StatusTypeDef.HAL_ERROR,
       Event.command (readRawCom 1 0) HAL_StatusTypeDef.HAL_OK,
       Event.receive [0xFF] HAL_StatusTypeDef.HAL_OK] := by
  refine ⟨?_, ?_, ?_, ?_⟩ <;> rfl

/-! ## The driver in front of the in-memory flash -/

lemma readStatusReg_flashSim (d : Driver FlashSim) :
    W25Q_ReadStatusReg flashSim d 0 1 =
      (W25Q_STATE.W25Q_OK, 0,
        { w25q_status := d.w25q_status
          hqspi := { mem := d.hqspi.mem, pending := none }
          trace := d.trace ++
            [Event.command (readStatusRegCom W25Q_READ_SR1) HAL_StatusTypeDef.HAL_OK] ++
             [Event.receive [0] HAL_StatusTypeDef.HAL_OK] }) := by
  rfl

lemma isBusy_flashSim (d : Driver FlashSim) :
    W25Q_IsBusy flashSim d =
      (W25Q_STATE.W25Q_OK,
        { w25q_status := { d.w25q_status with BUSY := false }
          hqspi := { mem := d.hqspi.mem, pending := none }
          trace := d.trace ++
            [Event.command (readStatusRegCom W25Q_READ_SR1) HAL_StatusTypeDef.HAL_OK] ++
             [Event.receive [0] HAL_StatusTypeDef.HAL_OK] }) := by
  unfold W25Q_IsBusy
  rw [readStatusReg_flashSim]
  simp

lemma busyWait_flashSim (fuel : Nat) (d : Driver FlashSim) :
    busyWait flashSim (fuel + 1) d =
      (true,
        { w25q_status := { d.w25q_status with BUSY := false }
          hqspi := { mem := d.hqspi.mem, pending := none }
          trace := d.trace ++
            [Event.command (readStatusRegCom W25Q_READ_SR1) HAL_StatusTypeDef.HAL_OK] ++
             [Event.receive [0] HAL_StatusTypeDef.HAL_OK] }) := by
  unfold busyWait
  rw [isBusy_flashSim]
  simp

lemma eraseSector_flashSim (fuel : Nat) (d : Driver FlashSim) (a : Nat) :
    writeSequence flashSim (fuel + 1) d (eraseSectorCom a) none =
      (some W25Q_STATE.W25Q_OK,
        { w25q_status := { d.w25q_status with BUSY := false, WEL := true }
          hqspi := { mem := FlashSim.erase d.hqspi.mem a 4096, pending := none }
          trace := d.trace ++
            [Event.command (readStatusRegCom W25Q_READ_SR1) HAL_StatusTypeDef.HAL_OK] ++
            [Event.receive [0] HAL_StatusTypeDef.HAL_OK] ++
            [Event.command (writeEnableCom true) HAL_StatusTypeDef.HAL_OK] ++
            [Event.command (eraseSectorCom a) HAL_StatusTypeDef.HAL_OK] ++
            [Event.command (readStatusRegCom W25Q_READ_SR1) HAL_StatusTypeDef.HAL_OK] ++
            [Event.receive [0] HAL_StatusTypeDef.HAL_OK] }) := by
  unfold writeSequence
  simp only [busyWait_flashSim]
  rfl

lemma programRaw_flashSim (fuel : Nat) (d : Driver FlashSim) (l a : Nat) (buf : List Nat) :
    writeSequence flashSim (fuel + 1) d (programRawCom l a) (some buf) =
      (some W25Q_STATE.W25Q_OK,
        { w25q_status := { d.w25q_status with BUSY := false, WEL := true }
          hqspi :=
            { mem := fun x =>
                if a ≤ x ∧ x < a + l then buf.getD (x - a) 0 % 256 else d.hqspi.mem x
              pending := none }
          trace := d.trace ++
            [Event.command (readStatusRegCom W25Q_READ_SR1) HAL_StatusTypeDef.HAL_OK] ++
            [Event.receive [0] HAL_StatusTypeDef.HAL_OK] ++
            [Event.command (writeEnableCom true) HAL_StatusTypeDef.HAL_OK] ++
            [Event.command (programRawCom l a) HAL_StatusTypeDef.HAL_OK] ++
            [Event.transmit buf HAL_StatusTypeDef.HAL_OK] ++
            [Event.command (readStatusRegCom W25Q_READ_SR1) HAL_StatusTypeDef.HAL_OK] ++
            [Event.receive [0] HAL_StatusTypeDef.HAL_OK] }) := by
  unfold writeSequence
  simp only [busyWait_flashSim]
  rfl

lemma readRaw_flashSim (fuel : Nat) (d : Driver FlashSim) (l a : Nat) (buf : List Nat)
    (h : ¬ (l > 256 ∨ l = 0)) :
    W25Q_ReadRaw flashSim (fuel + 1) d buf l a =
      (some W25Q_STATE.W25Q_OK,
        storeBytes ((List.range l).map (fun i => d.hqspi.mem (a + i))) buf,
        { w25q_status := { d.w25q_status with BUSY := false }
          hqspi := { mem := d.hqspi.mem, pending := none }
          trace := d.trace ++
            [Event.command (readStatusRegCom W25Q_READ_SR1) HAL_StatusTypeDef.HAL_OK] ++
            [Event.receive [0] HAL_StatusTypeDef.HAL_OK] ++
            [Event.command (readRawCom l a) HAL_StatusTypeDef.HAL_OK] ++
            [Event.receive ((List.range l).map (fun i => d.hqspi.mem (a + i)))
              HAL_StatusTypeDef.HAL_OK] }) := by
  unfold W25Q_ReadRaw
  rw [if_neg h]
  simp only [busyWait_flashSim]
  rfl

lemma page_to_addr_eq (pageNum pageShift : Nat) (hp : pageNum < PAGE_COUNT)
    (hs : pageShift < 256) : page_to_addr pageNum pageShift = pageNum * 256 + pageShift := by
  simp only [page_to_addr, MEM_PAGE_SIZE, U32_MOD, PAGE_COUNT, SECTOR_COUNT, BLOCK_COUNT,
    MEM_FLASH_SIZE] at *
  omega

lemma read_back_programmed (a : Nat) (data : List Nat) (mem : Nat → Nat)
    (hb : ∀ b ∈ data, b < 256) :
    (List.range data.length).map
      (fun i => if a ≤ a + i ∧ a + i < a + data.length then data.getD (a + i - a) 0 % 256
        else mem (a + i)) = data := by
  apply List.ext_getElem
  · simp
  · intro i h1 h2
    simp only [List.getElem_map, List.getElem_range]
    have hi : i < data.length := h2
    rw [if_pos ⟨by omega, by omega⟩, Nat.add_sub_cancel_left, List.getD_eq_getElem _ _ hi]
    exact Nat.mod_eq_of_lt (hb _ (List.getElem_mem _))

lemma storeBytes_full (data buf : List Nat) (hb : ∀ b ∈ data, b < 256)
    (hl : buf.length = data.length) : storeBytes data buf = data := by
  unfold storeBytes
  rw [List.drop_of_length_le (by omega), List.append_nil]
  conv_rhs => rw [← List.map_id data]
  apply List.map_congr_left
  intro b hbm
  exact Nat.mod_eq_of_lt (hb b hbm)

/-! ## Round trip -/

/-- C6: on the in-memory flash (never busy, every HAL call succeeds), for every
`pageNum < PAGE_COUNT`, every `len` in `1..256`, every `pageShift` with
`pageShift + len <= 256` and every sequence `data` of `len` bytes: erasing the sector
that contains the page (`pageNum / 16`), then `W25Q_ProgramData`, then `W25Q_ReadData`
into a buffer of `len` bytes all return `W25Q_OK` and the buffer then equals `data`.  The
HAL calls of the program are a poll, the write enable, the program command with address
`pageNum * 256 + pageShift` and length `len`, the transmit of `data` and a poll; those of
the read are a poll, the read command with the same address and length, and the receive
of `data`. -/
theorem erase_program_read_roundtrip (fuel : Nat) (d : Driver FlashSim)
    (pageNum pageShift len : Nat) (data buf : List Nat)
    (hfuel : 0 < fuel) (hp : pageNum < PAGE_COUNT) (hl1 : 1 ≤ len) (hl2 : len ≤ 256)
    (hs : pageShift + len ≤ 256) (hdata : data.length = len) (hbytes : ∀ b ∈ data, b < 256)
    (hbuf : buf.length = len) :
    (W25Q_EraseSector flashSim fuel d (pageNum / 16)).1 = some W25Q_STATE.W25Q_OK ∧
    (W25Q_ProgramData flashSim fuel (W25Q_EraseSector flashSim fuel d (pageNum / 16)).2
        data len pageShift pageNum).1 = some W25Q_STATE.W25Q_OK ∧
    (W25Q_ReadData flashSim fuel
        (W25Q_ProgramData flashSim fuel (W25Q_EraseSector flashSim fuel d (pageNum / 16)).2
          data len pageShift pageNum).2 buf len pageShift pageNum).1
      = some W25Q_STATE.W25Q_OK ∧
    (W25Q_ReadData flashSim fuel
        (W25Q_ProgramData flashSim fuel (W25Q_EraseSector flashSim fuel d (pageNum / 16)).2
          data len pageShift pageNum).2 buf len pageShift pageNum).2.1 = data ∧
    (W25Q_ProgramData flashSim fuel (W25Q_EraseSector flashSim fuel d (pageNum / 16)).2
        data len pageShift pageNum).2.trace
      = (W25Q_EraseSector flashSim fuel d (pageNum / 16)).2.trace ++
        [Event.command (readStatusRegCom W25Q_READ_SR1) HAL_StatusTypeDef.HAL_OK,
         Event.receive [0] HAL_StatusTypeDef.HAL_OK,
         Event.command (writeEnableCom true) HAL_StatusTypeDef.HAL_OK,
         Event.command (programRawCom len (pageNum * 256 + pageShift)) HAL_StatusTypeDef.HAL_OK,
         Event.transmit data HAL_StatusTypeDef.HAL_OK,
         Event.command (readStatusRegCom W25Q_READ_SR1) HAL_StatusTypeDef.HAL_OK,
         Event.receive [0] HAL_StatusTypeDef.HAL_OK] ∧
    (W25Q_ReadData flashSim fuel
        (W25Q_ProgramData flashSim fuel (W25Q_EraseSector flashSim fuel d (pageNum / 16)).2
          data len pageShift pageNum).2 buf len pageShift pageNum).2.2.trace
      = (W25Q_ProgramData flashSim fuel (W25Q_EraseSector flashSim fuel d (pageNum / 16)).2
          data len pageShift pageNum).2.trace ++
        [Event.command (readStatusRegCom W25Q_READ_SR1) HAL_StatusTypeDef.HAL_OK,
         Event.receive [0] HAL_StatusTypeDef.HAL_OK,
         Event.command (readRawCom len (pageNum * 256 + pageShift)) HAL_StatusTypeDef.HAL_OK,
         Event.receive data HAL_StatusTypeDef.HAL_OK] ∧
    (programRawCom len (pageNum * 256 + pageShift)).Address = pageNum * 256 + pageShift ∧
    (readRawCom len (pageNum * 256 + pageShift)).Address = pageNum * 256 + pageShift ∧
    (programRawCom len (pageNum * 256 + pageShift)).NbData = len ∧
    (readRawCom len (pageNum * 256 + pageShift)).NbData = len := by
  obtain ⟨n, rfl⟩ : ∃ n, fuel = n + 1 := ⟨fuel - 1, by omega⟩
  have hsect : ¬ pageNum / 16 ≥ SECTOR_COUNT := by
    simp only [PAGE_COUNT, SECTOR_COUNT, BLOCK_COUNT, MEM_FLASH_SIZE] at *
    omega
  have hraw : ¬ (len > 256 ∨ len = 0) := by omega
  have hchk : ¬ (pageNum ≥ PAGE_COUNT ∨ len = 0 ∨ len > 256 ∨
      (pageShift : Int) > 256 - (len : Int)) := by omega
  have haddr := page_to_addr_eq pageNum pageShift hp (by omega)
  have hE := eraseSector_eq_writeSequence flashSim (n + 1) d (pageNum / 16) hsect
  rw [eraseSector_flashSim] at hE
  have hP : ∀ d1 : Driver FlashSim,
      W25Q_ProgramData flashSim (n + 1) d1 data len pageShift pageNum
        = writeSequence flashSim (n + 1) d1 (programRawCom len (pageNum * 256 + pageShift))
            (some data) := by
    intro d1
    unfold W25Q_ProgramData
    rw [if_neg hchk]
    dsimp only
    rw [haddr]
    exact programRaw_eq_writeSequence flashSim (n + 1) d1 data len _ hraw
  have hR : ∀ d1 : Driver FlashSim,
      W25Q_ReadData flashSim (n + 1) d1 buf len pageShift pageNum
        = W25Q_ReadRaw flashSim (n + 1) d1 buf len (pageNum * 256 + pageShift) := by
    intro d1
    unfold W25Q_ReadData
    rw [if_neg hchk]
    dsimp only
    rw [haddr]
  rw [hR, hP, hE, programRaw_flashSim, readRaw_flashSim _ _ _ _ _ hraw]
  dsimp only
  subst hdata
  rw [read_back_programmed _ data _ hbytes, storeBytes_full data buf hbytes hbuf]
  refine ⟨rfl, rfl, rfl, rfl, ?_, ?_, rfl, rfl, rfl, rfl⟩ <;> simp

/-- The structure written by `example.c`, three bytes at shift 1 of page 0, comes back. -/
theorem erase_program_read_roundtrip_witness :
    (0 < 1 ∧ 0 < PAGE_COUNT ∧ 1 ≤ 3 ∧ 3 ≤ 256 ∧ 1 + 3 ≤ 256 ∧
      (∀ b ∈ [0x20, 0x4A, 0x3F], b < 256)) ∧
    (W25Q_ReadData flashSim 1
        (W25Q_ProgramData flashSim 1 (W25Q_EraseSector flashSim 1 (simDriver 0) (0 / 16)).2
          [0x20, 0x4A, 0x3F] 3 1 0).2 [0, 0, 0] 3 1 0).2.1 = [0x20, 0x4A, 0x3F] :=
  ⟨⟨by decide, by decide, by decide, by decide, by decide, by decide⟩,
    (erase_program_read_roundtrip 1 (simDriver 0) 0 1 3 [0x20, 0x4A, 0x3F] [0, 0, 0]
      (by decide) (by decide) (by decide) (by decide) (by decide) rfl (by decide) rfl).2.2.2.1⟩

/-! ## Erase: parameter validation, addresses, commands -/

lemma writeSequence_state {σ : Type} (T : Transport σ) (fuel : Nat) (d : Driver σ)
    (com : QSPI_CommandTypeDef) (tx : Option (List Nat)) :
    (writeSequence T fuel d com tx).1 ≠ some W25Q_STATE.W25Q_PARAM_ERR := by
  obtain ⟨p1, _, h | ⟨st, _, hret, _⟩ | ⟨st, rest, _, _, h | h | h⟩⟩ :=
    writeSequence_shape T fuel d com tx
  · rw [h.1]
    simp
  all_goals
    first
      | rw [hret]
      | rw [h]
    simp

/-- C7: `W25Q_EraseSector` returns `W25Q_PARAM_ERR` when `SectAddr >= SECTOR_COUNT`
(8192); `W25Q_EraseBlock` returns `W25Q_PARAM_ERR` when `size` is neither 32 nor 64 and
when `size = 64` and `BlockAddr >= BLOCK_COUNT` (512); in each of these cases the driver
state is unchanged, so no HAL call was made; and for an index in range with a supported
size (a sector below `SECTOR_COUNT`, a 64K block below `BLOCK_COUNT`, a 32K block below
`BLOCK_COUNT * 2`) no run returns `W25Q_PARAM_ERR`. -/
theorem erase_param_err {σ : Type} (T : Transport σ) (fuel : Nat) (d : Driver σ)
    (SectAddr BlockAddr size : Nat) :
    SECTOR_COUNT = 8192 ∧ BLOCK_COUNT = 512 ∧
    (SectAddr ≥ SECTOR_COUNT →
      W25Q_EraseSector T fuel d SectAddr = (some W25Q_STATE.W25Q_PARAM_ERR, d)) ∧
    ((size ≠ 32 ∧ size ≠ 64) →
      W25Q_EraseBlock T fuel d BlockAddr size = (some W25Q_STATE.W25Q_PARAM_ERR, d)) ∧
    (BlockAddr ≥ BLOCK_COUNT →
      W25Q_EraseBlock T fuel d BlockAddr 64 = (some W25Q_STATE.W25Q_PARAM_ERR, d)) ∧
    (SectAddr < SECTOR_COUNT →
      (W25Q_EraseSector T fuel d SectAddr).1 ≠ some W25Q_STATE.W25Q_PARAM_ERR) ∧
    (BlockAddr < BLOCK_COUNT →
      (W25Q_EraseBlock T fuel d BlockAddr 64).1 ≠ some W25Q_STATE.W25Q_PARAM_ERR) ∧
    (BlockAddr < BLOCK_COUNT * 2 →
      (W25Q_EraseBlock T fuel d BlockAddr 32).1 ≠ some W25Q_STATE.W25Q_PARAM_ERR) := by
  refine ⟨by decide, by decide, ?_, ?_, ?_, ?_, ?_, ?_⟩
  · intro h
    unfold W25Q_EraseSector
    rw [if_pos h]
  · intro h
    unfold W25Q_EraseBlock
    rw [if_pos h]
  · intro h
    unfold W25Q_EraseBlock
    rw [if_neg (by decide), if_pos (Or.inl ⟨rfl, h⟩)]
  · intro h
    rw [eraseSector_eq_writeSequence T fuel d SectAddr (by omega)]
    exact writeSequence_state T fuel d _ _
  · intro h
    rw [eraseBlock_eq_writeSequence T fuel d BlockAddr 64 (by decide) (by omega)]
    exact writeSequence_state T fuel d _ _
  · intro h
    rw [eraseBlock_eq_writeSequence T fuel d BlockAddr 32 (by decide) (by omega)]
    exact writeSequence_state T fuel d _ _

/-- C8 (counterexample): the 32K block with index 256 = `BLOCK_COUNT / 2` is not refused:
on the in-memory flash `W25Q_EraseBlock(256, 32)` returns `W25Q_OK` and issues the
32K erase command for address `256 * 32768`. -/
theorem eraseBlock_32_accepts_index_256 :
    256 ≥ BLOCK_COUNT / 2 ∧
    (W25Q_EraseBlock flashSim 1 (simDriver 0) 256 32).1 = some W25Q_STATE.W25Q_OK ∧
    (W25Q_EraseBlock flashSim 1 (simDriver 0) 256 32).2.trace =
      [Event.command (readStatusRegCom W25Q_READ_SR1) HAL_StatusTypeDef.HAL_OK,
       Event.receive [0] HAL_StatusTypeDef.HAL_OK,
       Event.command (writeEnableCom true) HAL_StatusTypeDef.HAL_OK,
       Event.command (eraseBlockCom 32 (256 * 32768)) HAL_StatusTypeDef.HAL_OK,
       Event.command (readStatusRegCom W25Q_READ_SR1) HAL_StatusTypeDef.HAL_OK,
       Event.receive [0] HAL_StatusTypeDef.HAL_OK] := by
  refine ⟨by decide, ?_, ?_⟩ <;> rfl

/-- C8 (amended): for `W25Q_EraseBlock` with `size = 32` the number of valid block
indices is twice the block count of the 64K variant: a run returns `W25Q_PARAM_ERR`
exactly when `BlockAddr >= BLOCK_COUNT * 2` (1024), and then the driver state is
unchanged. -/
theorem eraseBlock_32_index_range {σ : Type} (T : Transport σ) (fuel : Nat) (d : Driver σ)
    (BlockAddr : Nat) :
    BLOCK_COUNT * 2 = 1024 ∧
    ((W25Q_EraseBlock T fuel d BlockAddr 32).1 = some W25Q_STATE.W25Q_PARAM_ERR ↔
      BlockAddr ≥ BLOCK_COUNT * 2) ∧
    (BlockAddr ≥ BLOCK_COUNT * 2 →
      W25Q_EraseBlock T fuel d BlockAddr 32 = (some W25Q_STATE.W25Q_PARAM_ERR, d)) := by
  have hpos : BlockAddr ≥ BLOCK_COUNT * 2 →
      W25Q_EraseBlock T fuel d BlockAddr 32 = (some W25Q_STATE.W25Q_PARAM_ERR, d) := by
    intro h
    unfold W25Q_EraseBlock
    rw [if_neg (by decide), if_pos (Or.inr ⟨rfl, h⟩)]
  refine ⟨by decide, ⟨?_, ?_⟩, hpos⟩
  · intro h
    by_contra hlt
    rw [eraseBlock_eq_writeSequence T fuel d BlockAddr 32 (by decide) (by omega)] at h
    exact writeSequence_state T fuel d _ _ h
  · intro h
    rw [hpos h]

/-- The only program or erase command among the HAL calls of the common sequence is
`com`. -/
lemma writeSequence_commands {σ : Type} (T : Transport σ) (fuel : Nat) (d : Driver σ)
    (com : QSPI_CommandTypeDef) (tx : Option (List Nat)) :
    ∃ new : List Event, (writeSequence T fuel d com tx).2.trace = d.trace ++ new ∧
      ∀ (c : QSPI_CommandTypeDef) (st : HAL_StatusTypeDef), Event.command c st ∈ new →
        isProgramOrErase c.Instruction → c = com := by
  have hpoll : ∀ (c : QSPI_CommandTypeDef) (s : HAL_StatusTypeDef),
      pollEvent (Event.command c s) → ¬ isProgramOrErase c.Instruction :=
    fun c s he => (pollEvent_not_programOrErase _ he c s rfl).1
  have hwe : ¬ isProgramOrErase (writeEnableCom true).Instruction := by decide
  obtain ⟨p1, hpoll1, h | ⟨st, _, _, htr⟩ | ⟨st, rest, htr, hrest, _⟩⟩ :=
    writeSequence_shape T fuel d com tx
  · refine ⟨p1, h.2, ?_⟩
    intro c s hmem hc
    exact absurd hc (hpoll c s (hpoll1 _ hmem))
  · refine ⟨_, htr, ?_⟩
    intro c s hmem hc
    rcases List.mem_append.mp hmem with h | h
    · exact absurd hc (hpoll c s (hpoll1 _ h))
    · simp only [List.mem_singleton, Event.command.injEq] at h
      rw [h.1] at hc
      exact absurd hc hwe
  · refine ⟨_, htr, ?_⟩
    intro c s hmem hc
    rcases List.mem_append.mp hmem with h | h
    · exact absurd hc (hpoll c s (hpoll1 _ h))
    · rcases List.mem_cons.mp h with h | h
      · simp only [Event.command.injEq] at h
        rw [h.1] at hc
        exact absurd hc hwe
      · rcases List.mem_cons.mp h with h | h
        · simp only [Event.command.injEq] at h
          exact h.1
        · rcases hrest _ h with h2 | ⟨b, s3, h2⟩
          · exact absurd hc (hpoll c s h2)
          · cases h2

lemma sectorRawAddr_eq (SectAddr : Nat) (h : SectAddr < SECTOR_COUNT) :
    sectorRawAddr SectAddr = SectAddr * 4096 := by
  simp only [sectorRawAddr, MEM_SECTOR_SIZE, U32_MOD, SECTOR_COUNT, BLOCK_COUNT,
    MEM_FLASH_SIZE] at *
  omega

lemma blockProduct_eq (BlockAddr : Nat) (h : BlockAddr < BLOCK_COUNT * 2) :
    blockProduct BlockAddr = BlockAddr * 65536 := by
  simp only [blockProduct, MEM_SECTOR_SIZE, U32_MOD, BLOCK_COUNT, MEM_FLASH_SIZE] at *
  omega

/-- C9: for every accepted index the address computed for the erase command is
`SectAddr * 4096` for `W25Q_EraseSector`, `BlockAddr * 65536` for `W25Q_EraseBlock` with
size 64 and `BlockAddr * 32768` with size 32; none of the `u32_t` products (the one
halved for size 32 included) reaches `2^32`; the address is a multiple of the erase size
and the erased region ends at or before byte 33554432; and in every run the only
program or erase command among the HAL calls is the erase command carrying that
address. -/
theorem erase_command_address {σ : Type} (T : Transport σ) (fuel : Nat) (d : Driver σ)
    (SectAddr BlockAddr : Nat) :
    (SectAddr < SECTOR_COUNT →
      SectAddr * MEM_SECTOR_SIZE < U32_MOD ∧ SectAddr * MEM_SECTOR_SIZE * 1024 < U32_MOD ∧
      sectorRawAddr SectAddr = SectAddr * 4096 ∧
      sectorRawAddr SectAddr % 4096 = 0 ∧ sectorRawAddr SectAddr + 4096 ≤ 33554432 ∧
      ∃ new : List Event, (W25Q_EraseSector T fuel d SectAddr).2.trace = d.trace ++ new ∧
        ∀ (c : QSPI_CommandTypeDef) (st : HAL_StatusTypeDef), Event.command c st ∈ new →
          isProgramOrErase c.Instruction →
          c = eraseSectorCom (SectAddr * 4096) ∧ c.Address = SectAddr * 4096) ∧
    (BlockAddr < BLOCK_COUNT →
      BlockAddr * MEM_SECTOR_SIZE < U32_MOD ∧ BlockAddr * MEM_SECTOR_SIZE * 1024 < U32_MOD ∧
      BlockAddr * MEM_SECTOR_SIZE * 1024 * 16 < U32_MOD ∧
      blockRawAddr BlockAddr 64 = BlockAddr * 65536 ∧
      blockRawAddr BlockAddr 64 % 65536 = 0 ∧ blockRawAddr BlockAddr 64 + 65536 ≤ 33554432 ∧
      ∃ new : List Event, (W25Q_EraseBlock T fuel d BlockAddr 64).2.trace = d.trace ++ new ∧
        ∀ (c : QSPI_CommandTypeDef) (st : HAL_StatusTypeDef), Event.command c st ∈ new →
          isProgramOrErase c.Instruction →
          c = eraseBlockCom 64 (BlockAddr * 65536) ∧ c.Address = BlockAddr * 65536) ∧
    (BlockAddr < BLOCK_COUNT * 2 →
      BlockAddr * MEM_SECTOR_SIZE < U32_MOD ∧ BlockAddr * MEM_SECTOR_SIZE * 1024 < U32_MOD ∧
      BlockAddr * MEM_SECTOR_SIZE * 1024 * 16 < U32_MOD ∧
      blockRawAddr BlockAddr 32 = BlockAddr * 32768 ∧
      blockRawAddr BlockAddr 32 % 32768 = 0 ∧ blockRawAddr BlockAddr 32 + 32768 ≤ 33554432 ∧
      ∃ new : List Event, (W25Q_EraseBlock T fuel d BlockAddr 32).2.trace = d.trace ++ new ∧
        ∀ (c : QSPI_CommandTypeDef) (st : HAL_StatusTypeDef), Event.command c st ∈ new →
          isProgramOrErase c.Instruction →
          c = eraseBlockCom 32 (BlockAddr * 32768) ∧ c.Address = BlockAddr * 32768) := by
  refine ⟨?_, ?_, ?_⟩
  · intro h
    have ha := sectorRawAddr_eq SectAddr h
    have hb : SectAddr < 8192 := h
    refine ⟨?_, ?_, ha, ?_, ?_, ?_⟩
    · simp only [MEM_SECTOR_SIZE, U32_MOD]; omega
    · simp only [MEM_SECTOR_SIZE, U32_MOD]; omega
    · rw [ha]; omega
    · rw [ha]; omega
    · rw [eraseSector_eq_writeSequence T fuel d SectAddr (by omega), ha]
      obtain ⟨new, htr, hnew⟩ := writeSequence_commands T fuel d
        (eraseSectorCom (SectAddr * 4096)) none
      refine ⟨new, htr, fun c st hm hc => ?_⟩
      have := hnew c st hm hc
      exact ⟨this, by rw [this]; rfl⟩
  · intro h
    have hb : BlockAddr < 512 := h
    have hp := blockProduct_eq BlockAddr (by omega)
    have ha : blockRawAddr BlockAddr 64 = BlockAddr * 65536 := by
      unfold blockRawAddr
      rw [if_neg (by decide), hp]
    refine ⟨?_, ?_, ?_, ha, ?_, ?_, ?_⟩
    · simp only [MEM_SECTOR_SIZE, U32_MOD]; omega
    · simp only [MEM_SECTOR_SIZE, U32_MOD]; omega
    · simp only [MEM_SECTOR_SIZE, U32_MOD]; omega
    · rw [ha]; omega
    · rw [ha]; omega
    · rw [eraseBlock_eq_writeSequence T fuel d BlockAddr 64 (by decide) (by omega), ha]
      obtain ⟨new, htr, hnew⟩ := writeSequence_commands T fuel d
        (eraseBlockCom 64 (BlockAddr * 65536)) none
      refine ⟨new, htr, fun c st hm hc => ?_⟩
      have := hnew c st hm hc
      exact ⟨this, by rw [this]; rfl⟩
  · intro h
    have hb : BlockAddr < 1024 := h
    have hp := blockProduct_eq BlockAddr h
    have ha : blockRawAddr BlockAddr 32 = BlockAddr * 32768 := by
      unfold blockRawAddr
      rw [if_pos rfl, hp]
      omega
    refine ⟨?_, ?_, ?_, ha, ?_, ?_, ?_⟩
    · simp only [MEM_SECTOR_SIZE, U32_MOD]; omega
    · simp only [MEM_SECTOR_SIZE, U32_MOD]; omega
    · simp only [MEM_SECTOR_SIZE, U32_MOD]; omega
    · rw [ha]; omega
    · rw [ha]; omega
    · rw [eraseBlock_eq_writeSequence T fuel d BlockAddr 32 (by decide) (by omega), ha]
      obtain ⟨new, htr, hnew⟩ := writeSequence_commands T fuel d
        (eraseBlockCom 32 (BlockAddr * 32768)) none
      refine ⟨new, htr, fun c st hm hc => ?_⟩
      have := hnew c st hm hc
      exact ⟨this, by rw [this]; rfl⟩

lemma busyWait_not_busy {σ : Type} (T : Transport σ) (fuel : Nat) (d : Driver σ)
    (h : (W25Q_IsBusy T d).1 ≠ W25Q_STATE.W25Q_BUSY) :
    busyWait T (fuel + 1) d = (true, (W25Q_IsBusy T d).2) := by
  unfold busyWait
  dsimp only
  rw [if_neg h]

/-- C10: with `MEM_FLASH_SIZE = 256`, for every `BlockAddr < BLOCK_COUNT`, when the
first busy poll does not answer busy and the HAL accepts the write enable,
`W25Q_EraseBlock(BlockAddr, 64)` issues, directly after the write enable, the command
`eraseBlockCom 64 (BlockAddr * 65536)`: opcode `0xDC` (`W25Q_64KB_BLOCK_ERASE_4B`),
address size `QSPI_ADDRESS_32_BITS`, address `BlockAddr * 65536` (0 for block 0), no
dummy cycles, data mode `QSPI_DATA_NONE` and zero data bytes; whatever follows it holds
no further program or erase command. -/
theorem eraseBlock_64_issues_extended_erase {σ : Type} (T : Transport σ) (fuel : Nat)
    (d : Driver σ) (BlockAddr : Nat) (hfuel : 0 < fuel) (hb : BlockAddr < BLOCK_COUNT)
    (hidle : (W25Q_IsBusy T d).1 ≠ W25Q_STATE.W25Q_BUSY)
    (hwe : (halCommand T (W25Q_IsBusy T d).2 (writeEnableCom true)).1
      = HAL_StatusTypeDef.HAL_OK) :
    MEM_FLASH_SIZE = 256 ∧
    (∃ (st : HAL_StatusTypeDef) (rest : List Event),
      (W25Q_EraseBlock T fuel d BlockAddr 64).2.trace =
        (W25Q_IsBusy T d).2.trace ++
          (Event.command (writeEnableCom true) HAL_StatusTypeDef.HAL_OK ::
            Event.command (eraseBlockCom 64 (BlockAddr * 65536)) st :: rest) ∧
      ∀ (c : QSPI_CommandTypeDef) (s : HAL_StatusTypeDef), Event.command c s ∈ rest →
        ¬ isProgramOrErase c.Instruction) ∧
    (eraseBlockCom 64 (BlockAddr * 65536)).Instruction = 0xDC ∧
    (eraseBlockCom 64 (BlockAddr * 65536)).AddressSize = HalConst.QSPI_ADDRESS_32_BITS ∧
    (eraseBlockCom 64 (BlockAddr * 65536)).AddressMode = HalConst.QSPI_ADDRESS_1_LINE ∧
    (eraseBlockCom 64 (BlockAddr * 65536)).Address = BlockAddr * 65536 ∧
    (eraseBlockCom 64 (0 * 65536)).Address = 0 ∧
    (eraseBlockCom 64 (BlockAddr * 65536)).DummyCycles = 0 ∧
    (eraseBlockCom 64 (BlockAddr * 65536)).DataMode = HalConst.QSPI_DATA_NONE ∧
    (eraseBlockCom 64 (BlockAddr * 65536)).NbData = 0 := by
  refine ⟨rfl, ?_, rfl, rfl, rfl, rfl, rfl, rfl, rfl, rfl⟩
  obtain ⟨n, rfl⟩ : ∃ n, fuel = n + 1 := ⟨fuel - 1, by omega⟩
  have hb2 : BlockAddr < 512 := hb
  have ha : blockRawAddr BlockAddr 64 = BlockAddr * 65536 := by
    unfold blockRawAddr
    rw [if_neg (by decide), blockProduct_eq BlockAddr (by omega)]
  rw [eraseBlock_eq_writeSequence T (n + 1) d BlockAddr 64 (by decide) (by omega), ha]
  unfold writeSequence
  rw [busyWait_not_busy T n d hidle]
  dsimp only
  rcases writeEnable_cases T (W25Q_IsBusy T d).2 true with ⟨hst, _⟩ | ⟨_, he⟩
  · exact absurd hwe hst
  · rw [he]
    simp only [ne_eq, not_true_eq_false, if_false, Bool.true_eq_false]
    generalize hd2 : ({ (halCommand T (W25Q_IsBusy T d).2 (writeEnableCom true)).2 with
          w25q_status :=
            { (halCommand T (W25Q_IsBusy T d).2 (writeEnableCom true)).2.w25q_status with
              WEL := true } } : Driver σ) = d2
    have ht2 : d2.trace = (W25Q_IsBusy T d).2.trace ++
        [Event.command (writeEnableCom true) HAL_StatusTypeDef.HAL_OK] := by
      rw [← hd2]
      simp [hwe]
    by_cases hc : (halCommand T d2 (eraseBlockCom 64 (BlockAddr * 65536))).1
        = HAL_StatusTypeDef.HAL_OK
    · obtain ⟨p2, hp2, hpoll2⟩ := busyWait_trace T (n + 1)
        (halCommand T d2 (eraseBlockCom 64 (BlockAddr * 65536))).2
      refine ⟨HAL_StatusTypeDef.HAL_OK, p2, ?_, ?_⟩
      · by_cases hw2 : (busyWait T (n + 1)
            (halCommand T d2 (eraseBlockCom 64 (BlockAddr * 65536))).2).1 = false <;>
          simp [hc, hw2, hp2, ht2]
      · intro c s hm
        exact (pollEvent_not_programOrErase _ (hpoll2 _ hm) c s rfl).1
    · refine ⟨(halCommand T d2 (eraseBlockCom 64 (BlockAddr * 65536))).1, [], ?_, ?_⟩
      · simp [hc, ht2]
      · intro c s hm
        simp at hm

/-- Block 0 of the in-memory flash: the run of `W25Q_EraseBlock(0, 64)` issues the
extended 64K erase command with address 0 directly after the write enable. -/
theorem eraseBlock_64_issues_extended_erase_witness :
    (0 < 1 ∧ 0 < BLOCK_COUNT ∧
      (W25Q_IsBusy flashSim (simDriver 0)).1 ≠ W25Q_STATE.W25Q_BUSY ∧
      (halCommand flashSim (W25Q_IsBusy flashSim (simDriver 0)).2 (writeEnableCom true)).1
        = HAL_StatusTypeDef.HAL_OK) ∧
    (∃ (st : HAL_StatusTypeDef) (rest : List Event),
      (W25Q_EraseBlock flashSim 1 (simDriver 0) 0 64).2.trace =
        (W25Q_IsBusy flashSim (simDriver 0)).2.trace ++
          (Event.command (writeEnableCom true) HAL_StatusTypeDef.HAL_OK ::
            Event.command (eraseBlockCom 64 (0 * 65536)) st :: rest) ∧
      ∀ (c : QSPI_CommandTypeDef) (s : HAL_StatusTypeDef), Event.command c s ∈ rest →
        ¬ isProgramOrErase c.Instruction) :=
  ⟨⟨by decide, by decide, by rw [isBusy_flashSim]; decide, rfl⟩,
    (eraseBlock_64_issues_extended_erase flashSim 1 (simDriver 0) 0 (by decide) (by decide)
      (by rw [isBusy_flashSim]; decide) rfl).2.1⟩

/-! ## Status registers: single reads -/

lemma bit_test_eq (r k : Nat) : decide ((r >>> k) &&& 1 ≠ 0) = r.testBit k := by
  rw [Nat.testBit_to_div_mod, Nat.and_one_is_mod, Nat.shiftRight_eq_div_pow]
  rcases Nat.mod_two_eq_zero_or_one (r / 2 ^ k) with h | h <;> simp [h]

lemma bit0_test_eq (r : Nat) : decide (r &&& 1 ≠ 0) = r.testBit 0 := by
  rw [Nat.testBit_zero, Nat.and_one_is_mod]
  rcases Nat.mod_two_eq_zero_or_one r with h | h <;> simp [h]

/-- The three ways a call of `W25Q_ReadStatusReg` for a valid register can go. -/
lemma readStatusReg_cases {σ : Type} (T : Transport σ) (d : Driver σ)
    (reg_data reg_num op : Nat)
    (hop : (reg_num = 1 ∧ op = W25Q_READ_SR1) ∨ (reg_num = 2 ∧ op = W25Q_READ_SR2) ∨
      (reg_num = 3 ∧ op = W25Q_READ_SR3)) :
    ((halCommand T d (readStatusRegCom op)).1 ≠ HAL_StatusTypeDef.HAL_OK ∧
      W25Q_ReadStatusReg T d reg_data reg_num
        = (W25Q_STATE.W25Q_SPI_ERR, reg_data, (halCommand T d (readStatusRegCom op)).2)) ∨
    ((halCommand T d (readStatusRegCom op)).1 = HAL_StatusTypeDef.HAL_OK ∧
      (halReceive T (halCommand T d (readStatusRegCom op)).2).1 ≠ HAL_StatusTypeDef.HAL_OK ∧
      W25Q_ReadStatusReg T d reg_data reg_num
        = (W25Q_STATE.W25Q_SPI_ERR,
          receivedByte (halReceive T (halCommand T d (readStatusRegCom op)).2).2.1 reg_data,
          (halReceive T (halCommand T d (readStatusRegCom op)).2).2.2)) ∨
    ((halCommand T d (readStatusRegCom op)).1 = HAL_StatusTypeDef.HAL_OK ∧
      (halReceive T (halCommand T d (readStatusRegCom op)).2).1 = HAL_StatusTypeDef.HAL_OK ∧
      W25Q_ReadStatusReg T d reg_data reg_num
        = (W25Q_STATE.W25Q_OK,
          receivedByte (halReceive T (halCommand T d (readStatusRegCom op)).2).2.1 reg_data,
          (halReceive T (halCommand T d (readStatusRegCom op)).2).2.2)) := by
  have hdef : W25Q_ReadStatusReg T d reg_data reg_num =
      (if (halCommand T d (readStatusRegCom op)).1 ≠ HAL_StatusTypeDef.HAL_OK then
        (W25Q_STATE.W25Q_SPI_ERR, reg_data, (halCommand T d (readStatusRegCom op)).2)
      else if (halReceive T (halCommand T d (readStatusRegCom op)).2).1
          ≠ HAL_StatusTypeDef.HAL_OK then
        (W25Q_STATE.W25Q_SPI_ERR,
          receivedByte (halReceive T (halCommand T d (readStatusRegCom op)).2).2.1 reg_data,
          (halReceive T (halCommand T d (readStatusRegCom op)).2).2.2)
      else
        (W25Q_STATE.W25Q_OK,
          receivedByte (halReceive T (halCommand T d (readStatusRegCom op)).2).2.1 reg_data,
          (halReceive T (halCommand T d (readStatusRegCom op)).2).2.2)) := by
    rcases hop with ⟨rfl, rfl⟩ | ⟨rfl, rfl⟩ | ⟨rfl, rfl⟩ <;> rfl
  by_cases hc : (halCommand T d (readStatusRegCom op)).1 = HAL_StatusTypeDef.HAL_OK
  · by_cases hr : (halReceive T (halCommand T d (readStatusRegCom op)).2).1
        = HAL_StatusTypeDef.HAL_OK
    · exact Or.inr (Or.inr ⟨hc, hr, by rw [hdef]; simp [hc, hr]⟩)
    · exact Or.inr (Or.inl ⟨hc, hr, by rw [hdef]; simp [hc, hr]⟩)
  · exact Or.inl ⟨hc, by rw [hdef]; simp [hc]⟩

lemma readStatusReg_invalid {σ : Type} (T : Transport σ) (d : Driver σ)
    (reg_data reg_num : Nat) (h : reg_num ≠ 1 ∧ reg_num ≠ 2 ∧ reg_num ≠ 3) :
    W25Q_ReadStatusReg T d reg_data reg_num = (W25Q_STATE.W25Q_PARAM_ERR, reg_data, d) := by
  unfold W25Q_ReadStatusReg
  simp [h.1, h.2.1, h.2.2]

lemma readStatusReg_status {σ : Type} (T : Transport σ) (d : Driver σ)
    (reg_data reg_num : Nat) :
    (W25Q_ReadStatusReg T d reg_data reg_num).2.2.w25q_status = d.w25q_status := by
  by_cases h : reg_num ≠ 1 ∧ reg_num ≠ 2 ∧ reg_num ≠ 3
  · rw [readStatusReg_invalid T d reg_data reg_num h]
  · have hop : ∃ op, (reg_num = 1 ∧ op = W25Q_READ_SR1) ∨ (reg_num = 2 ∧ op = W25Q_READ_SR2) ∨
        (reg_num = 3 ∧ op = W25Q_READ_SR3) := by
      by_cases h1 : reg_num = 1
      · exact ⟨_, Or.inl ⟨h1, rfl⟩⟩
      · by_cases h2 : reg_num = 2
        · exact ⟨_, Or.inr (Or.inl ⟨h2, rfl⟩)⟩
        · by_cases h3 : reg_num = 3
          · exact ⟨_, Or.inr (Or.inr ⟨h3, rfl⟩)⟩
          · exact absurd ⟨h1, h2, h3⟩ h
    obtain ⟨op, hop⟩ := hop
    rcases readStatusReg_cases T d reg_data reg_num op hop with ⟨_, h⟩ | ⟨_, _, h⟩ | ⟨_, _, h⟩ <;>
      rw [h] <;> simp

lemma receivedByte_single (b old : Nat) (hb : b < 256) : receivedByte [b] old = b := by
  simp [receivedByte, storeBytes, Nat.mod_eq_of_lt hb]

/-- C15: `W25Q_ReadStatusReg(reg_data, reg_num)`: for `reg_num` outside {1,2,3} it
returns `W25Q_PARAM_ERR` with the driver state (trace, peripheral, snapshot) and the
output byte unchanged; for `reg_num` 1, 2, 3 the command has opcode `0x05`, `0x35`,
`0x15`, no address, no dummy cycles and one data byte on one line; if the command phase
fails the call returns `W25Q_SPI_ERR` after that one command and no receive, the output
byte unchanged; if the receive fails it returns `W25Q_SPI_ERR` after one command and one
receive; otherwise it returns `W25Q_OK` after one command and one receive and the output
holds the received byte. -/
theorem readStatusReg_contract {σ : Type} (T : Transport σ) (d : Driver σ)
    (reg_data reg_num : Nat) :
    W25Q_READ_SR1 = 0x05 ∧ W25Q_READ_SR2 = 0x35 ∧ W25Q_READ_SR3 = 0x15 ∧
    ((reg_num ≠ 1 ∧ reg_num ≠ 2 ∧ reg_num ≠ 3) →
      W25Q_ReadStatusReg T d reg_data reg_num = (W25Q_STATE.W25Q_PARAM_ERR, reg_data, d)) ∧
    (∀ op : Nat,
      ((reg_num = 1 ∧ op = W25Q_READ_SR1) ∨ (reg_num = 2 ∧ op = W25Q_READ_SR2) ∨
        (reg_num = 3 ∧ op = W25Q_READ_SR3)) →
      ((readStatusRegCom op).Instruction = op ∧
        (readStatusRegCom op).AddressMode = HalConst.QSPI_ADDRESS_NONE ∧
        (readStatusRegCom op).DummyCycles = 0 ∧
        (readStatusRegCom op).DataMode = HalConst.QSPI_DATA_1_LINE ∧
        (readStatusRegCom op).NbData = 1) ∧
      ((halCommand T d (readStatusRegCom op)).1 ≠ HAL_StatusTypeDef.HAL_OK →
        (W25Q_ReadStatusReg T d reg_data reg_num).1 = W25Q_STATE.W25Q_SPI_ERR ∧
        (W25Q_ReadStatusReg T d reg_data reg_num).2.1 = reg_data ∧
        (W25Q_ReadStatusReg T d reg_data reg_num).2.2.trace = d.trace ++
          [Event.command (readStatusRegCom op) (halCommand T d (readStatusRegCom op)).1]) ∧
      ((halCommand T d (readStatusRegCom op)).1 = HAL_StatusTypeDef.HAL_OK →
        (halReceive T (halCommand T d (readStatusRegCom op)).2).1 ≠ HAL_StatusTypeDef.HAL_OK →
        (W25Q_ReadStatusReg T d reg_data reg_num).1 = W25Q_STATE.W25Q_SPI_ERR ∧
        (W25Q_ReadStatusReg T d reg_data reg_num).2.2.trace = d.trace ++
          [Event.command (readStatusRegCom op) HAL_StatusTypeDef.HAL_OK,
           Event.receive (halReceive T (halCommand T d (readStatusRegCom op)).2).2.1
            (halReceive T (halCommand T d (readStatusRegCom op)).2).1]) ∧
      ((halCommand T d (readStatusRegCom op)).1 = HAL_StatusTypeDef.HAL_OK →
        (halReceive T (halCommand T d (readStatusRegCom op)).2).1 = HAL_StatusTypeDef.HAL_OK →
        (W25Q_ReadStatusReg T d reg_data reg_num).1 = W25Q_STATE.W25Q_OK ∧
        (W25Q_ReadStatusReg T d reg_data reg_num).2.1
          = receivedByte (halReceive T (halCommand T d (readStatusRegCom op)).2).2.1 reg_data ∧
        (W25Q_ReadStatusReg T d reg_data reg_num).2.2.trace = d.trace ++
          [Event.command (readStatusRegCom op) HAL_StatusTypeDef.HAL_OK,
           Event.receive (halReceive T (halCommand T d (readStatusRegCom op)).2).2.1
            HAL_StatusTypeDef.HAL_OK])) ∧
    (∀ b : Nat, b < 256 → receivedByte [b] reg_data = b) := by
  refine ⟨rfl, rfl, rfl, readStatusReg_invalid T d reg_data reg_num, ?_,
    fun b hb => receivedByte_single b reg_data hb⟩
  intro op hop
  refine ⟨⟨rfl, rfl, rfl, rfl, rfl⟩, ?_, ?_, ?_⟩
  · intro hc
    rcases readStatusReg_cases T d reg_data reg_num op hop with
      ⟨_, h⟩ | ⟨hc2, _, _⟩ | ⟨hc2, _, _⟩
    · rw [h]
      exact ⟨rfl, rfl, by simp⟩
    · exact absurd hc2 hc
    · exact absurd hc2 hc
  · intro hc hr
    rcases readStatusReg_cases T d reg_data reg_num op hop with
      ⟨hc2, _⟩ | ⟨_, _, h⟩ | ⟨_, hr2, _⟩
    · exact absurd hc hc2
    · rw [h]
      exact ⟨rfl, by simp [hc]⟩
    · exact absurd hr2 hr
  · intro hc hr
    rcases readStatusReg_cases T d reg_data reg_num op hop with
      ⟨hc2, _⟩ | ⟨_, hr2, _⟩ | ⟨_, _, h⟩
    · exact absurd hc hc2
    · exact absurd hr hr2
    · rw [h]
      exact ⟨rfl, rfl, by simp [hc, hr]⟩

/-- Register 2 of a chip whose status register 2 holds `0x82`: one command `0x35`, one
receive, `W25Q_OK`, and the byte `0x82` in the output. -/
theorem readStatusReg_contract_witness :
    (W25Q_ReadStatusReg statusSim (statusDriver clearedStatus 3 0x82 3 none) 0 2).1
      = W25Q_STATE.W25Q_OK ∧
    (W25Q_ReadStatusReg statusSim (statusDriver clearedStatus 3 0x82 3 none) 0 2).2.1
      = receivedByte [0x82] 0 ∧
    (W25Q_ReadStatusReg statusSim (statusDriver clearedStatus 3 0x82 3 none) 0 2).2.2.trace
      = [] ++ [Event.command (readStatusRegCom W25Q_READ_SR2) HAL_StatusTypeDef.HAL_OK,
          Event.receive [0x82] HAL_StatusTypeDef.HAL_OK] :=
  ((readStatusReg_contract statusSim (statusDriver clearedStatus 3 0x82 3 none) 0 2).2.2.2.2.1
    W25Q_READ_SR2 (Or.inr (Or.inl ⟨rfl, rfl⟩))).2.2.2 rfl rfl

/-! ## The busy check -/

/-- C17: `W25Q_IsBusy` issues exactly one status-register-1 read (one command with
opcode `0x05` and, when the command is accepted, one receive).  When the read succeeds
with byte `r` it returns `W25Q_BUSY` if bit0 of `r` is 1 and `W25Q_OK` if it is 0, and
the stored snapshot is the previous one with `BUSY` set to that bit; when the command
or the receive fails it returns `W25Q_SPI_ERR` and the stored snapshot is unchanged. -/
theorem isBusy_contract {σ : Type} (T : Transport σ) (d : Driver σ) :
    ((halCommand T d (readStatusRegCom W25Q_READ_SR1)).1 ≠ HAL_StatusTypeDef.HAL_OK →
      (W25Q_IsBusy T d).1 = W25Q_STATE.W25Q_SPI_ERR ∧
      (W25Q_IsBusy T d).2.w25q_status = d.w25q_status ∧
      (W25Q_IsBusy T d).2.trace = d.trace ++
        [Event.command (readStatusRegCom W25Q_READ_SR1)
          (halCommand T d (readStatusRegCom W25Q_READ_SR1)).1]) ∧
    ((halCommand T d (readStatusRegCom W25Q_READ_SR1)).1 = HAL_StatusTypeDef.HAL_OK →
      (halReceive T (halCommand T d (readStatusRegCom W25Q_READ_SR1)).2).1
        ≠ HAL_StatusTypeDef.HAL_OK →
      (W25Q_IsBusy T d).1 = W25Q_STATE.W25Q_SPI_ERR ∧
      (W25Q_IsBusy T d).2.w25q_status = d.w25q_status ∧
      (W25Q_IsBusy T d).2.trace = d.trace ++
        [Event.command (readStatusRegCom W25Q_READ_SR1) HAL_StatusTypeDef.HAL_OK,
         Event.receive (halReceive T (halCommand T d (readStatusRegCom W25Q_READ_SR1)).2).2.1
          (halReceive T (halCommand T d (readStatusRegCom W25Q_READ_SR1)).2).1]) ∧
    ((halCommand T d (readStatusRegCom W25Q_READ_SR1)).1 = HAL_StatusTypeDef.HAL_OK →
      (halReceive T (halCommand T d (readStatusRegCom W25Q_READ_SR1)).2).1
        = HAL_StatusTypeDef.HAL_OK →
      (W25Q_IsBusy T d).1 =
        (if (receivedByte
            (halReceive T (halCommand T d (readStatusRegCom W25Q_READ_SR1)).2).2.1 0).testBit 0
          then W25Q_STATE.W25Q_BUSY else W25Q_STATE.W25Q_OK) ∧
      (W25Q_IsBusy T d).2.w25q_status =
        { d.w25q_status with
          BUSY := (receivedByte
            (halReceive T (halCommand T d (readStatusRegCom W25Q_READ_SR1)).2).2.1 0).testBit 0 } ∧
      (W25Q_IsBusy T d).2.trace = d.trace ++
        [Event.command (readStatusRegCom W25Q_READ_SR1) HAL_StatusTypeDef.HAL_OK,
         Event.receive (halReceive T (halCommand T d (readStatusRegCom W25Q_READ_SR1)).2).2.1
          HAL_StatusTypeDef.HAL_OK]) ∧
    (readStatusRegCom W25Q_READ_SR1).Instruction = 0x05 := by
  have hcases := readStatusReg_cases T d 0 1 W25Q_READ_SR1 (Or.inl ⟨rfl, rfl⟩)
  refine ⟨?_, ?_, ?_, rfl⟩
  · intro hc
    rcases hcases with ⟨_, h⟩ | ⟨hc2, _, _⟩ | ⟨hc2, _, _⟩
    · unfold W25Q_IsBusy
      rw [h]
      exact ⟨rfl, rfl, by simp⟩
    · exact absurd hc2 hc
    · exact absurd hc2 hc
  · intro hc hr
    rcases hcases with ⟨hc2, _⟩ | ⟨_, _, h⟩ | ⟨_, hr2, _⟩
    · exact absurd hc hc2
    · unfold W25Q_IsBusy
      rw [h]
      exact ⟨rfl, rfl, by simp [hc]⟩
    · exact absurd hr2 hr
  · intro hc hr
    rcases hcases with ⟨hc2, _⟩ | ⟨_, hr2, _⟩ | ⟨_, _, h⟩
    · exact absurd hc hc2
    · exact absurd hr hr2
    · unfold W25Q_IsBusy
      rw [h]
      refine ⟨?_, ?_, ?_⟩
      · simp [bit0_test_eq, receivedByte]
      · simp [bit0_test_eq, receivedByte]
      · simp [hc, hr]

/-- A chip whose status register 1 holds `0xFF`: `W25Q_BUSY`, only the stored `BUSY`
flag changes, one command and one receive. -/
theorem isBusy_contract_witness :
    (W25Q_IsBusy statusSim (statusDriver clearedStatus 0xFF 0 0 none)).1
      = (if (receivedByte [0xFF] 0).testBit 0 then W25Q_STATE.W25Q_BUSY
          else W25Q_STATE.W25Q_OK) ∧
    (W25Q_IsBusy statusSim (statusDriver clearedStatus 0xFF 0 0 none)).2.w25q_status
      = { clearedStatus with BUSY := (receivedByte [0xFF] 0).testBit 0 } ∧
    (W25Q_IsBusy statusSim (statusDriver clearedStatus 0xFF 0 0 none)).2.trace
      = [] ++ [Event.command (readStatusRegCom W25Q_READ_SR1) HAL_StatusTypeDef.HAL_OK,
          Event.receive [0xFF] HAL_StatusTypeDef.HAL_OK] :=
  (isBusy_contract statusSim (statusDriver clearedStatus 0xFF 0 0 none)).2.2.1 rfl rfl

/-! ## Status registers as a structure -/

/-- A successful `W25Q_ReadStatusReg` for a valid register: one accepted command, one
successful receive of some bytes `x`, the output byte taken from `x`, snapshot
untouched. -/
lemma readStatusReg_ok {σ : Type} (T : Transport σ) (d : Driver σ) (reg_data reg_num op : Nat)
    (hop : (reg_num = 1 ∧ op = W25Q_READ_SR1) ∨ (reg_num = 2 ∧ op = W25Q_READ_SR2) ∨
      (reg_num = 3 ∧ op = W25Q_READ_SR3))
    (h : (W25Q_ReadStatusReg T d reg_data reg_num).1 = W25Q_STATE.W25Q_OK) :
    ∃ x : List Nat,
      (W25Q_ReadStatusReg T d reg_data reg_num).2.1 = receivedByte x reg_data ∧
      (W25Q_ReadStatusReg T d reg_data reg_num).2.2.trace = d.trace ++
        [Event.command (readStatusRegCom op) HAL_StatusTypeDef.HAL_OK,
         Event.receive x HAL_StatusTypeDef.HAL_OK] := by
  rcases readStatusReg_cases T d reg_data reg_num op hop with
    ⟨_, e⟩ | ⟨_, _, e⟩ | ⟨hc, hr, e⟩
  · rw [e] at h
    cases h
  · rw [e] at h
    cases h
  · refine ⟨(halReceive T (halCommand T d (readStatusRegCom op)).2).2.1, ?_, ?_⟩
    · rw [e]
    · rw [e]
      simp [hc, hr]

/-- A failing `W25Q_ReadStatusReg` for a valid register returns `W25Q_SPI_ERR`, and the
only command it issued is the read command of that register. -/
lemma readStatusReg_fail {σ : Type} (T : Transport σ) (d : Driver σ)
    (reg_data reg_num op : Nat)
    (hop : (reg_num = 1 ∧ op = W25Q_READ_SR1) ∨ (reg_num = 2 ∧ op = W25Q_READ_SR2) ∨
      (reg_num = 3 ∧ op = W25Q_READ_SR3))
    (h : (W25Q_ReadStatusReg T d reg_data reg_num).1 ≠ W25Q_STATE.W25Q_OK) :
    (W25Q_ReadStatusReg T d reg_data reg_num).1 = W25Q_STATE.W25Q_SPI_ERR ∧
    ∃ l : List Event, (W25Q_ReadStatusReg T d reg_data reg_num).2.2.trace = d.trace ++ l ∧
      ∀ (c : QSPI_CommandTypeDef) (st : HAL_StatusTypeDef), Event.command c st ∈ l →
        c = readStatusRegCom op := by
  rcases readStatusReg_cases T d reg_data reg_num op hop with
    ⟨_, e⟩ | ⟨hc, _, e⟩ | ⟨_, _, e⟩
  · rw [e]
    refine ⟨rfl, [Event.command (readStatusRegCom op)
      (halCommand T d (readStatusRegCom op)).1], by simp, ?_⟩
    intro c st hm
    simp only [List.mem_singleton, Event.command.injEq] at hm
    exact hm.1
  · rw [e]
    refine ⟨rfl, [Event.command (readStatusRegCom op) HAL_StatusTypeDef.HAL_OK,
      Event.receive (halReceive T (halCommand T d (readStatusRegCom op)).2).2.1
        (halReceive T (halCommand T d (readStatusRegCom op)).2).1], by simp [hc], ?_⟩
    intro c st hm
    simp only [List.mem_cons, Event.command.injEq, List.mem_singleton, List.not_mem_nil,
      or_false, reduceCtorEq] at hm
    exact hm.1
  · rw [e] at h
    exact absurd rfl h

lemma readStatusStruct_ok_eq {σ : Type} (T : Transport σ) (d : Driver σ)
    (status : Option W25Q_STATUS_REG)
    (h1 : (W25Q_ReadStatusReg T d 0 1).1 = W25Q_STATE.W25Q_OK)
    (h2 : (W25Q_ReadStatusReg T (W25Q_ReadStatusReg T d 0 1).2.2 0 2).1 = W25Q_STATE.W25Q_OK)
    (h3 : (W25Q_ReadStatusReg T
      (W25Q_ReadStatusReg T (W25Q_ReadStatusReg T d 0 1).2.2 0 2).2.2 0 3).1
        = W25Q_STATE.W25Q_OK) :
    W25Q_ReadStatusStruct T d status =
      match status with
      | none => (W25Q_STATE.W25Q_OK, none,
          (W25Q_ReadStatusReg T
            (W25Q_ReadStatusReg T (W25Q_ReadStatusReg T d 0 1).2.2 0 2).2.2 0 3).2.2)
      | some _ =>
        (W25Q_STATE.W25Q_OK,
          some (decodeStatus (W25Q_ReadStatusReg T d 0 1).2.1
            (W25Q_ReadStatusReg T (W25Q_ReadStatusReg T d 0 1).2.2 0 2).2.1
            (W25Q_ReadStatusReg T
              (W25Q_ReadStatusReg T (W25Q_ReadStatusReg T d 0 1).2.2 0 2).2.2 0 3).2.1
            d.w25q_status.SLEEP),
          { (W25Q_ReadStatusReg T
              (W25Q_ReadStatusReg T (W25Q_ReadStatusReg T d 0 1).2.2 0 2).2.2 0 3).2.2 with
            w25q_status := decodeStatus (W25Q_ReadStatusReg T d 0 1).2.1
              (W25Q_ReadStatusReg T (W25Q_ReadStatusReg T d 0 1).2.2 0 2).2.1
              (W25Q_ReadStatusReg T
                (W25Q_ReadStatusReg T (W25Q_ReadStatusReg T d 0 1).2.2 0 2).2.2 0 3).2.1
              d.w25q_status.SLEEP }) := by
  unfold W25Q_ReadStatusStruct
  simp only [h1, h2, h3, ne_eq, not_true_eq_false, if_false]
  cases status with
  | none => rfl
  | some s0 =>
    have hsh : ∀ r k : Nat, (r >>> k).testBit 0 = r.testBit k := by
      intro r k
      rw [← bit0_test_eq, bit_test_eq]
    simp only [decodeStatus, bit0_test_eq, hsh, readStatusReg_status]

/-- C12: when the three register reads of `W25Q_ReadStatusStruct` succeed and deliver
the bytes `r1`, `r2`, `r3`, a call with a non-null output issues exactly the reads of
registers 1, 2, 3 in that order (commands `0x05`, `0x35`, `0x15`, each followed by one
receive), returns `W25Q_OK`, and both the output and the stored snapshot are
`decodeStatus r1 r2 r3 sleep`: `BUSY` = bit0 of `r1`, `WEL` = bit1 of `r1`, `QE` = bit1
of `r2`, `SUS` = bit7 of `r2`, `ADS` = bit0 of `r3`, `ADP` = bit1 of `r3`, and `SLEEP`
the value `sleep` that the stored snapshot held before the call; bytes that agree in
those six bits give the same result. -/
theorem readStatusStruct_decodes {σ : Type} (T : Transport σ) (d : Driver σ)
    (s0 : W25Q_STATUS_REG)
    (h1 : (W25Q_ReadStatusReg T d 0 1).1 = W25Q_STATE.W25Q_OK)
    (h2 : (W25Q_ReadStatusReg T (W25Q_ReadStatusReg T d 0 1).2.2 0 2).1 = W25Q_STATE.W25Q_OK)
    (h3 : (W25Q_ReadStatusReg T
      (W25Q_ReadStatusReg T (W25Q_ReadStatusReg T d 0 1).2.2 0 2).2.2 0 3).1
        = W25Q_STATE.W25Q_OK) :
    (∃ x1 x2 x3 : List Nat,
      (W25Q_ReadStatusStruct T d (some s0)).1 = W25Q_STATE.W25Q_OK ∧
      (W25Q_ReadStatusStruct T d (some s0)).2.1 =
        some (decodeStatus (receivedByte x1 0) (receivedByte x2 0) (receivedByte x3 0)
          d.w25q_status.SLEEP) ∧
      (W25Q_ReadStatusStruct T d (some s0)).2.2.w25q_status =
        decodeStatus (receivedByte x1 0) (receivedByte x2 0) (receivedByte x3 0)
          d.w25q_status.SLEEP ∧
      (W25Q_ReadStatusStruct T d (some s0)).2.2.trace = d.trace ++
        [Event.command (readStatusRegCom W25Q_READ_SR1) HAL_StatusTypeDef.HAL_OK,
         Event.receive x1 HAL_StatusTypeDef.HAL_OK,
         Event.command (readStatusRegCom W25Q_READ_SR2) HAL_StatusTypeDef.HAL_OK,
         Event.receive x2 HAL_StatusTypeDef.HAL_OK,
         Event.command (readStatusRegCom W25Q_READ_SR3) HAL_StatusTypeDef.HAL_OK,
         Event.receive x3 HAL_StatusTypeDef.HAL_OK]) ∧
    (readStatusRegCom W25Q_READ_SR1).Instruction = 0x05 ∧
    (readStatusRegCom W25Q_READ_SR2).Instruction = 0x35 ∧
    (readStatusRegCom W25Q_READ_SR3).Instruction = 0x15 ∧
    (∀ (a1 a2 a3 b1 b2 b3 : Nat) (sleep : Bool),
      a1.testBit 0 = b1.testBit 0 → a1.testBit 1 = b1.testBit 1 →
      a2.testBit 1 = b2.testBit 1 → a2.testBit 7 = b2.testBit 7 →
      a3.testBit 0 = b3.testBit 0 → a3.testBit 1 = b3.testBit 1 →
      decodeStatus a1 a2 a3 sleep = decodeStatus b1 b2 b3 sleep) := by
  refine ⟨?_, rfl, rfl, rfl, ?_⟩
  · obtain ⟨x1, e1, t1⟩ := readStatusReg_ok T d 0 1 W25Q_READ_SR1 (Or.inl ⟨rfl, rfl⟩) h1
    obtain ⟨x2, e2, t2⟩ := readStatusReg_ok T (W25Q_ReadStatusReg T d 0 1).2.2 0 2
      W25Q_READ_SR2 (Or.inr (Or.inl ⟨rfl, rfl⟩)) h2
    obtain ⟨x3, e3, t3⟩ := readStatusReg_ok T
      (W25Q_ReadStatusReg T (W25Q_ReadStatusReg T d 0 1).2.2 0 2).2.2 0 3
      W25Q_READ_SR3 (Or.inr (Or.inr ⟨rfl, rfl⟩)) h3
    refine ⟨x1, x2, x3, ?_⟩
    rw [readStatusStruct_ok_eq T d (some s0) h1 h2 h3]
    dsimp only
    rw [e1, e2, e3, t3, t2, t1]
    refine ⟨rfl, rfl, rfl, ?_⟩
    simp
  · intro a1 a2 a3 b1 b2 b3 sleep e1 e2 e3 e4 e5 e6
    simp only [decodeStatus, e1, e2, e3, e4, e5, e6]

/-- A chip with the register bytes `0x03`, `0x82`, `0x03` and a sleeping driver: all six
hardware flags come out set and `SLEEP` stays as stored. -/
theorem readStatusStruct_decodes_witness :
    (W25Q_ReadStatusStruct statusSim
        (statusDriver { clearedStatus with SLEEP := true } 0x03 0x82 0x03 none)
        (some clearedStatus)).2.1 =
      some { BUSY := true, WEL := true, QE := true, SUS := true, ADS := true, ADP := true,
             SLEEP := true } ∧
    ∃ x1 x2 x3 : List Nat,
      (W25Q_ReadStatusStruct statusSim
        (statusDriver { clearedStatus with SLEEP := true } 0x03 0x82 0x03 none)
        (some clearedStatus)).1 = W25Q_STATE.W25Q_OK ∧
      (W25Q_ReadStatusStruct statusSim
        (statusDriver { clearedStatus with SLEEP := true } 0x03 0x82 0x03 none)
        (some clearedStatus)).2.1 =
        some (decodeStatus (receivedByte x1 0) (receivedByte x2 0) (receivedByte x3 0)
          (statusDriver { clearedStatus with SLEEP := true } 0x03 0x82 0x03
            none).w25q_status.SLEEP) ∧
      (W25Q_ReadStatusStruct statusSim
        (statusDriver { clearedStatus with SLEEP := true } 0x03 0x82 0x03 none)
        (some clearedStatus)).2.2.w25q_status =
        decodeStatus (receivedByte x1 0) (receivedByte x2 0) (receivedByte x3 0)
          (statusDriver { clearedStatus with SLEEP := true } 0x03 0x82 0x03
            none).w25q_status.SLEEP ∧
      (W25Q_ReadStatusStruct statusSim
        (statusDriver { clearedStatus with SLEEP := true } 0x03 0x82 0x03 none)
        (some clearedStatus)).2.2.trace =
        (statusDriver { clearedStatus with SLEEP := true } 0x03 0x82 0x03 none).trace ++
        [Event.command (readStatusRegCom W25Q_READ_SR1) HAL_StatusTypeDef.HAL_OK,
         Event.receive x1 HAL_StatusTypeDef.HAL_OK,
         Event.command (readStatusRegCom W25Q_READ_SR2) HAL_StatusTypeDef.HAL_OK,
         Event.receive x2 HAL_StatusTypeDef.HAL_OK,
         Event.command (readStatusRegCom W25Q_READ_SR3) HAL_StatusTypeDef.HAL_OK,
         Event.receive x3 HAL_StatusTypeDef.HAL_OK] :=
  ⟨rfl, (readStatusStruct_decodes statusSim
    (statusDriver { clearedStatus with SLEEP := true } 0x03 0x82 0x03 none) clearedStatus
    rfl rfl rfl).1⟩

/-- C13 (the code at the failing input): a call of `W25Q_ReadStatusStruct` with a null
output never changes the stored snapshot, whatever the transport returns; on a chip
whose registers hold `0x03`, `0x82`, `0x03` the call made by `W25Q_Init`,
`W25Q_ProgResume`, `W25Q_SwReset` and `W25Q_Enter4ByteMode` returns `W25Q_OK` and the
snapshot still has every flag cleared, while the decoding of the bytes read has all six
hardware flags set. -/
theorem readStatusStruct_null_keeps_snapshot {σ : Type} (T : Transport σ) (d : Driver σ) :
    (W25Q_ReadStatusStruct T d none).2.2.w25q_status = d.w25q_status ∧
    (W25Q_ReadStatusStruct statusSim (statusDriver clearedStatus 0x03 0x82 0x03 none) none).1
      = W25Q_STATE.W25Q_OK ∧
    (W25Q_ReadStatusStruct statusSim (statusDriver clearedStatus 0x03 0x82 0x03 none)
      none).2.2.w25q_status = clearedStatus ∧
    decodeStatus 0x03 0x82 0x03 false =
      { BUSY := true, WEL := true, QE := true, SUS := true, ADS := true, ADP := true,
        SLEEP := false } ∧
    (W25Q_ReadStatusStruct statusSim (statusDriver clearedStatus 0x03 0x82 0x03 none)
      none).2.2.w25q_status ≠ decodeStatus 0x03 0x82 0x03 false := by
  refine ⟨?_, rfl, rfl, by decide, by decide⟩
  unfold W25Q_ReadStatusStruct
  dsimp only
  split_ifs <;> simp only [readStatusReg_status]

/-- C14: if the first, second or third register read inside `W25Q_ReadStatusStruct`
fails, the call returns `W25Q_SPI_ERR`, the driver is left in the state right after the
failing read (the register-read commands issued are those of the registers up to the
failing one and none after it), and both the stored snapshot and the caller's output
structure are exactly as before the call. -/
theorem readStatusStruct_failure {σ : Type} (T : Transport σ) (d : Driver σ)
    (status : Option W25Q_STATUS_REG) :
    ((W25Q_ReadStatusReg T d 0 1).1 ≠ W25Q_STATE.W25Q_OK →
      W25Q_ReadStatusStruct T d status
        = (W25Q_STATE.W25Q_SPI_ERR, status, (W25Q_ReadStatusReg T d 0 1).2.2) ∧
      (W25Q_ReadStatusStruct T d status).2.2.w25q_status = d.w25q_status ∧
      ∃ new : List Event, (W25Q_ReadStatusStruct T d status).2.2.trace = d.trace ++ new ∧
        ∀ (c : QSPI_CommandTypeDef) (st : HAL_StatusTypeDef), Event.command c st ∈ new →
          c = readStatusRegCom W25Q_READ_SR1) ∧
    ((W25Q_ReadStatusReg T d 0 1).1 = W25Q_STATE.W25Q_OK →
      (W25Q_ReadStatusReg T (W25Q_ReadStatusReg T d 0 1).2.2 0 2).1 ≠ W25Q_STATE.W25Q_OK →
      W25Q_ReadStatusStruct T d status
        = (W25Q_STATE.W25Q_SPI_ERR, status,
            (W25Q_ReadStatusReg T (W25Q_ReadStatusReg T d 0 1).2.2 0 2).2.2) ∧
      (W25Q_ReadStatusStruct T d status).2.2.w25q_status = d.w25q_status ∧
      ∃ new : List Event, (W25Q_ReadStatusStruct T d status).2.2.trace = d.trace ++ new ∧
        ∀ (c : QSPI_CommandTypeDef) (st : HAL_StatusTypeDef), Event.command c st ∈ new →
          c = readStatusRegCom W25Q_READ_SR1 ∨ c = readStatusRegCom W25Q_READ_SR2) ∧
    ((W25Q_ReadStatusReg T d 0 1).1 = W25Q_STATE.W25Q_OK →
      (W25Q_ReadStatusReg T (W25Q_ReadStatusReg T d 0 1).2.2 0 2).1 = W25Q_STATE.W25Q_OK →
      (W25Q_ReadStatusReg T
        (W25Q_ReadStatusReg T (W25Q_ReadStatusReg T d 0 1).2.2 0 2).2.2 0 3).1
          ≠ W25Q_STATE.W25Q_OK →
      W25Q_ReadStatusStruct T d status
        = (W25Q_STATE.W25Q_SPI_ERR, status,
            (W25Q_ReadStatusReg T
              (W25Q_ReadStatusReg T (W25Q_ReadStatusReg T d 0 1).2.2 0 2).2.2 0 3).2.2) ∧
      (W25Q_ReadStatusStruct T d status).2.2.w25q_status = d.w25q_status) := by
  refine ⟨?_, ?_, ?_⟩
  · intro h1
    obtain ⟨hs, l, hl, hcom⟩ := readStatusReg_fail T d 0 1 W25Q_READ_SR1 (Or.inl ⟨rfl, rfl⟩) h1
    have heq : W25Q_ReadStatusStruct T d status
        = (W25Q_STATE.W25Q_SPI_ERR, status, (W25Q_ReadStatusReg T d 0 1).2.2) := by
      unfold W25Q_ReadStatusStruct
      dsimp only
      rw [if_pos h1, hs]
    rw [heq]
    exact ⟨rfl, readStatusReg_status T d 0 1, l, hl, hcom⟩
  · intro h1 h2
    obtain ⟨x1, _, t1⟩ := readStatusReg_ok T d 0 1 W25Q_READ_SR1 (Or.inl ⟨rfl, rfl⟩) h1
    obtain ⟨hs, l, hl, hcom⟩ := readStatusReg_fail T (W25Q_ReadStatusReg T d 0 1).2.2 0 2
      W25Q_READ_SR2 (Or.inr (Or.inl ⟨rfl, rfl⟩)) h2
    have heq : W25Q_ReadStatusStruct T d status
        = (W25Q_STATE.W25Q_SPI_ERR, status,
            (W25Q_ReadStatusReg T (W25Q_ReadStatusReg T d 0 1).2.2 0 2).2.2) := by
      unfold W25Q_ReadStatusStruct
      dsimp only
      rw [if_neg (not_not.mpr h1), if_pos h2, hs]
    rw [heq]
    refine ⟨rfl, ?_, ?_⟩
    · dsimp only
      rw [readStatusReg_status, readStatusReg_status]
    · refine ⟨[Event.command (readStatusRegCom W25Q_READ_SR1) HAL_StatusTypeDef.HAL_OK,
        Event.receive x1 HAL_StatusTypeDef.HAL_OK] ++ l, ?_, ?_⟩
      · dsimp only
        rw [hl, t1, List.append_assoc]
      · intro c st hm
        rcases List.mem_append.mp hm with h | h
        · simp only [List.mem_cons, Event.command.injEq, List.mem_singleton,
            List.not_mem_nil, or_false, reduceCtorEq] at h
          exact Or.inl h.1
        · exact Or.inr (hcom c st h)
  · intro h1 h2 h3
    obtain ⟨hs, _⟩ := readStatusReg_fail T
      (W25Q_ReadStatusReg T (W25Q_ReadStatusReg T d 0 1).2.2 0 2).2.2 0 3
      W25Q_READ_SR3 (Or.inr (Or.inr ⟨rfl, rfl⟩)) h3
    have heq : W25Q_ReadStatusStruct T d status
        = (W25Q_STATE.W25Q_SPI_ERR, status,
            (W25Q_ReadStatusReg T
              (W25Q_ReadStatusReg T (W25Q_ReadStatusReg T d 0 1).2.2 0 2).2.2 0 3).2.2) := by
      unfold W25Q_ReadStatusStruct
      dsimp only
      rw [if_neg (not_not.mpr h1), if_neg (not_not.mpr h2), if_pos h3, hs]
    rw [heq]
    refine ⟨rfl, ?_⟩
    dsimp only
    rw [readStatusReg_status, readStatusReg_status, readStatusReg_status]

/-- The read of register 2 fails on the bus: `W25Q_SPI_ERR`, the output and the snapshot
as before, and the trace ends with the refused command `0x35`. -/
theorem readStatusStruct_failure_witness :
    (W25Q_ReadStatusStruct statusSim (statusDriver clearedStatus 0x03 0x82 0x03 (some 0x35))
        (some clearedStatus)
      = (W25Q_STATE.W25Q_SPI_ERR, some clearedStatus,
          (W25Q_ReadStatusReg statusSim
            (W25Q_ReadStatusReg statusSim
              (statusDriver clearedStatus 0x03 0x82 0x03 (some 0x35)) 0 1).2.2 0 2).2.2) ∧
      (W25Q_ReadStatusStruct statusSim (statusDriver clearedStatus 0x03 0x82 0x03 (some 0x35))
        (some clearedStatus)).2.2.w25q_status
        = (statusDriver clearedStatus 0x03 0x82 0x03 (some 0x35)).w25q_status) ∧
    (W25Q_ReadStatusStruct statusSim (statusDriver clearedStatus 0x03 0x82 0x03 (some 0x35))
        (some clearedStatus)).2.2.trace
      = [Event.command (readStatusRegCom W25Q_READ_SR1) HAL_StatusTypeDef.HAL_OK,
         Event.receive [0x03] HAL_StatusTypeDef.HAL_OK,
         Event.command (readStatusRegCom W25Q_READ_SR2) HAL_StatusTypeDef.HAL_ERROR] :=
  have h := (readStatusStruct_failure statusSim
    (statusDriver clearedStatus 0x03 0x82 0x03 (some 0x35)) (some clearedStatus)).2.1
    rfl (by decide)
  ⟨⟨h.1, h.2.1⟩, rfl⟩

/-! ## Address width and opcode variant -/

lemma pollEvent_no_address (c : QSPI_CommandTypeDef) (st : HAL_StatusTypeDef)
    (h : pollEvent (Event.command c st)) : c.AddressMode = HalConst.QSPI_ADDRESS_NONE := by
  simp only [pollEvent] at h
  rw [h]
  rfl

/-- Between the start and the end of the common program/erase sequence the only
address-bearing command is `com`. -/
lemma writeSequence_addressCommands {σ : Type} (T : Transport σ) (fuel : Nat) (d : Driver σ)
    (com : QSPI_CommandTypeDef) (tx : Option (List Nat)) (op : Nat)
    (hsize : com.AddressSize = HalConst.QSPI_ADDRESS_32_BITS) (hop : com.Instruction = op) :
    AddressCommandsAre d (writeSequence T fuel d com tx).2 op := by
  obtain ⟨p1, hpoll1, h | ⟨st, _, _, htr⟩ | ⟨st, rest, htr, hrest, _⟩⟩ :=
    writeSequence_shape T fuel d com tx
  · refine ⟨p1, h.2, ?_⟩
    intro c s hm hc
    exact absurd (pollEvent_no_address c s (hpoll1 _ hm)) hc
  · refine ⟨_, htr, ?_⟩
    intro c s hm hc
    rcases List.mem_append.mp hm with h | h
    · exact absurd (pollEvent_no_address c s (hpoll1 _ h)) hc
    · simp only [List.mem_singleton, Event.command.injEq] at h
      rw [h.1] at hc
      exact absurd rfl hc
  · refine ⟨_, htr, ?_⟩
    intro c s hm hc
    rcases List.mem_append.mp hm with h | h
    · exact absurd (pollEvent_no_address c s (hpoll1 _ h)) hc
    · rcases List.mem_cons.mp h with h | h
      · simp only [Event.command.injEq] at h
        rw [h.1] at hc
        exact absurd rfl hc
      · rcases List.mem_cons.mp h with h | h
        · simp only [Event.command.injEq] at h
          rw [h.1]
          exact ⟨hsize, hop⟩
        · rcases hrest _ h with h2 | ⟨b, s3, h2⟩
          · exact absurd (pollEvent_no_address c s h2) hc
          · cases h2

lemma addressCommands_of_unchanged {σ : Type} (d : Driver σ) (op : Nat) :
    AddressCommandsAre d d op := by
  refine ⟨[], by simp, ?_⟩
  intro c st hm
  simp at hm

lemma readRaw_addressCommands {σ : Type} (T : Transport σ) (fuel : Nat) (d : Driver σ)
    (buf : List Nat) (data_len rawAddr : Nat) :
    AddressCommandsAre d (W25Q_ReadRaw T fuel d buf data_len rawAddr).2.2
      W25Q_FAST_READ_QUAD_IO_4B := by
  unfold W25Q_ReadRaw
  by_cases hp : data_len > 256 ∨ data_len = 0
  · rw [if_pos hp]
    exact addressCommands_of_unchanged d _
  · rw [if_neg hp]
    dsimp only
    obtain ⟨p1, hp1, hpoll1⟩ := busyWait_trace T fuel d
    have hpollA : ∀ (c : QSPI_CommandTypeDef) (s : HAL_StatusTypeDef),
        Event.command c s ∈ p1 → c.AddressMode ≠ HalConst.QSPI_ADDRESS_NONE → False :=
      fun c s hm hc => hc (pollEvent_no_address c s (hpoll1 _ hm))
    by_cases hw : (busyWait T fuel d).1 = false
    · rw [if_pos hw]
      exact ⟨p1, hp1, fun c s hm hc => (hpollA c s hm hc).elim⟩
    · rw [if_neg hw]
      by_cases hc : (halCommand T (busyWait T fuel d).2 (readRawCom data_len rawAddr)).1
          = HAL_StatusTypeDef.HAL_OK
      · refine ⟨p1 ++ [Event.command (readRawCom data_len rawAddr) HAL_StatusTypeDef.HAL_OK,
          Event.receive
            (halReceive T (halCommand T (busyWait T fuel d).2
              (readRawCom data_len rawAddr)).2).2.1
            (halReceive T (halCommand T (busyWait T fuel d).2
              (readRawCom data_len rawAddr)).2).1], ?_, ?_⟩
        · by_cases hr : (halReceive T (halCommand T (busyWait T fuel d).2
              (readRawCom data_len rawAddr)).2).1 = HAL_StatusTypeDef.HAL_OK <;>
            simp [hc, hr, hp1]
        · intro c s hm hca
          rcases List.mem_append.mp hm with h | h
          · exact (hpollA c s h hca).elim
          · simp only [List.mem_cons, Event.command.injEq, List.mem_singleton,
              List.not_mem_nil, or_false, reduceCtorEq] at h
            rw [h.1]
            exact ⟨rfl, rfl⟩
      · refine ⟨p1 ++ [Event.command (readRawCom data_len rawAddr)
          (halCommand T (busyWait T fuel d).2 (readRawCom data_len rawAddr)).1], ?_, ?_⟩
        · simp [hc, hp1]
        · intro c s hm hca
          rcases List.mem_append.mp hm with h | h
          · exact (hpollA c s h hca).elim
          · simp only [List.mem_singleton, Event.command.injEq] at h
            rw [h.1]
            exact ⟨rfl, rfl⟩

lemma singleRead_addressCommands {σ : Type} (T : Transport σ) (d : Driver σ)
    (buf : List Nat) (len Addr : Nat) :
    AddressCommandsAre d (W25Q_SingleRead T d buf len Addr).2.2 W25Q_READ_DATA_4B := by
  unfold W25Q_SingleRead
  dsimp only
  by_cases hc : (halCommand T d (singleReadCom len Addr)).1 = HAL_StatusTypeDef.HAL_OK
  · refine ⟨[Event.command (singleReadCom len Addr) HAL_StatusTypeDef.HAL_OK,
      Event.receive (halReceive T (halCommand T d (singleReadCom len Addr)).2).2.1
        (halReceive T (halCommand T d (singleReadCom len Addr)).2).1], ?_, ?_⟩
    · by_cases hr : (halReceive T (halCommand T d (singleReadCom len Addr)).2).1
          = HAL_StatusTypeDef.HAL_OK <;>
        simp [hc, hr]
    · intro c s hm _
      simp only [List.mem_cons, Event.command.injEq, List.mem_singleton,
        List.not_mem_nil, or_false, reduceCtorEq] at hm
      rw [hm.1]
      exact ⟨rfl, rfl⟩
  · refine ⟨[Event.command (singleReadCom len Addr)
      (halCommand T d (singleReadCom len Addr)).1], ?_, ?_⟩
    · simp [hc]
    · intro c s hm _
      simp only [List.mem_singleton, Event.command.injEq] at hm
      rw [hm.1]
      exact ⟨rfl, rfl⟩

/-- C11 (counterexample): with `MEM_FLASH_SIZE = 256` the block erase of size 32 does not
use an extended opcode: `W25Q_EraseBlock(0, 32)` on the in-memory flash issues an
address-bearing command with a 32-bit address field whose opcode is
`W25Q_32KB_BLOCK_ERASE` (`0x52`), the opcode of the 24-bit configuration. -/
theorem eraseBlock_32_keeps_legacy_opcode :
    MEM_FLASH_SIZE > 128 ∧
    (W25Q_EraseBlock flashSim 1 (simDriver 0) 0 32).2.trace =
      [Event.command (readStatusRegCom W25Q_READ_SR1) HAL_StatusTypeDef.HAL_OK,
       Event.receive [0] HAL_StatusTypeDef.HAL_OK,
       Event.command (writeEnableCom true) HAL_StatusTypeDef.HAL_OK,
       Event.command (eraseBlockCom 32 0) HAL_StatusTypeDef.HAL_OK,
       Event.command (readStatusRegCom W25Q_READ_SR1) HAL_StatusTypeDef.HAL_OK,
       Event.receive [0] HAL_StatusTypeDef.HAL_OK] ∧
    (eraseBlockCom 32 0).AddressMode = HalConst.QSPI_ADDRESS_1_LINE ∧
    (eraseBlockCom 32 0).AddressSize = HalConst.QSPI_ADDRESS_32_BITS ∧
    (eraseBlockCom 32 0).Instruction = W25Q_32KB_BLOCK_ERASE ∧
    W25Q_32KB_BLOCK_ERASE = 0x52 := by
  refine ⟨by decide, ?_, rfl, rfl, rfl, rfl⟩
  rfl

/-- C11 (amended): with `MEM_FLASH_SIZE = 256`, in every run every address-bearing
command of `W25Q_ReadRaw`, `W25Q_SingleRead`, `W25Q_ProgramRaw`, `W25Q_EraseSector` and
`W25Q_EraseBlock` (sizes 64 and 32) has a 32-bit address field; for the first five the
opcode is the extended variant (`0xEC`, `0x13`, `0x34`, `0x21`, `0xDC`), different from
the 24-bit opcode of the same operation (`0xEB`, `0x03`, `0x32`, `0x20`, `0xD8`); for
the block erase of size 32 the opcode is `0x52` (`W25Q_32KB_BLOCK_ERASE`), the only
32K block-erase opcode of the header. -/
theorem address_commands_use_32_bit_addresses {σ : Type} (T : Transport σ) (fuel : Nat)
    (d : Driver σ) (buf : List Nat) (data_len rawAddr len Addr SectAddr BlockAddr : Nat) :
    MEM_FLASH_SIZE = 256 ∧
    (AddressCommandsAre d (W25Q_ReadRaw T fuel d buf data_len rawAddr).2.2
        W25Q_FAST_READ_QUAD_IO_4B ∧
      W25Q_FAST_READ_QUAD_IO_4B = 0xEC ∧ W25Q_FAST_READ_QUAD_IO_4B ≠ W25Q_FAST_READ_QUAD_IO) ∧
    (AddressCommandsAre d (W25Q_SingleRead T d buf len Addr).2.2 W25Q_READ_DATA_4B ∧
      W25Q_READ_DATA_4B = 0x13 ∧ W25Q_READ_DATA_4B ≠ W25Q_READ_DATA) ∧
    (AddressCommandsAre d (W25Q_ProgramRaw T fuel d buf data_len rawAddr).2
        W25Q_PAGE_PROGRAM_QUAD_INP_4B ∧
      W25Q_PAGE_PROGRAM_QUAD_INP_4B = 0x34 ∧
      W25Q_PAGE_PROGRAM_QUAD_INP_4B ≠ W25Q_PAGE_PROGRAM_QUAD_INP) ∧
    (AddressCommandsAre d (W25Q_EraseSector T fuel d SectAddr).2 W25Q_SECTOR_ERASE_4B ∧
      W25Q_SECTOR_ERASE_4B = 0x21 ∧ W25Q_SECTOR_ERASE_4B ≠ W25Q_SECTOR_ERASE) ∧
    (AddressCommandsAre d (W25Q_EraseBlock T fuel d BlockAddr 64).2 W25Q_64KB_BLOCK_ERASE_4B ∧
      W25Q_64KB_BLOCK_ERASE_4B = 0xDC ∧ W25Q_64KB_BLOCK_ERASE_4B ≠ W25Q_64KB_BLOCK_ERASE) ∧
    (AddressCommandsAre d (W25Q_EraseBlock T fuel d BlockAddr 32).2 W25Q_32KB_BLOCK_ERASE ∧
      W25Q_32KB_BLOCK_ERASE = 0x52) := by
  refine ⟨rfl, ⟨readRaw_addressCommands T fuel d buf data_len rawAddr, rfl, by decide⟩,
    ⟨singleRead_addressCommands T d buf len Addr, rfl, by decide⟩,
    ⟨?_, rfl, by decide⟩, ⟨?_, rfl, by decide⟩, ⟨?_, rfl, by decide⟩, ⟨?_, rfl⟩⟩
  · by_cases h : data_len > 256 ∨ data_len = 0
    · rw [programRaw_param_err_unchanged T fuel d buf data_len rawAddr h]
      exact addressCommands_of_unchanged d _
    · rw [programRaw_eq_writeSequence T fuel d buf data_len rawAddr h]
      exact writeSequence_addressCommands T fuel d _ _ _ rfl rfl
  · by_cases h : SectAddr ≥ SECTOR_COUNT
    · unfold W25Q_EraseSector
      rw [if_pos h]
      exact addressCommands_of_unchanged d _
    · rw [eraseSector_eq_writeSequence T fuel d SectAddr h]
      exact writeSequence_addressCommands T fuel d _ _ _ rfl rfl
  · by_cases h2 : (64 = 64 ∧ BlockAddr ≥ BLOCK_COUNT) ∨ (64 = 32 ∧ BlockAddr ≥ BLOCK_COUNT * 2)
    · unfold W25Q_EraseBlock
      rw [if_neg (by decide), if_pos h2]
      exact addressCommands_of_unchanged d _
    · rw [eraseBlock_eq_writeSequence T fuel d BlockAddr 64 (by decide) h2]
      exact writeSequence_addressCommands T fuel d _ _ _ rfl rfl
  · by_cases h2 : (32 = 64 ∧ BlockAddr ≥ BLOCK_COUNT) ∨ (32 = 32 ∧ BlockAddr ≥ BLOCK_COUNT * 2)
    · unfold W25Q_EraseBlock
      rw [if_neg (by decide), if_pos h2]
      exact addressCommands_of_unchanged d _
    · rw [eraseBlock_eq_writeSequence T fuel d BlockAddr 32 (by decide) h2]
      exact writeSequence_addressCommands T fuel d _ _ _ rfl rfl

/-! ## Writing a status register -/

/-- C16 (the code at the failing input): `W25Q_WriteStatusReg(0x00, 4)` on an idle chip
returns `W25Q_PARAM_ERR` only after a busy poll (command `0x05` and a receive) and the
write-enable command `0x06` have gone over the bus, and the stored `WEL` flag has
changed from false to true; when the bus refuses the write enable the same call returns
`W25Q_SPI_ERR` instead of `W25Q_PARAM_ERR`. -/
theorem writeStatusReg_checks_register_after_bus_activity :
    (W25Q_WriteStatusReg statusSim 1 (statusDriver clearedStatus 0 0 0 none) 0x00 4).1
      = some W25Q_STATE.W25Q_PARAM_ERR ∧
    (W25Q_WriteStatusReg statusSim 1 (statusDriver clearedStatus 0 0 0 none) 0x00 4).2.trace =
      [Event.command (readStatusRegCom W25Q_READ_SR1) HAL_StatusTypeDef.HAL_OK,
       Event.receive [0] HAL_StatusTypeDef.HAL_OK,
       Event.command (writeEnableCom true) HAL_StatusTypeDef.HAL_OK] ∧
    (writeEnableCom true).Instruction = 0x06 ∧
    (statusDriver clearedStatus 0 0 0 none).w25q_status.WEL = false ∧
    (W25Q_WriteStatusReg statusSim 1 (statusDriver clearedStatus 0 0 0 none) 0x00
      4).2.w25q_status.WEL = true ∧
    (W25Q_WriteStatusReg statusSim 1 (statusDriver clearedStatus 0 0 0 (some 0x06)) 0x00 4).1
      = some W25Q_STATE.W25Q_SPI_ERR := by
  refine ⟨?_, ?_, ?_, ?_, ?_, ?_⟩ <;> rfl

lemma isBusy_cases_status {σ : Type} (T : Transport σ) (d : Driver σ)
    (hc : (halCommand T d (readStatusRegCom W25Q_READ_SR1)).1 = HAL_StatusTypeDef.HAL_OK)
    (hr : (halReceive T (halCommand T d (readStatusRegCom W25Q_READ_SR1)).2).1
      = HAL_StatusTypeDef.HAL_OK) :
    (W25Q_IsBusy T d).2.w25q_status.BUSY =
      (receivedByte
        (halReceive T (halCommand T d (readStatusRegCom W25Q_READ_SR1)).2).2.1 0).testBit 0 := by
  rcases readStatusReg_cases T d 0 1 W25Q_READ_SR1 (Or.inl ⟨rfl, rfl⟩) with
    ⟨hc2, _⟩ | ⟨_, hr2, _⟩ | ⟨_, _, h⟩
  · exact absurd hc hc2
  · exact absurd hr hr2
  · unfold W25Q_IsBusy
    rw [h]
    simp [bit0_test_eq, receivedByte]

/-! ## Suspend and resume -/

/-- C18 (counterexample): `W25Q_ProgSuspend` on an idle chip returns `W25Q_CHIP_IGNORE`,
but not with zero transport commands: the status-register-1 read command and its
receive have gone over the bus. -/
theorem progSuspend_idle_reads_status :
    (W25Q_ProgSuspend statusSim (statusDriver clearedStatus 0 0 0 none)).1
      = W25Q_STATE.W25Q_CHIP_IGNORE ∧
    (W25Q_ProgSuspend statusSim (statusDriver clearedStatus 0 0 0 none)).2.trace =
      [Event.command (readStatusRegCom W25Q_READ_SR1) HAL_StatusTypeDef.HAL_OK,
       Event.receive [0] HAL_StatusTypeDef.HAL_OK] ∧
    (W25Q_ProgSuspend statusSim (statusDriver clearedStatus 0 0 0 none)).2.trace ≠ [] := by
  refine ⟨rfl, rfl, ?_⟩
  intro h
  have h2 : (W25Q_ProgSuspend statusSim (statusDriver clearedStatus 0 0 0 none)).2.trace =
      [Event.command (readStatusRegCom W25Q_READ_SR1) HAL_StatusTypeDef.HAL_OK,
       Event.receive [0] HAL_StatusTypeDef.HAL_OK] := rfl
  rw [h2] at h
  cases h

/-- C18 (amended): `W25Q_ProgSuspend` called while the chip is idle (the
status-register-1 read of `W25Q_IsBusy` succeeds and reports not busy) returns
`W25Q_CHIP_IGNORE` and issues no transport command other than that one
status-register-1 read: the HAL calls of the run are the command `0x05` and one
receive of a byte with bit0 clear, and the driver is left as `W25Q_IsBusy` left it. -/
theorem progSuspend_idle_is_ignored {σ : Type} (T : Transport σ) (d : Driver σ)
    (hidle : (W25Q_IsBusy T d).1 = W25Q_STATE.W25Q_OK) :
    W25Q_ProgSuspend T d = (W25Q_STATE.W25Q_CHIP_IGNORE, (W25Q_IsBusy T d).2) ∧
    (∃ x : List Nat,
      (W25Q_ProgSuspend T d).2.trace = d.trace ++
        [Event.command (readStatusRegCom W25Q_READ_SR1) HAL_StatusTypeDef.HAL_OK,
         Event.receive x HAL_StatusTypeDef.HAL_OK] ∧
      (receivedByte x 0).testBit 0 = false) ∧
    (readStatusRegCom W25Q_READ_SR1).Instruction = 0x05 ∧
    (readStatusRegCom W25Q_READ_SR1).Instruction ≠ W25Q_ERASEPROG_SUSPEND := by
  have heq : W25Q_ProgSuspend T d = (W25Q_STATE.W25Q_CHIP_IGNORE, (W25Q_IsBusy T d).2) := by
    unfold W25Q_ProgSuspend
    dsimp only
    rw [hidle, if_pos (by decide)]
  refine ⟨heq, ?_, rfl, by decide⟩
  rw [heq]
  dsimp only
  rcases isBusy_cases T d with ⟨_, h⟩ | ⟨_, _, h⟩ | ⟨hc, hr, busy, h⟩
  · rw [h] at hidle
    cases hidle
  · rw [h] at hidle
    cases hidle
  · have hb : busy = false := by
      cases busy with
      | false => rfl
      | true =>
        rw [h] at hidle
        cases hidle
    have hst : (W25Q_IsBusy T d).2.w25q_status.BUSY = false := by
      rw [h, hb]
    refine ⟨(halReceive T (halCommand T d (readStatusRegCom W25Q_READ_SR1)).2).2.1, ?_, ?_⟩
    · rw [h]
      simp [hc, hr]
    · have hk := ((isBusy_cases_status T d hc hr))
      rw [hk] at hst
      exact hst

/-- An idle status-register chip: the call is ignored after the one status read. -/
theorem progSuspend_idle_is_ignored_witness :
    (W25Q_IsBusy statusSim (statusDriver clearedStatus 0 0 0 none)).1 = W25Q_STATE.W25Q_OK ∧
    W25Q_ProgSuspend statusSim (statusDriver clearedStatus 0 0 0 none)
      = (W25Q_STATE.W25Q_CHIP_IGNORE,
          (W25Q_IsBusy statusSim (statusDriver clearedStatus 0 0 0 none)).2) :=
  ⟨rfl, (progSuspend_idle_is_ignored statusSim (statusDriver clearedStatus 0 0 0 none) rfl).1⟩

/-- C19 (the code at the failing input): on a chip that is busy (status register 1 =
`0x01`) and already suspended (status register 2 = `0x80`, stored `SUS` flag set),
`W25Q_ProgSuspend` issues the suspend opcode `0x75` and returns `W25Q_OK`; the function
never looks at the suspend flag. -/
theorem progSuspend_ignores_suspend_flag :
    (statusDriver { clearedStatus with SUS := true } 0x01 0x80 0 none).w25q_status.SUS = true ∧
    (decodeStatus 0x01 0x80 0 false).BUSY = true ∧
    (decodeStatus 0x01 0x80 0 false).SUS = true ∧
    (W25Q_ProgSuspend statusSim
      (statusDriver { clearedStatus with SUS := true } 0x01 0x80 0 none)).1
      = W25Q_STATE.W25Q_OK ∧
    (W25Q_ProgSuspend statusSim
      (statusDriver { clearedStatus with SUS := true } 0x01 0x80 0 none)).2.trace =
      [Event.command (readStatusRegCom W25Q_READ_SR1) HAL_StatusTypeDef.HAL_OK,
       Event.receive [0x01] HAL_StatusTypeDef.HAL_OK,
       Event.command progSuspendCom HAL_StatusTypeDef.HAL_OK] ∧
    progSuspendCom.Instruction = 0x75 := by
  refine ⟨rfl, by decide, by decide, rfl, rfl, rfl⟩

/-- C20 (the code at the failing input): `W25Q_ProgResume` decides on the stored `SUS`
flag, which its status read with a null output does not refresh.  With the stored flag
cleared and bit7 of status register 2 set (`0x80`) the three reads succeed, the call
returns `W25Q_CHIP_IGNORE` and no resume opcode is issued; with the stored flag set and
bit7 of status register 2 clear (`0x00`) the call issues the resume opcode `0x7A` and
returns `W25Q_OK`. -/
theorem progResume_uses_stale_suspend_flag :
    (decodeStatus 0 0x80 0 false).SUS = true ∧
    (W25Q_ProgResume statusSim (statusDriver clearedStatus 0 0x80 0 none)).1
      = W25Q_STATE.W25Q_CHIP_IGNORE ∧
    (W25Q_ProgResume statusSim (statusDriver clearedStatus 0 0x80 0 none)).2.trace =
      [Event.command (readStatusRegCom W25Q_READ_SR1) HAL_StatusTypeDef.HAL_OK,
       Event.receive [0] HAL_StatusTypeDef.HAL_OK,
       Event.command (readStatusRegCom W25Q_READ_SR2) HAL_StatusTypeDef.HAL_OK,
       Event.receive [0x80] HAL_StatusTypeDef.HAL_OK,
       Event.command (readStatusRegCom W25Q_READ_SR3) HAL_StatusTypeDef.HAL_OK,
       Event.receive [0] HAL_StatusTypeDef.HAL_OK] ∧
    (decodeStatus 0 0x00 0 false).SUS = false ∧
    (W25Q_ProgResume statusSim
      (statusDriver { clearedStatus with SUS := true } 0 0x00 0 none)).1
      = W25Q_STATE.W25Q_OK ∧
    (W25Q_ProgResume statusSim
      (statusDriver { clearedStatus with SUS := true } 0 0x00 0 none)).2.trace =
      [Event.command (readStatusRegCom W25Q_READ_SR1) HAL_StatusTypeDef.HAL_OK,
       Event.receive [0] HAL_StatusTypeDef.HAL_OK,
       Event.command (readStatusRegCom W25Q_READ_SR2) HAL_StatusTypeDef.HAL_OK,
       Event.receive [0x00] HAL_StatusTypeDef.HAL_OK,
       Event.command (readStatusRegCom W25Q_READ_SR3) HAL_StatusTypeDef.HAL_OK,
       Event.receive [0] HAL_StatusTypeDef.HAL_OK,
       Event.command progResumeCom HAL_StatusTypeDef.HAL_OK] ∧
    progResumeCom.Instruction = 0x7A := by
  refine ⟨by decide, rfl, rfl, by decide, rfl, rfl, rfl⟩

/-! ## Sleep and wake-up -/

/-- C24: `W25Q_Sleep` issues exactly one HAL call, the command `sleepCom` (opcode `0xB9`,
no address, no data); when the command is accepted it returns `W25Q_OK` and the stored
snapshot is the previous one with `SLEEP` set to true; when it is refused it returns
`W25Q_SPI_ERR` and the stored snapshot is unchanged.  `W25Q_WakeUP` issues exactly one
HAL call, the command `wakeUpCom` (opcode `0xAB`), returns `W25Q_OK` or `W25Q_SPI_ERR`
as the command is accepted or refused, and leaves the whole stored snapshot, `SLEEP`
included, unchanged in both cases. -/
theorem sleep_wake_contract {σ : Type} (T : Transport σ) (d : Driver σ) :
    (sleepCom.Instruction = 0xB9 ∧ sleepCom.AddressMode = HalConst.QSPI_ADDRESS_NONE ∧
      sleepCom.DataMode = HalConst.QSPI_DATA_NONE ∧ sleepCom.NbData = 0) ∧
    (W25Q_Sleep T d).2.trace = d.trace ++ [Event.command sleepCom (halCommand T d sleepCom).1] ∧
    ((halCommand T d sleepCom).1 = HAL_StatusTypeDef.HAL_OK →
      (W25Q_Sleep T d).1 = W25Q_STATE.W25Q_OK ∧
      (W25Q_Sleep T d).2.w25q_status = { d.w25q_status with SLEEP := true }) ∧
    ((halCommand T d sleepCom).1 ≠ HAL_StatusTypeDef.HAL_OK →
      (W25Q_Sleep T d).1 = W25Q_STATE.W25Q_SPI_ERR ∧
      (W25Q_Sleep T d).2.w25q_status = d.w25q_status) ∧
    wakeUpCom.Instruction = 0xAB ∧
    (W25Q_WakeUP T d).2.trace
      = d.trace ++ [Event.command wakeUpCom (halCommand T d wakeUpCom).1] ∧
    (W25Q_WakeUP T d).2.w25q_status = d.w25q_status ∧
    ((halCommand T d wakeUpCom).1 = HAL_StatusTypeDef.HAL_OK →
      (W25Q_WakeUP T d).1 = W25Q_STATE.W25Q_OK) ∧
    ((halCommand T d wakeUpCom).1 ≠ HAL_StatusTypeDef.HAL_OK →
      (W25Q_WakeUP T d).1 = W25Q_STATE.W25Q_SPI_ERR) := by
  refine ⟨⟨rfl, rfl, rfl, rfl⟩, ?_, ?_, ?_, rfl, ?_, ?_, ?_, ?_⟩
  · unfold W25Q_Sleep
    dsimp only
    split_ifs <;> simp
  · intro h
    unfold W25Q_Sleep
    simp [h]
  · intro h
    unfold W25Q_Sleep
    simp [h]
  · unfold W25Q_WakeUP
    dsimp only
    split_ifs <;> simp
  · unfold W25Q_WakeUP
    dsimp only
    split_ifs <;> simp
  · intro h
    unfold W25Q_WakeUP
    simp [h]
  · intro h
    unfold W25Q_WakeUP
    simp [h]

/-- Sleep, then wake-up, on the status-register chip: one command each, and the stored
`SLEEP` flag is still set after the wake-up. -/
theorem sleep_wake_contract_witness :
    (W25Q_Sleep statusSim (statusDriver clearedStatus 0 0 0 none)).1 = W25Q_STATE.W25Q_OK ∧
    (W25Q_Sleep statusSim (statusDriver clearedStatus 0 0 0 none)).2.w25q_status
      = { (statusDriver clearedStatus 0 0 0 none).w25q_status with SLEEP := true } ∧
    (W25Q_WakeUP statusSim
        (W25Q_Sleep statusSim (statusDriver clearedStatus 0 0 0 none)).2).2.w25q_status.SLEEP
      = true :=
  have h := (sleep_wake_contract statusSim (statusDriver clearedStatus 0 0 0 none)).2.2.1 rfl
  have h2 := (sleep_wake_contract statusSim
    (W25Q_Sleep statusSim (statusDriver clearedStatus 0 0 0 none)).2).2.2.2.2.2.2.1
  ⟨h.1, h.2, by rw [h2, h.2]⟩

/-! ## Page-relative transfers stay inside their page -/

/-- A property of `com` holds for every address-bearing command of the common
program/erase sequence. -/
lemma writeSequence_addressCommand_pred {σ : Type} (T : Transport σ) (fuel : Nat)
    (d : Driver σ) (com : QSPI_CommandTypeDef) (tx : Option (List Nat))
    (P : QSPI_CommandTypeDef → Prop) (hP : P com) :
    ∃ new : List Event, (writeSequence T fuel d com tx).2.trace = d.trace ++ new ∧
      ∀ (c : QSPI_CommandTypeDef) (st : HAL_StatusTypeDef), Event.command c st ∈ new →
        c.AddressMode ≠ HalConst.QSPI_ADDRESS_NONE → P c := by
  obtain ⟨p1, hpoll1, h | ⟨st, _, _, htr⟩ | ⟨st, rest, htr, hrest, _⟩⟩ :=
    writeSequence_shape T fuel d com tx
  · refine ⟨p1, h.2, ?_⟩
    intro c s hm hc
    exact absurd (pollEvent_no_address c s (hpoll1 _ hm)) hc
  · refine ⟨_, htr, ?_⟩
    intro c s hm hc
    rcases List.mem_append.mp hm with h | h
    · exact absurd (pollEvent_no_address c s (hpoll1 _ h)) hc
    · simp only [List.mem_singleton, Event.command.injEq] at h
      rw [h.1] at hc
      exact absurd rfl hc
  · refine ⟨_, htr, ?_⟩
    intro c s hm hc
    rcases List.mem_append.mp hm with h | h
    · exact absurd (pollEvent_no_address c s (hpoll1 _ h)) hc
    · rcases List.mem_cons.mp h with h | h
      · simp only [Event.command.injEq] at h
        rw [h.1] at hc
        exact absurd rfl hc
      · rcases List.mem_cons.mp h with h | h
        · simp only [Event.command.injEq] at h
          rw [h.1]
          exact hP
        · rcases hrest _ h with h2 | ⟨b, s3, h2⟩
          · exact absurd (pollEvent_no_address c s h2) hc
          · cases h2

/-- A property of the read command holds for every address-bearing command of
`W25Q_ReadRaw`. -/
lemma readRaw_addressCommand_pred {σ : Type} (T : Transport σ) (fuel : Nat) (d : Driver σ)
    (buf : List Nat) (data_len rawAddr : Nat)
    (P : QSPI_CommandTypeDef → Prop) (hP : P (readRawCom data_len rawAddr)) :
    ∃ new : List Event,
      (W25Q_ReadRaw T fuel d buf data_len rawAddr).2.2.trace = d.trace ++ new ∧
      ∀ (c : QSPI_CommandTypeDef) (st : HAL_StatusTypeDef), Event.command c st ∈ new →
        c.AddressMode ≠ HalConst.QSPI_ADDRESS_NONE → P c := by
  unfold W25Q_ReadRaw
  by_cases hp : data_len > 256 ∨ data_len = 0
  · rw [if_pos hp]
    exact ⟨[], by simp, fun c st hm => by simp at hm⟩
  · rw [if_neg hp]
    dsimp only
    obtain ⟨p1, hp1, hpoll1⟩ := busyWait_trace T fuel d
    have hpollA : ∀ (c : QSPI_CommandTypeDef) (s : HAL_StatusTypeDef),
        Event.command c s ∈ p1 → c.AddressMode ≠ HalConst.QSPI_ADDRESS_NONE → False :=
      fun c s hm hc => hc (pollEvent_no_address c s (hpoll1 _ hm))
    by_cases hw : (busyWait T fuel d).1 = false
    · rw [if_pos hw]
      exact ⟨p1, hp1, fun c s hm hc => (hpollA c s hm hc).elim⟩
    · rw [if_neg hw]
      by_cases hc : (halCommand T (busyWait T fuel d).2 (readRawCom data_len rawAddr)).1
          = HAL_StatusTypeDef.HAL_OK
      · refine ⟨p1 ++ [Event.command (readRawCom data_len rawAddr) HAL_StatusTypeDef.HAL_OK,
          Event.receive
            (halReceive T (halCommand T (busyWait T fuel d).2
              (readRawCom data_len rawAddr)).2).2.1
            (halReceive T (halCommand T (busyWait T fuel d).2
              (readRawCom data_len rawAddr)).2).1], ?_, ?_⟩
        · by_cases hr : (halReceive T (halCommand T (busyWait T fuel d).2
              (readRawCom data_len rawAddr)).2).1 = HAL_StatusTypeDef.HAL_OK <;>
            simp [hc, hr, hp1]
        · intro c s hm hca
          rcases List.mem_append.mp hm with h | h
          · exact (hpollA c s h hca).elim
          · simp only [List.mem_cons, Event.command.injEq, List.mem_singleton,
              List.not_mem_nil, or_false, reduceCtorEq] at h
            rw [h.1]
            exact hP
      · refine ⟨p1 ++ [Event.command (readRawCom data_len rawAddr)
          (halCommand T (busyWait T fuel d).2 (readRawCom data_len rawAddr)).1], ?_, ?_⟩
        · simp [hc, hp1]
        · intro c s hm hca
          rcases List.mem_append.mp hm with h | h
          · exact (hpollA c s h hca).elim
          · simp only [List.mem_singleton, Event.command.injEq] at h
            rw [h.1]
            exact hP

/-- The range facts for a transfer of `len` bytes at shift `pageShift` of page
`pageNum`. -/
lemma range_within_page (pageNum pageShift len : Nat) (hp : pageNum < PAGE_COUNT)
    (hl : 1 ≤ len) (hs : pageShift + len ≤ 256) :
    1 ≤ len ∧ page_to_addr pageNum pageShift / 256 = pageNum ∧
    (page_to_addr pageNum pageShift + len - 1) / 256 = pageNum ∧
    page_to_addr pageNum pageShift + len ≤ 33554432 := by
  rw [page_to_addr_eq pageNum pageShift hp (by omega)]
  have hp2 : pageNum < 131072 := hp
  refine ⟨hl, by omega, by omega, by omega⟩

lemma readRaw_within_page {σ : Type} (T : Transport σ) (fuel : Nat) (d : Driver σ)
    (buf : List Nat) (pageNum pageShift len : Nat) (hp : pageNum < PAGE_COUNT)
    (hl : 1 ≤ len) (hs : pageShift + len ≤ 256) :
    TransferWithinPage d
      (W25Q_ReadRaw T fuel d buf len (page_to_addr pageNum pageShift)).2.2 pageNum len :=
  readRaw_addressCommand_pred T fuel d buf len (page_to_addr pageNum pageShift)
    (fun c => c.NbData = len ∧ 1 ≤ len ∧ c.Address / 256 = pageNum ∧
      (c.Address + len - 1) / 256 = pageNum ∧ c.Address + len ≤ 33554432)
    ⟨rfl, range_within_page pageNum pageShift len hp hl hs⟩

lemma programRaw_within_page {σ : Type} (T : Transport σ) (fuel : Nat) (d : Driver σ)
    (buf : List Nat) (pageNum pageShift len : Nat) (hp : pageNum < PAGE_COUNT)
    (hl : 1 ≤ len) (hs : pageShift + len ≤ 256) :
    TransferWithinPage d
      (W25Q_ProgramRaw T fuel d buf len (page_to_addr pageNum pageShift)).2 pageNum len := by
  rw [programRaw_eq_writeSequence T fuel d buf len _ (by omega)]
  exact writeSequence_addressCommand_pred T fuel d _ _
    (fun c => c.NbData = len ∧ 1 ≤ len ∧ c.Address / 256 = pageNum ∧
      (c.Address + len - 1) / 256 = pageNum ∧ c.Address + len ≤ 33554432)
    ⟨rfl, range_within_page pageNum pageShift len hp hl hs⟩

/-- C26: for every call of a page-relative accessor that passes the parameter
validation (`pageNum < PAGE_COUNT` and, for a typed accessor of size `s`,
`pageShift + s <= 256`; for `W25Q_ReadData` and `W25Q_ProgramData`, `len` in `1..256`
and `pageShift + len <= 256`), every address-bearing command of the run carries the
length of the transfer in `NbData` and an address `addr` with
`addr / 256 = (addr + len - 1) / 256 = pageNum` and
`addr + len <= 33554432 = PAGE_COUNT * MEM_PAGE_SIZE`. -/
theorem page_relative_transfer_within_page {σ : Type} (T : Transport σ) (fuel : Nat)
    (d : Driver σ) (a : TypedAccessor) (v : Int) (buf : List Nat)
    (len pageShift pageNum : Nat) (hp : pageNum < PAGE_COUNT) :
    PAGE_COUNT * MEM_PAGE_SIZE = 33554432 ∧
    (pageShift + a.size ≤ 256 →
      TransferWithinPage d (a.call T fuel d v pageShift pageNum).2 pageNum a.size) ∧
    (1 ≤ len → pageShift + len ≤ 256 →
      TransferWithinPage d (W25Q_ReadData T fuel d buf len pageShift pageNum).2.2 pageNum len ∧
      TransferWithinPage d (W25Q_ProgramData T fuel d buf len pageShift pageNum).2
        pageNum len) := by
  refine ⟨by decide, ?_, ?_⟩
  · intro hs
    have hnp : ¬ pageNum ≥ PAGE_COUNT := by omega
    have hr := fun (n : Nat) (b : List Nat) (h1 : 1 ≤ n) (h2 : pageShift + n ≤ 256) =>
      readRaw_within_page T fuel d b pageNum pageShift n hp h1 h2
    have hw := fun (n : Nat) (b : List Nat) (h1 : 1 ≤ n) (h2 : pageShift + n ≤ 256) =>
      programRaw_within_page T fuel d b pageNum pageShift n hp h1 h2
    cases a <;>
      simp only [TypedAccessor.size] at hs <;>
      simp only [TypedAccessor.call, TypedAccessor.size, W25Q_ReadSByte, W25Q_ReadByte,
        W25Q_ReadSWord, W25Q_ReadWord, W25Q_ReadSLong, W25Q_ReadLong, W25Q_ProgramSByte,
        W25Q_ProgramByte, W25Q_ProgramSWord, W25Q_ProgramWord, W25Q_ProgramSLong,
        W25Q_ProgramLong] <;>
      first
        | (rw [if_neg hnp]
           first
             | exact hw _ _ (by omega) hs
             | (split_ifs <;> exact hr _ _ (by omega) hs))
        | (rw [if_neg (by omega)]
           first
             | exact hw _ _ (by omega) hs
             | (split_ifs <;> exact hr _ _ (by omega) hs))
  · intro hl hs
    have hchk : ¬ (pageNum ≥ PAGE_COUNT ∨ len = 0 ∨ len > 256 ∨
        (pageShift : Int) > 256 - (len : Int)) := by omega
    constructor
    · unfold W25Q_ReadData
      rw [if_neg hchk]
      exact readRaw_within_page T fuel d buf pageNum pageShift len hp hl hs
    · unfold W25Q_ProgramData
      rw [if_neg hchk]
      exact programRaw_within_page T fuel d buf pageNum pageShift len hp hl hs

/-- A long read at shift 252 of the last page: the four bytes end with the last byte of
the memory. -/
theorem page_relative_transfer_within_page_witness :
    131071 < PAGE_COUNT ∧ 252 + TypedAccessor.ReadLong.size ≤ 256 ∧
    TransferWithinPage (simDriver 0)
      (TypedAccessor.ReadLong.call flashSim 1 (simDriver 0) 0 252 131071).2 131071
      TypedAccessor.ReadLong.size :=
  ⟨by decide, by decide,
    (page_relative_transfer_within_page flashSim 1 (simDriver 0) TypedAccessor.ReadLong 0 []
      1 252 131071 (by decide)).2.1 (by decide)⟩

/-! ## The status-register writes of the initialisation -/

lemma receivedByte_lt (x : List Nat) (old : Nat) (h : old < 256) :
    receivedByte x old < 256 := by
  cases x with
  | nil => simpa [receivedByte, storeBytes] using h
  | cons b t =>
    simp only [receivedByte, storeBytes, List.map_cons, List.cons_append, List.headD_cons]
    exact Nat.mod_lt _ (by decide)

lemma setBit1_facts (r : Nat) (h : r < 256) :
    (r ||| 0b10) % 256 = r ||| 2 ∧ (r ||| 2).testBit 1 = true ∧
    ∀ i : Nat, i ≠ 1 → (r ||| 2).testBit i = r.testBit i := by
  refine ⟨?_, ?_, ?_⟩
  · have : r ||| 2 < 2 ^ 8 := Nat.or_lt_two_pow (by simpa using h) (by decide)
    exact Nat.mod_eq_of_lt (by simpa using this)
  · rw [Nat.testBit_or]
    have : (2 : Nat).testBit 1 = true := by decide
    simp [this]
  · intro i hi
    rw [Nat.testBit_or]
    have : (2 : Nat).testBit i = false := by
      have h2 := @Nat.testBit_two_pow_of_ne 1 i (fun h => hi h.symm)
      simpa using h2
    simp [this]

/-- The HAL calls of `W25Q_WriteStatusReg` for a valid register: busy polls, the write
enable, the write command of that register and the transmit of the byte `reg_data`. -/
lemma writeStatusReg_events {σ : Type} (T : Transport σ) (fuel : Nat) (d : Driver σ)
    (reg_data k wop : Nat)
    (hk : (k = 1 ∧ wop = W25Q_WRITE_SR1) ∨ (k = 2 ∧ wop = W25Q_WRITE_SR2) ∨
      (k = 3 ∧ wop = W25Q_WRITE_SR3)) :
    ∃ new : List Event, (W25Q_WriteStatusReg T fuel d reg_data k).2.trace = d.trace ++ new ∧
      ∀ e ∈ new, pollEvent e ∨ (∃ st, e = Event.command (writeEnableCom true) st) ∨
        (∃ st, e = Event.command (writeStatusRegCom wop) st) ∨
        (∃ st, e = Event.transmit [reg_data] st) := by
  obtain ⟨p1, hp1, hpoll1⟩ := busyWait_trace T fuel d
  have hinstr : (if k = 1 then some W25Q_WRITE_SR1 else if k = 2 then some W25Q_WRITE_SR2
      else if k = 3 then some W25Q_WRITE_SR3 else none) = some wop := by
    rcases hk with ⟨rfl, rfl⟩ | ⟨rfl, rfl⟩ | ⟨rfl, rfl⟩ <;> rfl
  unfold W25Q_WriteStatusReg
  dsimp only
  rw [hinstr]
  dsimp only
  by_cases hw : (busyWait T fuel d).1 = false
  · rw [if_pos hw]
    exact ⟨p1, hp1, fun e he => Or.inl (hpoll1 e he)⟩
  · rw [if_neg hw]
    rcases writeEnable_cases T (busyWait T fuel d).2 true with ⟨hst, he⟩ | ⟨hst, he⟩
    · rw [he]
      refine ⟨p1 ++ [Event.command (writeEnableCom true)
        (halCommand T (busyWait T fuel d).2 (writeEnableCom true)).1], by simp [hp1], ?_⟩
      intro e hm
      rcases List.mem_append.mp hm with h | h
      · exact Or.inl (hpoll1 e h)
      · exact Or.inr (Or.inl ⟨_, List.mem_singleton.mp h⟩)
    · rw [he]
      simp only [ne_eq, not_true_eq_false, if_false]
      generalize hd2 : ({ (halCommand T (busyWait T fuel d).2 (writeEnableCom true)).2 with
            w25q_status :=
              { (halCommand T (busyWait T fuel d).2 (writeEnableCom true)).2.w25q_status with
                WEL := true } } : Driver σ) = d2
      have ht2 : d2.trace
          = d.trace ++ (p1 ++ [Event.command (writeEnableCom true) HAL_StatusTypeDef.HAL_OK]) := by
        rw [← hd2]
        simp [hp1, hst]
      have hbase : ∀ e ∈ p1 ++ [Event.command (writeEnableCom true) HAL_StatusTypeDef.HAL_OK],
          pollEvent e ∨ (∃ st, e = Event.command (writeEnableCom true) st) ∨
          (∃ st, e = Event.command (writeStatusRegCom wop) st) ∨
          (∃ st, e = Event.transmit [reg_data] st) := by
        intro e hm
        rcases List.mem_append.mp hm with h | h
        · exact Or.inl (hpoll1 e h)
        · exact Or.inr (Or.inl ⟨_, List.mem_singleton.mp h⟩)
      by_cases hc : (halCommand T d2 (writeStatusRegCom wop)).1 = HAL_StatusTypeDef.HAL_OK
      · refine ⟨(p1 ++ [Event.command (writeEnableCom true) HAL_StatusTypeDef.HAL_OK]) ++
          [Event.command (writeStatusRegCom wop) HAL_StatusTypeDef.HAL_OK,
           Event.transmit [reg_data]
            (halTransmit T (halCommand T d2 (writeStatusRegCom wop)).2 [reg_data]).1], ?_, ?_⟩
        · by_cases htx : (halTransmit T (halCommand T d2 (writeStatusRegCom wop)).2
              [reg_data]).1 = HAL_StatusTypeDef.HAL_OK <;>
            simp [hc, htx, ht2]
        · intro e hm
          rcases List.mem_append.mp hm with h | h
          · exact hbase e h
          · rcases List.mem_cons.mp h with h | h
            · exact Or.inr (Or.inr (Or.inl ⟨_, h⟩))
            · exact Or.inr (Or.inr (Or.inr ⟨_, List.mem_singleton.mp h⟩))
      · refine ⟨(p1 ++ [Event.command (writeEnableCom true) HAL_StatusTypeDef.HAL_OK]) ++
          [Event.command (writeStatusRegCom wop)
            (halCommand T d2 (writeStatusRegCom wop)).1], ?_, ?_⟩
        · simp [hc, ht2]
        · intro e hm
          rcases List.mem_append.mp hm with h | h
          · exact hbase e h
          · exact Or.inr (Or.inr (Or.inl ⟨_, List.mem_singleton.mp h⟩))

lemma callsSatisfy_refl {σ : Type} (Q : Event → Prop) (d : Driver σ) : CallsSatisfy Q d d :=
  ⟨[], by simp, fun e he => by simp at he⟩

lemma callsSatisfy_trans {σ : Type} (Q : Event → Prop) (d d1 d2 : Driver σ)
    (h1 : CallsSatisfy Q d d1) (h2 : CallsSatisfy Q d1 d2) : CallsSatisfy Q d d2 := by
  obtain ⟨l1, e1, q1⟩ := h1
  obtain ⟨l2, e2, q2⟩ := h2
  refine ⟨l1 ++ l2, by rw [e2, e1, List.append_assoc], ?_⟩
  intro e he
  rcases List.mem_append.mp he with h | h
  · exact q1 e h
  · exact q2 e h

lemma pollEvent_noTransmit (e : Event) (h : pollEvent e) : noTransmit e := by
  cases e with
  | command c st => trivial
  | receive x st => trivial
  | transmit x st => simp [pollEvent] at h

lemma halCommand_calls {σ : Type} (T : Transport σ) (d : Driver σ) (c : QSPI_CommandTypeDef) :
    CallsSatisfy noTransmit d (halCommand T d c).2 :=
  ⟨[Event.command c (halCommand T d c).1], by simp, fun e he => by
    rw [List.mem_singleton.mp he]
    trivial⟩

lemma halReceive_calls {σ : Type} (T : Transport σ) (d : Driver σ) :
    CallsSatisfy noTransmit d (halReceive T d).2.2 :=
  ⟨[Event.receive (halReceive T d).2.1 (halReceive T d).1], by simp, fun e he => by
    rw [List.mem_singleton.mp he]
    trivial⟩

lemma readStatusReg_calls {σ : Type} (T : Transport σ) (d : Driver σ) (reg_data k : Nat) :
    CallsSatisfy noTransmit d (W25Q_ReadStatusReg T d reg_data k).2.2 := by
  unfold W25Q_ReadStatusReg
  dsimp only
  split
  · exact callsSatisfy_refl _ d
  · split_ifs
    · exact halCommand_calls T d _
    · exact callsSatisfy_trans _ _ _ _ (halCommand_calls T d _) (halReceive_calls T _)
    · exact callsSatisfy_trans _ _ _ _ (halCommand_calls T d _) (halReceive_calls T _)

lemma readID_calls {σ : Type} (T : Transport σ) (d : Driver σ) (buf : Nat) :
    CallsSatisfy noTransmit d (W25Q_ReadID T d buf).2.2 := by
  unfold W25Q_ReadID
  dsimp only
  split_ifs
  · exact halCommand_calls T d _
  · exact callsSatisfy_trans _ _ _ _ (halCommand_calls T d _) (halReceive_calls T _)
  · exact callsSatisfy_trans _ _ _ _ (halCommand_calls T d _) (halReceive_calls T _)

lemma readStatusStruct_calls {σ : Type} (T : Transport σ) (d : Driver σ) :
    CallsSatisfy noTransmit d (W25Q_ReadStatusStruct T d none).2.2 := by
  have h1 := readStatusReg_calls T d 0 1
  have h2 := callsSatisfy_trans _ _ _ _ h1
    (readStatusReg_calls T (W25Q_ReadStatusReg T d 0 1).2.2 0 2)
  have h3 := callsSatisfy_trans _ _ _ _ h2
    (readStatusReg_calls T
      (W25Q_ReadStatusReg T (W25Q_ReadStatusReg T d 0 1).2.2 0 2).2.2 0 3)
  unfold W25Q_ReadStatusStruct
  dsimp only
  split_ifs
  · exact h1
  · exact h2
  · exact h3
  · exact h3

lemma busyWait_calls {σ : Type} (T : Transport σ) (fuel : Nat) (d : Driver σ) :
    CallsSatisfy noTransmit d (busyWait T fuel d).2 := by
  obtain ⟨l, hl, hp⟩ := busyWait_trace T fuel d
  exact ⟨l, hl, fun e he => pollEvent_noTransmit e (hp e he)⟩

lemma enter4ByteMode_calls {σ : Type} (T : Transport σ) (fuel : Nat) (d : Driver σ)
    (enable : Bool) :
    CallsSatisfy noTransmit d (W25Q_Enter4ByteMode T fuel d enable).2 := by
  have h1 := busyWait_calls T fuel d
  have h2 := callsSatisfy_trans _ _ _ _ h1
    (halCommand_calls T (busyWait T fuel d).2 (enter4ByteModeCom enable))
  have h3 := callsSatisfy_trans _ _ _ _ h2
    (readStatusStruct_calls T
      (halCommand T (busyWait T fuel d).2 (enter4ByteModeCom enable)).2)
  unfold W25Q_Enter4ByteMode
  dsimp only
  split_ifs
  · exact h1
  · exact h2
  · exact h3

lemma setBitTrace_of_calls {σ : Type} (d d1 : Driver σ) (h : CallsSatisfy noTransmit d d1) :
    SetBitTrace d d1 := by
  obtain ⟨new, hn, hq⟩ := h
  refine ⟨[new], by simpa using hn, ?_⟩
  intro s hs
  rw [List.mem_singleton.mp hs]
  exact Or.inl hq

lemma setBitTrace_trans {σ : Type} (d d1 d2 : Driver σ)
    (h1 : SetBitTrace d d1) (h2 : SetBitTrace d1 d2) : SetBitTrace d d2 := by
  obtain ⟨l1, e1, q1⟩ := h1
  obtain ⟨l2, e2, q2⟩ := h2
  refine ⟨l1 ++ l2, by rw [e2, e1, List.flatten_append, List.append_assoc], ?_⟩
  intro s hs
  rcases List.mem_append.mp hs with h | h
  · exact q1 s h
  · exact q2 s h

lemma readStatusReg_ok_lt {σ : Type} (T : Transport σ) (d : Driver σ) (k rop : Nat)
    (hop : (k = 1 ∧ rop = W25Q_READ_SR1) ∨ (k = 2 ∧ rop = W25Q_READ_SR2) ∨
      (k = 3 ∧ rop = W25Q_READ_SR3))
    (h : (W25Q_ReadStatusReg T d 0 k).1 = W25Q_STATE.W25Q_OK) :
    (W25Q_ReadStatusReg T d 0 k).2.1 < 256 := by
  obtain ⟨x, hx, _⟩ := readStatusReg_ok T d 0 k rop hop h
  rw [hx]
  exact receivedByte_lt x 0 (by decide)

/-- The read-modify-write block of `W25Q_Init` after a successful read: its value is
the write of `r ||| 2`, and its HAL calls form a `SetBitBlock`. -/
lemma initSetBit1_ok {σ : Type} (T : Transport σ) (fuel : Nat) (d : Driver σ)
    (k rop wop : Nat)
    (hk : (k = 2 ∧ rop = W25Q_READ_SR2 ∧ wop = W25Q_WRITE_SR2) ∨
      (k = 3 ∧ rop = W25Q_READ_SR3 ∧ wop = W25Q_WRITE_SR3))
    (h : (W25Q_ReadStatusReg T d 0 k).1 = W25Q_STATE.W25Q_OK) :
    ∃ (x : List Nat) (rest : List Event),
      (W25Q_ReadStatusReg T d 0 k).2.1 = receivedByte x 0 ∧
      initSetBit1 T fuel d k
        = W25Q_WriteStatusReg T fuel (W25Q_ReadStatusReg T d 0 k).2.2
            (receivedByte x 0 ||| 2) k ∧
      (initSetBit1 T fuel d k).2.trace = d.trace ++
        ([Event.command (readStatusRegCom rop) HAL_StatusTypeDef.HAL_OK,
          Event.receive x HAL_StatusTypeDef.HAL_OK] ++ rest) ∧
      ∀ e ∈ rest, pollEvent e ∨ (∃ st, e = Event.command (writeEnableCom true) st) ∨
        (∃ st, e = Event.command (writeStatusRegCom wop) st) ∨
        (∃ st, e = Event.transmit [receivedByte x 0 ||| 2] st) := by
  have hrop : (k = 1 ∧ rop = W25Q_READ_SR1) ∨ (k = 2 ∧ rop = W25Q_READ_SR2) ∨
      (k = 3 ∧ rop = W25Q_READ_SR3) := by
    rcases hk with ⟨h1, h2, _⟩ | ⟨h1, h2, _⟩
    · exact Or.inr (Or.inl ⟨h1, h2⟩)
    · exact Or.inr (Or.inr ⟨h1, h2⟩)
  have hwop : (k = 1 ∧ wop = W25Q_WRITE_SR1) ∨ (k = 2 ∧ wop = W25Q_WRITE_SR2) ∨
      (k = 3 ∧ wop = W25Q_WRITE_SR3) := by
    rcases hk with ⟨h1, _, h3⟩ | ⟨h1, _, h3⟩
    · exact Or.inr (Or.inl ⟨h1, h3⟩)
    · exact Or.inr (Or.inr ⟨h1, h3⟩)
  obtain ⟨x, hx, htr⟩ := readStatusReg_ok T d 0 k rop hrop h
  have hlt : receivedByte x 0 < 256 := receivedByte_lt x 0 (by decide)
  obtain ⟨hmod, _, _⟩ := setBit1_facts _ hlt
  have heq : initSetBit1 T fuel d k
      = W25Q_WriteStatusReg T fuel (W25Q_ReadStatusReg T d 0 k).2.2
          (receivedByte x 0 ||| 2) k := by
    unfold initSetBit1
    dsimp only
    rw [if_neg (not_not.mpr h), hx, hmod]
  obtain ⟨rest, hn, hev⟩ := writeStatusReg_events T fuel (W25Q_ReadStatusReg T d 0 k).2.2
    (receivedByte x 0 ||| 2) k wop hwop
  refine ⟨x, rest, hx, heq, ?_, hev⟩
  rw [heq, hn, htr, List.append_assoc]

lemma initSetBit1_fail {σ : Type} (T : Transport σ) (fuel : Nat) (d : Driver σ) (k : Nat)
    (h : (W25Q_ReadStatusReg T d 0 k).1 ≠ W25Q_STATE.W25Q_OK) :
    initSetBit1 T fuel d k
      = (some (W25Q_ReadStatusReg T d 0 k).1, (W25Q_ReadStatusReg T d 0 k).2.2) := by
  unfold initSetBit1
  dsimp only
  rw [if_pos h]

lemma initSetBit1_setBitTrace {σ : Type} (T : Transport σ) (fuel : Nat) (d : Driver σ)
    (k rop wop : Nat)
    (hk : (k = 2 ∧ rop = W25Q_READ_SR2 ∧ wop = W25Q_WRITE_SR2) ∨
      (k = 3 ∧ rop = W25Q_READ_SR3 ∧ wop = W25Q_WRITE_SR3)) :
    SetBitTrace d (initSetBit1 T fuel d k).2 := by
  by_cases h : (W25Q_ReadStatusReg T d 0 k).1 = W25Q_STATE.W25Q_OK
  · obtain ⟨x, rest, _, _, htr, hev⟩ := initSetBit1_ok T fuel d k rop wop hk h
    refine ⟨[[Event.command (readStatusRegCom rop) HAL_StatusTypeDef.HAL_OK,
      Event.receive x HAL_StatusTypeDef.HAL_OK] ++ rest], by simpa using htr, ?_⟩
    intro s hs
    rw [List.mem_singleton.mp hs]
    exact Or.inr ⟨k, rop, wop, x, rest, hk, rfl, hev⟩
  · rw [initSetBit1_fail T fuel d k h]
    exact setBitTrace_of_calls _ _ (readStatusReg_calls T d 0 k)

lemma ite_setBitTrace {σ α : Type} (d : Driver σ) (P : Prop) [Decidable P]
    (x y : α × Driver σ) (hx : SetBitTrace d x.2) (hy : SetBitTrace d y.2) :
    SetBitTrace d (if P then x else y).2 := by
  by_cases h : P
  · rw [if_pos h]; exact hx
  · rw [if_neg h]; exact hy

set_option maxRecDepth 100000 in
lemma init_setBitTrace {σ : Type} (T : Transport σ) (fuel : Nat) (d : Driver σ) :
    SetBitTrace d (W25Q_Init T fuel d).2 := by
  have stepS : ∀ x : Driver σ, SetBitTrace d x →
      SetBitTrace d (W25Q_ReadStatusStruct T x none).2.2 :=
    fun x hx => setBitTrace_trans _ _ _ hx
      (setBitTrace_of_calls _ _ (readStatusStruct_calls T x))
  have stepB3 : ∀ x : Driver σ, SetBitTrace d x →
      SetBitTrace d (initSetBit1 T fuel x 3).2 :=
    fun x hx => setBitTrace_trans _ _ _ hx
      (initSetBit1_setBitTrace T fuel x 3 _ _ (Or.inr ⟨rfl, rfl, rfl⟩))
  have stepB2 : ∀ x : Driver σ, SetBitTrace d x →
      SetBitTrace d (initSetBit1 T fuel x 2).2 :=
    fun x hx => setBitTrace_trans _ _ _ hx
      (initSetBit1_setBitTrace T fuel x 2 _ _ (Or.inl ⟨rfl, rfl, rfl⟩))
  have stepE : ∀ x : Driver σ, SetBitTrace d x →
      SetBitTrace d (W25Q_Enter4ByteMode T fuel x true).2 :=
    fun x hx => setBitTrace_trans _ _ _ hx
      (setBitTrace_of_calls _ _ (enter4ByteMode_calls T fuel x true))
  have hI := setBitTrace_of_calls _ _ (readID_calls T d 0)
  unfold W25Q_Init
  repeat (first
    | with_reducible exact hI
    | with_reducible apply stepS
    | with_reducible apply stepB3
    | with_reducible apply stepB2
    | with_reducible apply stepE
    | with_reducible refine ite_setBitTrace _ _ _ _ ?_ ?_)

/-- When the first two steps of `W25Q_Init` succeed and the stored `ADP` flag is clear,
a failing read-modify-write of status register 3 ends the initialisation. -/
lemma init_adp_block_fails {σ : Type} (T : Transport σ) (fuel : Nat) (d : Driver σ)
    (h1 : (W25Q_ReadID T d 0).1 = W25Q_STATE.W25Q_OK)
    (h2 : (W25Q_ReadStatusStruct T (W25Q_ReadID T d 0).2.2 none).1 = W25Q_STATE.W25Q_OK)
    (h3 : (W25Q_ReadStatusStruct T (W25Q_ReadID T d 0).2.2 none).2.2.w25q_status.ADP = false)
    (h4 : (initSetBit1 T fuel (W25Q_ReadStatusStruct T (W25Q_ReadID T d 0).2.2 none).2.2 3).1
      ≠ some W25Q_STATE.W25Q_OK) :
    W25Q_Init T fuel d
      = initSetBit1 T fuel (W25Q_ReadStatusStruct T (W25Q_ReadID T d 0).2.2 none).2.2 3 := by
  unfold W25Q_Init
  dsimp only
  rw [if_neg (not_not.mpr h1), if_neg (not_not.mpr h2)]
  have hm : MEM_FLASH_SIZE > 128 := by decide
  rw [if_pos hm, if_pos h3, if_pos h4, if_pos h4]

/-- When the first two steps of `W25Q_Init` succeed and the stored `ADP` and `ADS` flags
are set and `QE` is clear, a failing read-modify-write of status register 2 ends the
initialisation. -/
lemma init_qe_block_fails {σ : Type} (T : Transport σ) (fuel : Nat) (d : Driver σ)
    (h1 : (W25Q_ReadID T d 0).1 = W25Q_STATE.W25Q_OK)
    (h2 : (W25Q_ReadStatusStruct T (W25Q_ReadID T d 0).2.2 none).1 = W25Q_STATE.W25Q_OK)
    (h3 : (W25Q_ReadStatusStruct T (W25Q_ReadID T d 0).2.2 none).2.2.w25q_status.ADP = true)
    (h3b : (W25Q_ReadStatusStruct T (W25Q_ReadID T d 0).2.2 none).2.2.w25q_status.ADS = true)
    (h3c : (W25Q_ReadStatusStruct T (W25Q_ReadID T d 0).2.2 none).2.2.w25q_status.QE = false)
    (h4 : (initSetBit1 T fuel (W25Q_ReadStatusStruct T (W25Q_ReadID T d 0).2.2 none).2.2 2).1
      ≠ some W25Q_STATE.W25Q_OK) :
    W25Q_Init T fuel d
      = initSetBit1 T fuel (W25Q_ReadStatusStruct T (W25Q_ReadID T d 0).2.2 none).2.2 2 := by
  unfold W25Q_Init
  dsimp only
  rw [if_neg (not_not.mpr h1), if_neg (not_not.mpr h2)]
  have hm : MEM_FLASH_SIZE > 128 := by decide
  have hA : ¬ ((W25Q_ReadStatusStruct T (W25Q_ReadID T d 0).2.2 none).2.2.w25q_status.ADP
      = false) := by
    rw [h3]; decide
  have hS : ¬ ((W25Q_ReadStatusStruct T (W25Q_ReadID T d 0).2.2 none).2.2.w25q_status.ADS
      = false) := by
    rw [h3b]; decide
  simp only [if_pos hm, if_neg hA, if_neg hS, ne_eq, not_true_eq_false, if_false, if_pos h3c,
    if_pos h4]

/-- The read-modify-write of status register 2 in `W25Q_Init`, wherever the part for the
address mode has left the driver: `a1` is the outcome of the block for `ADP`, `a` the
outcome of the part for the address mode; when both are `W25Q_OK`, the stored `QE` flag
is clear and the block of register 2 does not end with `W25Q_OK`, `W25Q_Init` returns
the outcome of that block. -/
lemma init_qe_block_fails_general {σ : Type} (T : Transport σ) (fuel : Nat) (d dS : Driver σ)
    (a1 a : Option W25Q_STATE × Driver σ)
    (h1 : (W25Q_ReadID T d 0).1 = W25Q_STATE.W25Q_OK)
    (h2 : (W25Q_ReadStatusStruct T (W25Q_ReadID T d 0).2.2 none).1 = W25Q_STATE.W25Q_OK)
    (hS : dS = (W25Q_ReadStatusStruct T (W25Q_ReadID T d 0).2.2 none).2.2)
    (hA1 : a1 = (if dS.w25q_status.ADP = false then initSetBit1 T fuel dS 3
      else (some W25Q_STATE.W25Q_OK, dS)))
    (ha1 : a1.1 = some W25Q_STATE.W25Q_OK)
    (hA : a = (if a1.2.w25q_status.ADS = false then W25Q_Enter4ByteMode T fuel a1.2 true
      else (some W25Q_STATE.W25Q_OK, a1.2)))
    (ha : a.1 = some W25Q_STATE.W25Q_OK)
    (hQ : a.2.w25q_status.QE = false)
    (hne : (initSetBit1 T fuel a.2 2).1 ≠ some W25Q_STATE.W25Q_OK) :
    W25Q_Init T fuel d = initSetBit1 T fuel a.2 2 := by
  have hm : MEM_FLASH_SIZE > 128 := by decide
  have key : W25Q_Init T fuel d =
      (if a.1 ≠ some W25Q_STATE.W25Q_OK then a
       else if (if a.2.w25q_status.QE = false then initSetBit1 T fuel a.2 2
          else (some W25Q_STATE.W25Q_OK, a.2)).1 ≠ some W25Q_STATE.W25Q_OK then
         (if a.2.w25q_status.QE = false then initSetBit1 T fuel a.2 2
          else (some W25Q_STATE.W25Q_OK, a.2))
       else (some (W25Q_ReadStatusStruct T (if a.2.w25q_status.QE = false then
            initSetBit1 T fuel a.2 2 else (some W25Q_STATE.W25Q_OK, a.2)).2 none).1,
          (W25Q_ReadStatusStruct T (if a.2.w25q_status.QE = false then
            initSetBit1 T fuel a.2 2 else (some W25Q_STATE.W25Q_OK, a.2)).2 none).2.2)) := by
    have hA2 : a = (if MEM_FLASH_SIZE > 128 then
        (if a1.1 ≠ some W25Q_STATE.W25Q_OK then a1
         else if a1.2.w25q_status.ADS = false then W25Q_Enter4ByteMode T fuel a1.2 true
         else (some W25Q_STATE.W25Q_OK, a1.2))
        else (some W25Q_STATE.W25Q_OK, dS)) := by
      rw [if_pos hm, if_neg (not_not.mpr ha1)]
      exact hA
    rw [hA2, hA1, hS]
    unfold W25Q_Init
    dsimp only
    rw [if_neg (not_not.mpr h1), if_neg (not_not.mpr h2)]
  rw [key, if_neg (not_not.mpr ha), if_pos hQ, if_pos hne]

/-- C25: whenever `W25Q_Init` writes a status register it sets only bit1 of the byte it
has just read.  `initSetBit1 T fuel d k` is the read-modify-write block of `W25Q_Init`
for register `k` (3 for `ADP`, 2 for `QE`).  (1) If the read of the register fails, the
block returns `W25Q_SPI_ERR` in the state the read left, and its only HAL calls are the
read command of that register and possibly its receive: no transmit, no write enable, no
write command.  (2) If the read succeeds and stored the byte `r`, the block is exactly
`W25Q_WriteStatusReg` of `r ||| 2` to the same register; `r ||| 2` has bit1 set and
agrees with `r` in every other bit, and after the read the block makes only busy polls,
the write enable, the write command of that register (`0x31` for register 2, `0x11` for
register 3) and the transmit of the single byte `r ||| 2`.  (3) The HAL calls of a whole
`W25Q_Init` split into segments without any transmit and such blocks, so every byte
`W25Q_Init` transmits is the byte just read from the same register with bit1 set.  (4)
When the identifier read and the status reads succeed and the block of register `k` is
the first one to run (stored `ADP` clear for register 3; stored `ADP` and `ADS` set and
`QE` clear for register 2), a failing register read makes `W25Q_Init` return
`W25Q_SPI_ERR` in the state that read left.  (5) The same holds for register 2 on every
path: with `dS` the state after the identifier read and the status reads, `a1` the
outcome of the block of register 3 (skipped when the stored `ADP` is set) and `a` the
outcome of the enter-4-byte-mode step (skipped when the stored `ADS` is set), whenever
both outcomes are `W25Q_OK`, the stored `QE` is clear and the read of register 2 fails,
`W25Q_Init` returns `W25Q_SPI_ERR` in the state that read left, and after the state
`a.2` it has made no HAL call but the read command of register 2 and possibly its
receive: no transmit, no write enable, no write command. -/
theorem init_status_writes_set_only_bit1 {σ : Type} (T : Transport σ) (fuel : Nat)
    (d : Driver σ) (k rop wop : Nat)
    (hk : (k = 2 ∧ rop = W25Q_READ_SR2 ∧ wop = W25Q_WRITE_SR2) ∨
      (k = 3 ∧ rop = W25Q_READ_SR3 ∧ wop = W25Q_WRITE_SR3)) :
    ((W25Q_ReadStatusReg T d 0 k).1 ≠ W25Q_STATE.W25Q_OK →
      initSetBit1 T fuel d k
        = (some W25Q_STATE.W25Q_SPI_ERR, (W25Q_ReadStatusReg T d 0 k).2.2) ∧
      ∃ l : List Event, (initSetBit1 T fuel d k).2.trace = d.trace ++ l ∧
        (∀ e ∈ l, noTransmit e) ∧
        ∀ (c : QSPI_CommandTypeDef) (st : HAL_StatusTypeDef), Event.command c st ∈ l →
          c = readStatusRegCom rop) ∧
    ((W25Q_ReadStatusReg T d 0 k).1 = W25Q_STATE.W25Q_OK →
      ∃ (x : List Nat) (rest : List Event),
        (W25Q_ReadStatusReg T d 0 k).2.1 = receivedByte x 0 ∧
        initSetBit1 T fuel d k
          = W25Q_WriteStatusReg T fuel (W25Q_ReadStatusReg T d 0 k).2.2
              (receivedByte x 0 ||| 2) k ∧
        (receivedByte x 0 ||| 2).testBit 1 = true ∧
        (∀ i : Nat, i ≠ 1 → (receivedByte x 0 ||| 2).testBit i = (receivedByte x 0).testBit i) ∧
        (initSetBit1 T fuel d k).2.trace = d.trace ++
          ([Event.command (readStatusRegCom rop) HAL_StatusTypeDef.HAL_OK,
            Event.receive x HAL_StatusTypeDef.HAL_OK] ++ rest) ∧
        ∀ e ∈ rest, pollEvent e ∨ (∃ st, e = Event.command (writeEnableCom true) st) ∨
          (∃ st, e = Event.command (writeStatusRegCom wop) st) ∨
          (∃ st, e = Event.transmit [receivedByte x 0 ||| 2] st)) ∧
    (writeStatusRegCom W25Q_WRITE_SR2).Instruction = 0x31 ∧
    (writeStatusRegCom W25Q_WRITE_SR3).Instruction = 0x11 ∧
    SetBitTrace d (W25Q_Init T fuel d).2 ∧
    ((W25Q_ReadID T d 0).1 = W25Q_STATE.W25Q_OK →
      (W25Q_ReadStatusStruct T (W25Q_ReadID T d 0).2.2 none).1 = W25Q_STATE.W25Q_OK →
      ((k = 3 ∧
          (W25Q_ReadStatusStruct T (W25Q_ReadID T d 0).2.2 none).2.2.w25q_status.ADP = false) ∨
        (k = 2 ∧
          (W25Q_ReadStatusStruct T (W25Q_ReadID T d 0).2.2 none).2.2.w25q_status.ADP = true ∧
          (W25Q_ReadStatusStruct T (W25Q_ReadID T d 0).2.2 none).2.2.w25q_status.ADS = true ∧
          (W25Q_ReadStatusStruct T (W25Q_ReadID T d 0).2.2 none).2.2.w25q_status.QE
            = false)) →
      (W25Q_ReadStatusReg T (W25Q_ReadStatusStruct T (W25Q_ReadID T d 0).2.2 none).2.2 0 k).1
        ≠ W25Q_STATE.W25Q_OK →
      W25Q_Init T fuel d = (some W25Q_STATE.W25Q_SPI_ERR,
        (W25Q_ReadStatusReg T
          (W25Q_ReadStatusStruct T (W25Q_ReadID T d 0).2.2 none).2.2 0 k).2.2)) ∧
    (∀ (dS : Driver σ) (a1 a : Option W25Q_STATE × Driver σ),
      (W25Q_ReadID T d 0).1 = W25Q_STATE.W25Q_OK →
      (W25Q_ReadStatusStruct T (W25Q_ReadID T d 0).2.2 none).1 = W25Q_STATE.W25Q_OK →
      dS = (W25Q_ReadStatusStruct T (W25Q_ReadID T d 0).2.2 none).2.2 →
      a1 = (if dS.w25q_status.ADP = false then initSetBit1 T fuel dS 3
        else (some W25Q_STATE.W25Q_OK, dS)) →
      a1.1 = some W25Q_STATE.W25Q_OK →
      a = (if a1.2.w25q_status.ADS = false then W25Q_Enter4ByteMode T fuel a1.2 true
        else (some W25Q_STATE.W25Q_OK, a1.2)) →
      a.1 = some W25Q_STATE.W25Q_OK →
      a.2.w25q_status.QE = false →
      (W25Q_ReadStatusReg T a.2 0 2).1 ≠ W25Q_STATE.W25Q_OK →
      W25Q_Init T fuel d
        = (some W25Q_STATE.W25Q_SPI_ERR, (W25Q_ReadStatusReg T a.2 0 2).2.2) ∧
      ∃ l : List Event, (W25Q_Init T fuel d).2.trace = a.2.trace ++ l ∧
        (∀ e ∈ l, noTransmit e) ∧
        ∀ (c : QSPI_CommandTypeDef) (st : HAL_StatusTypeDef), Event.command c st ∈ l →
          c = readStatusRegCom W25Q_READ_SR2) := by
  have hrop : (k = 1 ∧ rop = W25Q_READ_SR1) ∨ (k = 2 ∧ rop = W25Q_READ_SR2) ∨
      (k = 3 ∧ rop = W25Q_READ_SR3) := by
    rcases hk with ⟨h1, h2, _⟩ | ⟨h1, h2, _⟩
    · exact Or.inr (Or.inl ⟨h1, h2⟩)
    · exact Or.inr (Or.inr ⟨h1, h2⟩)
  have hfail : ∀ x : Driver σ, (W25Q_ReadStatusReg T x 0 k).1 ≠ W25Q_STATE.W25Q_OK →
      initSetBit1 T fuel x k
        = (some W25Q_STATE.W25Q_SPI_ERR, (W25Q_ReadStatusReg T x 0 k).2.2) := by
    intro x hx
    rw [initSetBit1_fail T fuel x k hx, (readStatusReg_fail T x 0 k rop hrop hx).1]
  have hcalls : ∀ (x : Driver σ) (j jop : Nat),
      ((j = 1 ∧ jop = W25Q_READ_SR1) ∨ (j = 2 ∧ jop = W25Q_READ_SR2) ∨
        (j = 3 ∧ jop = W25Q_READ_SR3)) →
      (W25Q_ReadStatusReg T x 0 j).1 ≠ W25Q_STATE.W25Q_OK →
      ∃ l : List Event, (W25Q_ReadStatusReg T x 0 j).2.2.trace = x.trace ++ l ∧
        (∀ e ∈ l, noTransmit e) ∧
        ∀ (c : QSPI_CommandTypeDef) (st : HAL_StatusTypeDef), Event.command c st ∈ l →
          c = readStatusRegCom jop := by
    intro x j jop hj h
    obtain ⟨_, l, hl, hc⟩ := readStatusReg_fail T x 0 j jop hj h
    obtain ⟨l2, hl2, hq⟩ := readStatusReg_calls T x 0 j
    have hll : l = l2 := List.append_cancel_left (hl.symm.trans hl2)
    refine ⟨l, hl, ?_, hc⟩
    rw [hll]
    exact hq
  refine ⟨?_, ?_, rfl, rfl, init_setBitTrace T fuel d, ?_, ?_⟩
  · intro h
    refine ⟨hfail d h, ?_⟩
    rw [hfail d h]
    exact hcalls d k rop hrop h
  · intro h
    obtain ⟨x, rest, hx, heq, htr, hev⟩ := initSetBit1_ok T fuel d k rop wop hk h
    obtain ⟨_, hbit, hother⟩ := setBit1_facts _ (receivedByte_lt x 0 (by decide))
    exact ⟨x, rest, hx, heq, hbit, hother, htr, hev⟩
  · intro h1 h2 hflags hr
    have hne : (initSetBit1 T fuel
        (W25Q_ReadStatusStruct T (W25Q_ReadID T d 0).2.2 none).2.2 k).1
          ≠ some W25Q_STATE.W25Q_OK := by
      rw [hfail _ hr]
      simp
    rcases hflags with ⟨rfl, hA⟩ | ⟨rfl, hA, hS, hQ⟩
    · rw [init_adp_block_fails T fuel d h1 h2 hA hne]
      exact hfail _ hr
    · rw [init_qe_block_fails T fuel d h1 h2 hA hS hQ hne]
      exact hfail _ hr
  · intro dS a1 a h1 h2 hS hA1 ha1 hA ha hQ hr
    have hblock : initSetBit1 T fuel a.2 2
        = (some W25Q_STATE.W25Q_SPI_ERR, (W25Q_ReadStatusReg T a.2 0 2).2.2) := by
      rw [initSetBit1_fail T fuel a.2 2 hr,
        (readStatusReg_fail T a.2 0 2 W25Q_READ_SR2 (Or.inr (Or.inl ⟨rfl, rfl⟩)) hr).1]
    have hne : (initSetBit1 T fuel a.2 2).1 ≠ some W25Q_STATE.W25Q_OK := by
      rw [hblock]
      simp
    have hinit := init_qe_block_fails_general T fuel d dS a1 a h1 h2 hS hA1 ha1 hA ha hQ hne
    rw [hinit, hblock]
    exact ⟨rfl, hcalls a.2 2 W25Q_READ_SR2 (Or.inr (Or.inl ⟨rfl, rfl⟩)) hr⟩

/-- A chip that reports status register 2 = `0x80` and status register 3 = `0x01`: the
initialisation reads `0x01` from register 3 and transmits `0x03`, reads `0x80` from
register 2 and transmits `0x82`.  A first start-up (stored flags clear, registers
`0x00`) on a bus that refuses the fourteenth command, which is the read of register 2
before its write: `W25Q_Init` has written register 3 and entered the 4-byte mode, returns
`W25Q_SPI_ERR` and ends with the refused read, without the write enable, the write
command `0x31` or a transmit for register 2.  The same start-up on a bus that refuses
the fifth command, the read of register 3 before its write: `W25Q_Init` returns
`W25Q_SPI_ERR` and ends with the refused read. -/
theorem init_status_writes_set_only_bit1_witness :
    ((2 = 2 ∧ W25Q_READ_SR2 = 0x35 ∧ W25Q_WRITE_SR2 = 0x31) ∨
      (2 = 3 ∧ W25Q_READ_SR2 = 0x15 ∧ W25Q_WRITE_SR2 = 0x11)) ∧
    (W25Q_ReadStatusReg statusSim (statusDriver clearedStatus 0 0x80 0x01 none) 0 2).1
      = W25Q_STATE.W25Q_OK ∧
    initSetBit1 statusSim 1 (statusDriver clearedStatus 0 0x80 0x01 none) 2
      = W25Q_WriteStatusReg statusSim 1
          (W25Q_ReadStatusReg statusSim (statusDriver clearedStatus 0 0x80 0x01 none) 0 2).2.2
          0x82 2 ∧
    SetBitTrace (statusDriver clearedStatus 0 0x80 0x01 none)
      (W25Q_Init statusSim 1 (statusDriver clearedStatus 0 0x80 0x01 none)).2 ∧
    (W25Q_Init statusSim 1 (statusDriver clearedStatus 0 0x80 0x01 none)).1
      = some W25Q_STATE.W25Q_OK ∧
    ((W25Q_Init statusSim 1 (statusDriver clearedStatus 0 0x80 0x01 none)).2.trace.filter
      (fun e => match e with
        | Event.transmit _ _ => true
        | Event.command c _ => decide (c.Instruction = 0x31 ∨ c.Instruction = 0x11)
        | _ => false))
      = [Event.command (writeStatusRegCom W25Q_WRITE_SR3) HAL_StatusTypeDef.HAL_OK,
         Event.transmit [0x03] HAL_StatusTypeDef.HAL_OK,
         Event.command (writeStatusRegCom W25Q_WRITE_SR2) HAL_StatusTypeDef.HAL_OK,
         Event.transmit [0x82] HAL_StatusTypeDef.HAL_OK] ∧
    (W25Q_Init budgetSim 1 (budgetDriver clearedStatus 0 0 0 13)).1
      = some W25Q_STATE.W25Q_SPI_ERR ∧
    (W25Q_Init budgetSim 1 (budgetDriver clearedStatus 0 0 0 13)).2.trace
      = [Event.command readIDCom HAL_StatusTypeDef.HAL_OK,
         Event.receive [] HAL_StatusTypeDef.HAL_OK,
         Event.command (readStatusRegCom W25Q_READ_SR1) HAL_StatusTypeDef.HAL_OK,
         Event.receive [0x00] HAL_StatusTypeDef.HAL_OK,
         Event.command (readStatusRegCom W25Q_READ_SR2) HAL_StatusTypeDef.HAL_OK,
         Event.receive [0x00] HAL_StatusTypeDef.HAL_OK,
         Event.command (readStatusRegCom W25Q_READ_SR3) HAL_StatusTypeDef.HAL_OK,
         Event.receive [0x00] HAL_StatusTypeDef.HAL_OK,
         Event.command (readStatusRegCom W25Q_READ_SR3) HAL_StatusTypeDef.HAL_OK,
         Event.receive [0x00] HAL_StatusTypeDef.HAL_OK,
         Event.command (readStatusRegCom W25Q_READ_SR1) HAL_StatusTypeDef.HAL_OK,
         Event.receive [0x00] HAL_StatusTypeDef.HAL_OK,
         Event.command (writeEnableCom true) HAL_StatusTypeDef.HAL_OK,
         Event.command (writeStatusRegCom W25Q_WRITE_SR3) HAL_StatusTypeDef.HAL_OK,
         Event.transmit [0x02] HAL_StatusTypeDef.HAL_OK,
         Event.command (readStatusRegCom W25Q_READ_SR1) HAL_StatusTypeDef.HAL_OK,
         Event.receive [0x00] HAL_StatusTypeDef.HAL_OK,
         Event.command (enter4ByteModeCom true) HAL_StatusTypeDef.HAL_OK,
         Event.command (readStatusRegCom W25Q_READ_SR1) HAL_StatusTypeDef.HAL_OK,
         Event.receive [0x00] HAL_StatusTypeDef.HAL_OK,
         Event.command (readStatusRegCom W25Q_READ_SR2) HAL_StatusTypeDef.HAL_OK,
         Event.receive [0x00] HAL_StatusTypeDef.HAL_OK,
         Event.command (readStatusRegCom W25Q_READ_SR3) HAL_StatusTypeDef.HAL_OK,
         Event.receive [0x00] HAL_StatusTypeDef.HAL_OK,
         Event.command (readStatusRegCom W25Q_READ_SR2) HAL_StatusTypeDef.HAL_ERROR] ∧
    (W25Q_Init budgetSim 1 (budgetDriver clearedStatus 0 0 0 4)).1
      = some W25Q_STATE.W25Q_SPI_ERR ∧
    (W25Q_Init budgetSim 1 (budgetDriver clearedStatus 0 0 0 4)).2.trace
      = [Event.command readIDCom HAL_StatusTypeDef.HAL_OK,
         Event.receive [] HAL_StatusTypeDef.HAL_OK,
         Event.command (readStatusRegCom W25Q_READ_SR1) HAL_StatusTypeDef.HAL_OK,
         Event.receive [0x00] HAL_StatusTypeDef.HAL_OK,
         Event.command (readStatusRegCom W25Q_READ_SR2) HAL_StatusTypeDef.HAL_OK,
         Event.receive [0x00] HAL_StatusTypeDef.HAL_OK,
         Event.command (readStatusRegCom W25Q_READ_SR3) HAL_StatusTypeDef.HAL_OK,
         Event.receive [0x00] HAL_StatusTypeDef.HAL_OK,
         Event.command (readStatusRegCom W25Q_READ_SR3) HAL_StatusTypeDef.HAL_ERROR] :=
  ⟨Or.inl ⟨rfl, rfl, rfl⟩, rfl,
    by
      obtain ⟨x, rest, hx, heq, _⟩ :=
        (init_status_writes_set_only_bit1 statusSim 1
          (statusDriver clearedStatus 0 0x80 0x01 none) 2 W25Q_READ_SR2 W25Q_WRITE_SR2
          (Or.inl ⟨rfl, rfl, rfl⟩)).2.1 rfl
      rw [heq, ← hx]
      rfl,
    (init_status_writes_set_only_bit1 statusSim 1
      (statusDriver clearedStatus 0 0x80 0x01 none) 2 W25Q_READ_SR2 W25Q_WRITE_SR2
      (Or.inl ⟨rfl, rfl, rfl⟩)).2.2.2.2.1,
    rfl, by decide,
    congrArg Prod.fst
      ((init_status_writes_set_only_bit1 budgetSim 1 (budgetDriver clearedStatus 0 0 0 13) 2
        W25Q_READ_SR2 W25Q_WRITE_SR2 (Or.inl ⟨rfl, rfl, rfl⟩)).2.2.2.2.2.2 _ _ _
        rfl rfl rfl rfl rfl rfl rfl rfl (by decide)).1,
    rfl,
    congrArg Prod.fst
      ((init_status_writes_set_only_bit1 budgetSim 1 (budgetDriver clearedStatus 0 0 0 4) 3
        W25Q_READ_SR3 W25Q_WRITE_SR3 (Or.inr ⟨rfl, rfl, rfl⟩)).2.2.2.2.2.1
        rfl rfl (Or.inl ⟨rfl, rfl⟩) (by decide)),
    rfl⟩


/-! ## Initialisation and software reset on the stored snapshot -/

lemma readStatusStruct_none_status {σ : Type} (T : Transport σ) (d : Driver σ) :
    (W25Q_ReadStatusStruct T d none).2.2.w25q_status = d.w25q_status := by
  unfold W25Q_ReadStatusStruct
  dsimp only
  split_ifs <;> simp only [readStatusReg_status]

/-- After a successful status read `W25Q_SwReset` returns `W25Q_CHIP_ERR` at once when
`force` is false or the stored `BUSY` or `SUS` flag is set. -/
lemma swReset_chip_err {σ : Type} (T : Transport σ) (fuel : Nat) (d : Driver σ)
    (force : Bool)
    (h1 : (W25Q_ReadStatusStruct T d none).1 = W25Q_STATE.W25Q_OK)
    (h2 : force = false ∨ d.w25q_status.BUSY = true ∨ d.w25q_status.SUS = true) :
    W25Q_SwReset T fuel d force
      = (some W25Q_STATE.W25Q_CHIP_ERR, (W25Q_ReadStatusStruct T d none).2.2) := by
  unfold W25Q_SwReset
  dsimp only
  rw [if_neg (not_not.mpr h1), readStatusStruct_none_status, if_pos h2]

/-- C21 (the code at the failing input): a chip whose registers report `QE` (status
register 2 = `0x02`), `ADS` and `ADP` (status register 3 = `0x03`), driven from the
zero-initialised snapshot.  The first `W25Q_Init` returns `W25Q_OK` and leaves the stored
`ADP`, `ADS` and `QE` flags cleared, because its status reads pass a null output.  The
second consecutive `W25Q_Init` returns `W25Q_OK` and repeats every HAL call of the first
one: two write enables, the write of status register 3, the enter-4-byte-mode command
and the write of status register 2.  With the three flags set in the stored snapshot the
same function issues only reads, whatever the registers hold. -/
theorem init_second_call_writes_again :
    (decodeStatus 0 0x02 0x03 false).ADP = true ∧
    (decodeStatus 0 0x02 0x03 false).ADS = true ∧
    (decodeStatus 0 0x02 0x03 false).QE = true ∧
    (W25Q_Init statusSim 1 (statusDriver clearedStatus 0 0x02 0x03 none)).1
      = some W25Q_STATE.W25Q_OK ∧
    (W25Q_Init statusSim 1 (statusDriver clearedStatus 0 0x02 0x03 none)).2.w25q_status
      = { clearedStatus with WEL := true } ∧
    (W25Q_Init statusSim 1
      (W25Q_Init statusSim 1 (statusDriver clearedStatus 0 0x02 0x03 none)).2).1
      = some W25Q_STATE.W25Q_OK ∧
    (W25Q_Init statusSim 1
      (W25Q_Init statusSim 1 (statusDriver clearedStatus 0 0x02 0x03 none)).2).2.trace
      = (W25Q_Init statusSim 1 (statusDriver clearedStatus 0 0x02 0x03 none)).2.trace ++
        [Event.command readIDCom HAL_StatusTypeDef.HAL_OK,
         Event.receive [] HAL_StatusTypeDef.HAL_OK,
         Event.command (readStatusRegCom W25Q_READ_SR1) HAL_StatusTypeDef.HAL_OK,
         Event.receive [0x00] HAL_StatusTypeDef.HAL_OK,
         Event.command (readStatusRegCom W25Q_READ_SR2) HAL_StatusTypeDef.HAL_OK,
         Event.receive [0x02] HAL_StatusTypeDef.HAL_OK,
         Event.command (readStatusRegCom W25Q_READ_SR3) HAL_StatusTypeDef.HAL_OK,
         Event.receive [0x03] HAL_StatusTypeDef.HAL_OK,
         Event.command (readStatusRegCom W25Q_READ_SR3) HAL_StatusTypeDef.HAL_OK,
         Event.receive [0x03] HAL_StatusTypeDef.HAL_OK,
         Event.command (readStatusRegCom W25Q_READ_SR1) HAL_StatusTypeDef.HAL_OK,
         Event.receive [0x00] HAL_StatusTypeDef.HAL_OK,
         Event.command (writeEnableCom true) HAL_StatusTypeDef.HAL_OK,
         Event.command (writeStatusRegCom W25Q_WRITE_SR3) HAL_StatusTypeDef.HAL_OK,
         Event.transmit [0x03] HAL_StatusTypeDef.HAL_OK,
         Event.command (readStatusRegCom W25Q_READ_SR1) HAL_StatusTypeDef.HAL_OK,
         Event.receive [0x00] HAL_StatusTypeDef.HAL_OK,
         Event.command (enter4ByteModeCom true) HAL_StatusTypeDef.HAL_OK,
         Event.command (readStatusRegCom W25Q_READ_SR1) HAL_StatusTypeDef.HAL_OK,
         Event.receive [0x00] HAL_StatusTypeDef.HAL_OK,
         Event.command (readStatusRegCom W25Q_READ_SR2) HAL_StatusTypeDef.HAL_OK,
         Event.receive [0x02] HAL_StatusTypeDef.HAL_OK,
         Event.command (readStatusRegCom W25Q_READ_SR3) HAL_StatusTypeDef.HAL_OK,
         Event.receive [0x03] HAL_StatusTypeDef.HAL_OK,
         Event.command (readStatusRegCom W25Q_READ_SR2) HAL_StatusTypeDef.HAL_OK,
         Event.receive [0x02] HAL_StatusTypeDef.HAL_OK,
         Event.command (readStatusRegCom W25Q_READ_SR1) HAL_StatusTypeDef.HAL_OK,
         Event.receive [0x00] HAL_StatusTypeDef.HAL_OK,
         Event.command (writeEnableCom true) HAL_StatusTypeDef.HAL_OK,
         Event.command (writeStatusRegCom W25Q_WRITE_SR2) HAL_StatusTypeDef.HAL_OK,
         Event.transmit [0x02] HAL_StatusTypeDef.HAL_OK,
         Event.command (readStatusRegCom W25Q_READ_SR1) HAL_StatusTypeDef.HAL_OK,
         Event.receive [0x00] HAL_StatusTypeDef.HAL_OK,
         Event.command (readStatusRegCom W25Q_READ_SR2) HAL_StatusTypeDef.HAL_OK,
         Event.receive [0x02] HAL_StatusTypeDef.HAL_OK,
         Event.command (readStatusRegCom W25Q_READ_SR3) HAL_StatusTypeDef.HAL_OK,
         Event.receive [0x03] HAL_StatusTypeDef.HAL_OK] ∧
    (writeEnableCom true).Instruction = 0x06 ∧
    (writeStatusRegCom W25Q_WRITE_SR3).Instruction = 0x11 ∧
    (enter4ByteModeCom true).Instruction = 0xB7 ∧
    (writeStatusRegCom W25Q_WRITE_SR2).Instruction = 0x31 ∧
    (W25Q_Init statusSim 1
      (statusDriver { clearedStatus with QE := true, ADS := true, ADP := true }
        0 0 0 none)).2.trace
      = [Event.command readIDCom HAL_StatusTypeDef.HAL_OK,
         Event.receive [] HAL_StatusTypeDef.HAL_OK,
         Event.command (readStatusRegCom W25Q_READ_SR1) HAL_StatusTypeDef.HAL_OK,
         Event.receive [0x00] HAL_StatusTypeDef.HAL_OK,
         Event.command (readStatusRegCom W25Q_READ_SR2) HAL_StatusTypeDef.HAL_OK,
         Event.receive [0x00] HAL_StatusTypeDef.HAL_OK,
         Event.command (readStatusRegCom W25Q_READ_SR3) HAL_StatusTypeDef.HAL_OK,
         Event.receive [0x00] HAL_StatusTypeDef.HAL_OK,
         Event.command (readStatusRegCom W25Q_READ_SR1) HAL_StatusTypeDef.HAL_OK,
         Event.receive [0x00] HAL_StatusTypeDef.HAL_OK,
         Event.command (readStatusRegCom W25Q_READ_SR2) HAL_StatusTypeDef.HAL_OK,
         Event.receive [0x00] HAL_StatusTypeDef.HAL_OK,
         Event.command (readStatusRegCom W25Q_READ_SR3) HAL_StatusTypeDef.HAL_OK,
         Event.receive [0x00] HAL_StatusTypeDef.HAL_OK] := by
  refine ⟨by decide, by decide, by decide, rfl, rfl, rfl, rfl, rfl, rfl, rfl, rfl, rfl⟩

/-- C22 (the code at the failing input): `W25Q_SwReset(false)` returns `W25Q_CHIP_ERR`
whenever its status read succeeds, because the test is `!force || BUSY || SUS`.  On an
idle chip (the three status registers read `0x00`, neither busy nor suspended) the call
makes the three status reads, returns `W25Q_CHIP_ERR` and issues neither the
enable-reset opcode `0x66` nor the reset opcode `0x99`. -/
theorem swReset_unforced_always_chip_err :
    (∀ (σ : Type) (T : Transport σ) (fuel : Nat) (d : Driver σ),
      (W25Q_ReadStatusStruct T d none).1 = W25Q_STATE.W25Q_OK →
      W25Q_SwReset T fuel d false
        = (some W25Q_STATE.W25Q_CHIP_ERR, (W25Q_ReadStatusStruct T d none).2.2)) ∧
    (decodeStatus 0 0 0 false).BUSY = false ∧
    (decodeStatus 0 0 0 false).SUS = false ∧
    (W25Q_SwReset statusSim 1 (statusDriver clearedStatus 0 0 0 none) false).1
      = some W25Q_STATE.W25Q_CHIP_ERR ∧
    (W25Q_SwReset statusSim 1 (statusDriver clearedStatus 0 0 0 none) false).2.trace
      = [Event.command (readStatusRegCom W25Q_READ_SR1) HAL_StatusTypeDef.HAL_OK,
         Event.receive [0x00] HAL_StatusTypeDef.HAL_OK,
         Event.command (readStatusRegCom W25Q_READ_SR2) HAL_StatusTypeDef.HAL_OK,
         Event.receive [0x00] HAL_StatusTypeDef.HAL_OK,
         Event.command (readStatusRegCom W25Q_READ_SR3) HAL_StatusTypeDef.HAL_OK,
         Event.receive [0x00] HAL_StatusTypeDef.HAL_OK] ∧
    (swResetCom W25Q_ENABLE_RST).Instruction = 0x66 ∧
    (swResetCom W25Q_RESET).Instruction = 0x99 := by
  refine ⟨?_, by decide, by decide, rfl, rfl, rfl, rfl⟩
  intro σ T fuel d h
  exact swReset_chip_err T fuel d false h (Or.inl rfl)

/-- C23 (the code at the failing input): `W25Q_SwReset(true)` returns `W25Q_CHIP_ERR`
after its status read whenever the stored `BUSY` or `SUS` flag is set, before the wait
loop and the resume are reached.  After one `W25Q_IsBusy` on a busy chip (status register
1 = `0x01`) has stored `BUSY`, the forced reset makes its three status reads and returns
`W25Q_CHIP_ERR` without polling and without the opcodes `0x66` and `0x99`; after a
`W25Q_ReadStatusStruct` with an output structure on a suspended chip (status register 2 =
`0x80`) has stored `SUS`, the forced reset returns `W25Q_CHIP_ERR` without the resume
opcode `0x7A` and without the reset opcodes. -/
theorem swReset_forced_aborts_on_stored_flags :
    (∀ (σ : Type) (T : Transport σ) (fuel : Nat) (d : Driver σ),
      (W25Q_ReadStatusStruct T d none).1 = W25Q_STATE.W25Q_OK →
      d.w25q_status.BUSY = true ∨ d.w25q_status.SUS = true →
      W25Q_SwReset T fuel d true
        = (some W25Q_STATE.W25Q_CHIP_ERR, (W25Q_ReadStatusStruct T d none).2.2)) ∧
    (W25Q_IsBusy statusSim (statusDriver clearedStatus 0x01 0 0 none)).2.w25q_status.BUSY
      = true ∧
    (W25Q_SwReset statusSim 3
      (W25Q_IsBusy statusSim (statusDriver clearedStatus 0x01 0 0 none)).2 true).1
      = some W25Q_STATE.W25Q_CHIP_ERR ∧
    (W25Q_SwReset statusSim 3
      (W25Q_IsBusy statusSim (statusDriver clearedStatus 0x01 0 0 none)).2 true).2.trace
      = (W25Q_IsBusy statusSim (statusDriver clearedStatus 0x01 0 0 none)).2.trace ++
        [Event.command (readStatusRegCom W25Q_READ_SR1) HAL_StatusTypeDef.HAL_OK,
         Event.receive [0x01] HAL_StatusTypeDef.HAL_OK,
         Event.command (readStatusRegCom W25Q_READ_SR2) HAL_StatusTypeDef.HAL_OK,
         Event.receive [0x00] HAL_StatusTypeDef.HAL_OK,
         Event.command (readStatusRegCom W25Q_READ_SR3) HAL_StatusTypeDef.HAL_OK,
         Event.receive [0x00] HAL_StatusTypeDef.HAL_OK] ∧
    (W25Q_ReadStatusStruct statusSim (statusDriver clearedStatus 0 0x80 0 none)
      (some clearedStatus)).2.2.w25q_status.SUS = true ∧
    (W25Q_SwReset statusSim 3
      (W25Q_ReadStatusStruct statusSim (statusDriver clearedStatus 0 0x80 0 none)
        (some clearedStatus)).2.2 true).1 = some W25Q_STATE.W25Q_CHIP_ERR ∧
    (W25Q_SwReset statusSim 3
      (W25Q_ReadStatusStruct statusSim (statusDriver clearedStatus 0 0x80 0 none)
        (some clearedStatus)).2.2 true).2.trace
      = (W25Q_ReadStatusStruct statusSim (statusDriver clearedStatus 0 0x80 0 none)
          (some clearedStatus)).2.2.trace ++
        [Event.command (readStatusRegCom W25Q_READ_SR1) HAL_StatusTypeDef.HAL_OK,
         Event.receive [0x00] HAL_StatusTypeDef.HAL_OK,
         Event.command (readStatusRegCom W25Q_READ_SR2) HAL_StatusTypeDef.HAL_OK,
         Event.receive [0x80] HAL_StatusTypeDef.HAL_OK,
         Event.command (readStatusRegCom W25Q_READ_SR3) HAL_StatusTypeDef.HAL_OK,
         Event.receive [0x00] HAL_StatusTypeDef.HAL_OK] ∧
    progResumeCom.Instruction = 0x7A ∧
    (swResetCom W25Q_ENABLE_RST).Instruction = 0x66 ∧
    (swResetCom W25Q_RESET).Instruction = 0x99 := by
  refine ⟨?_, by decide, rfl, rfl, by decide, rfl, rfl, rfl, rfl, rfl⟩
  intro σ T fuel d h hf
  exact swReset_chip_err T fuel d true h (Or.inr hf)

end W25Q
